import Mathlib

/-!
# Homing projectile motion

A shallow embedding of `HomingProjectileMotion.h` / `HomingProjectileMotion.cpp`
and of the engine vector library the two files call, followed by theorems about
the embedded program.

The program computes in `float`.  The embedding idealises `float` as an ordered
field `K` together with the math-library calls the program makes (`FMath K`);
the real numbers are an instance.  Every definition of the program is a
computable function over `K`.  Rounding, overflow and not-a-number values are
outside the embedding: a quotient by zero is zero in `K`, so the theorems rely on
quotients whose divisor they show to be non-zero, and the one statement about a
quotient by zero only says that its value is not positive.
-/

set_option linter.unusedVariables false
set_option linter.unusedSectionVars false

namespace HPM

/-! ## Arithmetic -/

/-- The math-library calls of the program (`FMath::Sqrt`, `FMath::SinCos`, `FMath::Acos`,
`FMath::Atan2`, the constant `PI`) over the number type `K`, with the exact-arithmetic facts
about them that the proofs use.  `Atan2 y x` is the angle of the point `(x, y)`. -/
class FMath (K : Type) [LinearOrderedField K] [FloorRing K] where
  /-- The square root `FMath::Sqrt`. -/
  Sqrt : K → K
  /-- The sine `FMath::Sin`, argument in radians. -/
  Sin : K → K
  /-- The cosine `FMath::Cos`, argument in radians. -/
  Cos : K → K
  /-- The inverse cosine `FMath::Acos`. -/
  Acos : K → K
  /-- The two-argument arc tangent `FMath::Atan2 (Y, X)`. -/
  Atan2 : K → K → K
  /-- The constant `PI`. -/
  PI : K
  Sqrt_nonneg : ∀ x, 0 ≤ Sqrt x
  Sqrt_mul_self : ∀ x, 0 ≤ x → Sqrt x * Sqrt x = x
  Sin_sq_add_Cos_sq : ∀ x, Sin x * Sin x + Cos x * Cos x = 1
  Sin_zero : Sin 0 = 0
  Cos_zero : Cos 0 = 1
  PI_pos : 0 < PI
  PI_lt_four : PI < 4
  Acos_zero : Acos 0 = PI / 2
  Sin_half_PI : Sin (PI / 2) = 1
  Cos_half_PI : Cos (PI / 2) = 0
  Sqrt_mul_Cos_Atan2 : ∀ y x, Sqrt (x * x + y * y) * Cos (Atan2 y x) = x
  Sqrt_mul_Sin_Atan2 : ∀ y x, Sqrt (x * x + y * y) * Sin (Atan2 y x) = y
  Atan2_zero_zero : Atan2 0 0 = 0

/-- The real numbers with the usual functions; `Atan2 y x` is the argument of `x + y i`,
which is `0` at the origin like the C library's `atan2`. -/
noncomputable instance instFMathReal : FMath ℝ where
  Sqrt := Real.sqrt
  Sin := Real.sin
  Cos := Real.cos
  Acos := Real.arccos
  Atan2 := fun y x => Complex.arg ⟨x, y⟩
  PI := Real.pi
  Sqrt_nonneg := Real.sqrt_nonneg
  Sqrt_mul_self := fun _ h => Real.mul_self_sqrt h
  Sin_sq_add_Cos_sq := fun x => by
    have h := Real.sin_sq_add_cos_sq x
    nlinarith [h]
  Sin_zero := Real.sin_zero
  Cos_zero := Real.cos_zero
  PI_pos := Real.pi_pos
  PI_lt_four := Real.pi_lt_four
  Acos_zero := Real.arccos_zero
  Sin_half_PI := Real.sin_pi_div_two
  Cos_half_PI := Real.cos_pi_div_two
  Sqrt_mul_Cos_Atan2 := fun y x => by
    have h : Real.sqrt (x * x + y * y) = Complex.abs ⟨x, y⟩ := by
      simp [Complex.abs_apply, Complex.normSq_apply]
    rw [h]
    by_cases hz : (⟨x, y⟩ : ℂ) = 0
    · have hx : x = 0 := by simpa using congrArg Complex.re hz
      rw [hz]; simp [hx]
    · rw [Complex.cos_arg hz]
      have : Complex.abs ⟨x, y⟩ ≠ 0 := by simpa using hz
      field_simp
  Sqrt_mul_Sin_Atan2 := fun y x => by
    have h : Real.sqrt (x * x + y * y) = Complex.abs ⟨x, y⟩ := by
      simp [Complex.abs_apply, Complex.normSq_apply]
    rw [h]
    by_cases hz : (⟨x, y⟩ : ℂ) = 0
    · have hy : y = 0 := by simpa using congrArg Complex.im hz
      rw [hz]; simp [hy]
    · rw [Complex.sin_arg]
      have : Complex.abs ⟨x, y⟩ ≠ 0 := by simpa using hz
      field_simp
  Atan2_zero_zero := by
    have h : (⟨0, 0⟩ : ℂ) = 0 := rfl
    show Complex.arg ⟨0, 0⟩ = 0
    rw [h, Complex.arg_zero]

/-! ## The engine vector library

`FVector` and the rotation types are engine types; the definitions below follow the engine's
`Vector.h`, `Rotator.h`, `Matrix.h` and `RotationTranslationMatrix.h`. -/

/-- The engine constant `SMALL_NUMBER` (`1.e-8f` in the engine's headers). -/
def SMALL_NUMBER {K : Type} [LinearOrderedField K] : K := 1 / 100000000

/-- A vector of three `float` components. -/
@[ext]
structure FVector (K : Type) where
  X : K
  Y : K
  Z : K

namespace FVector

variable {K : Type} [LinearOrderedField K]

instance : Add (FVector K) := ⟨fun A B => ⟨A.X + B.X, A.Y + B.Y, A.Z + B.Z⟩⟩

instance : Sub (FVector K) := ⟨fun A B => ⟨A.X - B.X, A.Y - B.Y, A.Z - B.Z⟩⟩

instance : Neg (FVector K) := ⟨fun A => ⟨-A.X, -A.Y, -A.Z⟩⟩

/-- The product `FVector * float`. -/
instance : HMul (FVector K) K (FVector K) := ⟨fun A s => ⟨A.X * s, A.Y * s, A.Z * s⟩⟩

/-- The product `float * FVector`, which the engine defines as `V * Scale`. -/
instance : HMul K (FVector K) (FVector K) := ⟨fun s A => A * s⟩

/-- The constant `FVector::ZeroVector`. -/
def ZeroVector : FVector K := ⟨0, 0, 0⟩

/-- The constant `FVector::ForwardVector`. -/
def ForwardVector : FVector K := ⟨1, 0, 0⟩

/-- The constant `FVector::DownVector`. -/
def DownVector : FVector K := ⟨0, 0, -1⟩

/-- The dot product `A | B`. -/
def DotProduct (A B : FVector K) : K := A.X * B.X + A.Y * B.Y + A.Z * B.Z

/-- The cross product `A ^ B`. -/
def CrossProduct (A B : FVector K) : FVector K :=
  ⟨A.Y * B.Z - A.Z * B.Y, A.Z * B.X - A.X * B.Z, A.X * B.Y - A.Y * B.X⟩

/-- The squared length `X*X + Y*Y + Z*Z`. -/
def SizeSquared (V : FVector K) : K := V.X * V.X + V.Y * V.Y + V.Z * V.Z

/-- Projection onto a vector that need not be a unit: `A * ((V | A) / (A | A))`. -/
def ProjectOnTo (V A : FVector K) : FVector K := A * (DotProduct V A / DotProduct A A)

/-- Projection onto a unit vector: `Normal * (V | Normal)`. -/
def ProjectOnToNormal (V Normal : FVector K) : FVector K := Normal * DotProduct V Normal

/-- Signed distance of a point to the plane through `PlaneBase` with normal `PlaneNormal`. -/
def PointPlaneDist (Point PlaneBase PlaneNormal : FVector K) : K :=
  DotProduct (Point - PlaneBase) PlaneNormal

/-- Projection of a point on the plane through `PlaneBase` with normal `PlaneNorm`:
`Point - PointPlaneDist (Point, PlaneBase, PlaneNorm) * PlaneNorm`. -/
def PointPlaneProject (Point PlaneBase PlaneNorm : FVector K) : FVector K :=
  Point - PointPlaneDist Point PlaneBase PlaneNorm * PlaneNorm

/-- Projection of a vector on the plane with normal `PlaneNormal`:
`V - V.ProjectOnToNormal (PlaneNormal)`. -/
def VectorPlaneProject (V PlaneNormal : FVector K) : FVector K :=
  V - ProjectOnToNormal V PlaneNormal

variable [FloorRing K] [FMath K]

/-- The length `Sqrt (X*X + Y*Y + Z*Z)`. -/
def Size (V : FVector K) : K := FMath.Sqrt (V.X * V.X + V.Y * V.Y + V.Z * V.Z)

/-- The call `V.GetSafeNormal ()` with its default tolerance `SMALL_NUMBER`: a vector whose
squared length is exactly one is returned as it is, one below the tolerance becomes the zero
vector, any other is scaled by `InvSqrt` of its squared length. -/
def GetSafeNormal (V : FVector K) : FVector K :=
  let SquareSum := V.X * V.X + V.Y * V.Y + V.Z * V.Z
  if SquareSum = 1 then V
  else if SquareSum < SMALL_NUMBER then ZeroVector
  else
    let Scale := 1 / FMath.Sqrt SquareSum
    ⟨V.X * Scale, V.Y * Scale, V.Z * Scale⟩

end FVector

/-- A rotation as three angles in degrees. -/
structure FRotator (K : Type) where
  Pitch : K
  Yaw : K
  Roll : K

/-- The upper-left 3x3 block of an `FMatrix`, by rows; the program builds rotation matrices
only, whose fourth row and column are `(0, 0, 0, 1)`. -/
structure FMatrix (K : Type) where
  XAxis : FVector K
  YAxis : FVector K
  ZAxis : FVector K

/-- The axis selector `EAxis::Type`. -/
inductive EAxis where
  | None
  | X
  | Y
  | Z

section Library

variable {K : Type} [LinearOrderedField K] [FloorRing K] [FMath K]

/-- The conversion `FMath::DegreesToRadians`. -/
def DegreesToRadians (DegVal : K) : K := DegVal * ((FMath.PI : K) / 180)

/-- The call `FMath::TruncToFloat`: rounding toward zero. -/
def TruncToFloat (F : K) : K := if 0 ≤ F then ((Int.floor F : ℤ) : K) else ((Int.ceil F : ℤ) : K)

/-- The call `FMath::Fmod (X, Y)`. -/
def Fmod (X Y : K) : K :=
  if |Y| ≤ 1 / 100000000 then 0
  else
    let Quotient := TruncToFloat (X / Y)
    let IntPortion := Y * Quotient
    let IntPortion := if |IntPortion| > |X| then X else IntPortion
    X - IntPortion

/-- The constructor `FMatrix (InX, InY, InZ, InW)` with `InW` the zero vector. -/
def FMatrix.ofAxes (InX InY InZ : FVector K) : FMatrix K := ⟨InX, InY, InZ⟩

/-- The call `M.GetScaledAxis (Axis)`: a row of the matrix. -/
def FMatrix.GetScaledAxis (M : FMatrix K) : EAxis → FVector K
  | EAxis.X => M.XAxis
  | EAxis.Y => M.YAxis
  | EAxis.Z => M.ZAxis
  | EAxis.None => FVector.ZeroVector

/-- The call `M.GetTransposed ()`. -/
def FMatrix.GetTransposed (M : FMatrix K) : FMatrix K :=
  ⟨⟨M.XAxis.X, M.YAxis.X, M.ZAxis.X⟩, ⟨M.XAxis.Y, M.YAxis.Y, M.ZAxis.Y⟩,
    ⟨M.XAxis.Z, M.YAxis.Z, M.ZAxis.Z⟩⟩

/-- The call `M.TransformVector (V)`: the row vector `V` times the matrix, no translation. -/
def FMatrix.TransformVector (M : FMatrix K) (V : FVector K) : FVector K :=
  ⟨V.X * M.XAxis.X + V.Y * M.YAxis.X + V.Z * M.ZAxis.X,
    V.X * M.XAxis.Y + V.Y * M.YAxis.Y + V.Z * M.ZAxis.Y,
    V.X * M.XAxis.Z + V.Y * M.YAxis.Z + V.Z * M.ZAxis.Z⟩

/-- The constructor `FRotationMatrix (Rot)`. -/
def FRotationMatrix (Rot : FRotator K) : FMatrix K :=
  let SP := FMath.Sin (DegreesToRadians Rot.Pitch)
  let CP := FMath.Cos (DegreesToRadians Rot.Pitch)
  let SY := FMath.Sin (DegreesToRadians Rot.Yaw)
  let CY := FMath.Cos (DegreesToRadians Rot.Yaw)
  let SR := FMath.Sin (DegreesToRadians Rot.Roll)
  let CR := FMath.Cos (DegreesToRadians Rot.Roll)
  ⟨⟨CP * CY, CP * SY, SP⟩,
    ⟨SR * SP * CY - CR * SY, SR * SP * SY + CR * CY, -SR * CP⟩,
    ⟨-(CR * SP * CY + SR * SY), CY * SR - CR * SP * SY, CR * CP⟩⟩

/-- The call `M.Rotator ()`: pitch and yaw from the first row, roll from the other two. -/
def FMatrix.Rotator (M : FMatrix K) : FRotator K :=
  let XAxis := M.GetScaledAxis EAxis.X
  let YAxis := M.GetScaledAxis EAxis.Y
  let ZAxis := M.GetScaledAxis EAxis.Z
  let Rotator : FRotator K :=
    ⟨FMath.Atan2 XAxis.Z (FMath.Sqrt (XAxis.X * XAxis.X + XAxis.Y * XAxis.Y)) * 180 / (FMath.PI : K),
      FMath.Atan2 XAxis.Y XAxis.X * 180 / (FMath.PI : K),
      0⟩
  let SYAxis := (FRotationMatrix Rotator).GetScaledAxis EAxis.Y
  { Rotator with
    Roll := FMath.Atan2 (FVector.DotProduct ZAxis SYAxis) (FVector.DotProduct YAxis SYAxis)
      * 180 / (FMath.PI : K) }

/-- The call `R.RotateVector (V)`. -/
def FRotator.RotateVector (R : FRotator K) (V : FVector K) : FVector K :=
  (FRotationMatrix R).TransformVector V

/-- The call `R.UnrotateVector (V)`. -/
def FRotator.UnrotateVector (R : FRotator K) (V : FVector K) : FVector K :=
  (FRotationMatrix R).GetTransposed.TransformVector V

/-- The call `V.Rotation ()`: yaw and pitch of the direction of `V`, no roll. -/
def FVector.Rotation (V : FVector K) : FRotator K :=
  ⟨FMath.Atan2 V.Z (FMath.Sqrt (V.X * V.X + V.Y * V.Y)) * (180 / (FMath.PI : K)),
    FMath.Atan2 V.Y V.X * (180 / (FMath.PI : K)),
    0⟩

/-- The call `V.RotateAngleAxis (AngleDeg, Axis)`: rotation of `V` about the unit vector
`Axis`. -/
def FVector.RotateAngleAxis (V : FVector K) (AngleDeg : K) (Axis : FVector K) : FVector K :=
  let S := FMath.Sin (DegreesToRadians AngleDeg)
  let C := FMath.Cos (DegreesToRadians AngleDeg)
  let XX := Axis.X * Axis.X
  let YY := Axis.Y * Axis.Y
  let ZZ := Axis.Z * Axis.Z
  let XY := Axis.X * Axis.Y
  let YZ := Axis.Y * Axis.Z
  let ZX := Axis.Z * Axis.X
  let XS := Axis.X * S
  let YS := Axis.Y * S
  let ZS := Axis.Z * S
  let OMC := 1 - C
  ⟨(OMC * XX + C) * V.X + (OMC * XY - ZS) * V.Y + (OMC * ZX + YS) * V.Z,
    (OMC * XY + ZS) * V.X + (OMC * YY + C) * V.Y + (OMC * YZ - XS) * V.Z,
    (OMC * ZX - YS) * V.X + (OMC * YZ + XS) * V.Y + (OMC * ZZ + C) * V.Z⟩

end Library

/-! ## The program: `HomingProjectileMotion.h` -/

/-- The world of the simulation, as far as the program reads it: `GetDeltaSeconds ()`. -/
structure UWorld (K : Type) where
  GetDeltaSeconds : K

/-- The object a world-context pointer refers to, as far as the program reads it:
`GetWorld ()`, which may be null. -/
structure UObject (K : Type) where
  GetWorld : Option (UWorld K)

/-- Initialization params for trajectory calculations. -/
structure FProjectileParams (K : Type) where
  LaunchLocation : FVector K
  TargetLocation : FVector K
  GravityDirection : FVector K
  fGravity : K
  ArcParameter : K

/-- State of the projectile at a given moment; `XVel` and `YVel` are the cache. -/
structure FProjectileState (K : Type) where
  LinearDirection : FVector K
  LaunchVelocity : FVector K
  NetVelocity : FVector K
  XVel : FVector K
  YVel : FVector K
  fLinearSpeed : K
  fTotalTime : K
  fTimeLeft : K

/-- The object `UHomingProjectileMotion`: its three data members.  A pointer to a context
object is the object it points to, or `none` when null. -/
structure UHomingProjectileMotion (K : Type) where
  WorldContextObj : Option (UObject K)
  m_Params : FProjectileParams K
  m_ProjectileState : FProjectileState K

/-- The engine routine `UGameplayStatics::SuggestProjectileVelocity_CustomArc`, which is not
part of the program: from the context, the start, the end, the gravity override along Z and
the arc parameter it gives the launch velocity it writes on success, `none` when it returns
false and leaves its output argument as it was. -/
abbrev ArcSolver (K : Type) :=
  Option (UObject K) → FVector K → FVector K → K → K → Option (FVector K)

section Program

variable {K : Type} [LinearOrderedField K] [FloorRing K] [FMath K]

/-- The constructor `FProjectileParams ()`. -/
def FProjectileParams.Default : FProjectileParams K :=
  ⟨FVector.ZeroVector, FVector.ZeroVector, FVector.DownVector, 0, 0⟩

/-- The constructor `FProjectileState ()`.  Its initialiser list names neither `XVel` nor
`YVel`, and `FVector ()` initialises nothing, so the two cached vectors of the new value are
whatever its storage held: the arguments `XVel` and `YVel`. -/
def FProjectileState.Default (XVel YVel : FVector K) : FProjectileState K :=
  ⟨FVector.ForwardVector, FVector.ZeroVector, FVector.ZeroVector, XVel, YVel, 0, 0, 0⟩

namespace UHomingProjectileMotion

/-! ## The program: `HomingProjectileMotion.cpp` -/

/-- `GetPerpendicularVector (Dir, Alpha)`, lines 68-98. -/
def GetPerpendicularVector (Dir : FVector K) (Alpha : K) : FVector K :=
  let ConeHalfAngleRad : K := 90
  let RandU := Alpha
  let RandV : K := 1 / 2
  let Theta := 2 * (FMath.PI : K) * RandU
  let Phi := FMath.Acos ((2 * RandV) - 1)
  let Phi := Fmod Phi ConeHalfAngleRad
  let DirMat := FRotationMatrix Dir.Rotation
  let DirZ := DirMat.GetScaledAxis EAxis.X
  let DirY := DirMat.GetScaledAxis EAxis.Y
  let Result := Dir.RotateAngleAxis (Phi * 180 / (FMath.PI : K)) DirY
  let Result := Result.RotateAngleAxis (Theta * 180 / (FMath.PI : K)) DirZ
  let Result := Result.GetSafeNormal
  Result

/-- `GetLinearDirection (CurrentLoacation, CurrentTargetLocation)`, lines 100-116. -/
def GetLinearDirection (self : UHomingProjectileMotion K)
    (CurrentLoacation CurrentTargetLocation : FVector K) : FVector K :=
  let vDirection :=
    (FVector.PointPlaneProject CurrentTargetLocation self.m_Params.LaunchLocation
        self.m_Params.GravityDirection
      - FVector.PointPlaneProject CurrentLoacation self.m_Params.LaunchLocation
        self.m_Params.GravityDirection).GetSafeNormal
  if vDirection.SizeSquared > 0 then vDirection
  else GetPerpendicularVector self.m_Params.GravityDirection 0

/-- `GetHomingLinearSpeed (CurrentLoacation, CurrentTargetLocation)`, lines 118-124. -/
def GetHomingLinearSpeed (self : UHomingProjectileMotion K)
    (CurrentLoacation CurrentTargetLocation : FVector K) : K :=
  let CurrentDistance :=
    (FVector.PointPlaneProject CurrentTargetLocation self.m_Params.LaunchLocation
        self.m_Params.GravityDirection
      - FVector.PointPlaneProject CurrentLoacation self.m_Params.LaunchLocation
        self.m_Params.GravityDirection).Size
  CurrentDistance / self.m_ProjectileState.fTimeLeft

/-- `GetAxesRotation ()`, lines 162-174. -/
def GetAxesRotation (self : UHomingProjectileMotion K) : FRotator K :=
  let vLine := (self.m_Params.TargetLocation - self.m_Params.LaunchLocation).GetSafeNormal
  let vProjectedLine := FVector.VectorPlaneProject vLine self.m_Params.GravityDirection
  let Up := -self.m_Params.GravityDirection
  let Fwd :=
    if vProjectedLine.SizeSquared > 1 / 10000 then vProjectedLine
    else self.m_ProjectileState.LinearDirection
  let Right := FVector.CrossProduct Up Fwd
  let RotMatrix := FMatrix.ofAxes Fwd Right Up
  RotMatrix.Rotator

/-- `CalculateLaunchVelocity ()`, lines 126-160; `Arc` is the engine's arc solver. -/
def CalculateLaunchVelocity (Arc : ArcSolver K) (self : UHomingProjectileMotion K) :
    FVector K :=
  let LaunchVel : FVector K := FVector.ZeroVector
  let vLine := (self.m_Params.TargetLocation - self.m_Params.LaunchLocation).GetSafeNormal
  let vCrossproduct := FVector.CrossProduct vLine self.m_Params.GravityDirection
  if vCrossproduct.SizeSquared > 1 / 1000 then
    let AxesRotation := self.GetAxesRotation
    let TranrformedTarget := self.m_Params.LaunchLocation
      + AxesRotation.UnrotateVector (self.m_Params.TargetLocation - self.m_Params.LaunchLocation)
    let LaunchVel :=
      match Arc self.WorldContextObj self.m_Params.LaunchLocation TranrformedTarget
          (-self.m_Params.fGravity) self.m_Params.ArcParameter with
      | some OutLaunchVelocity => OutLaunchVelocity
      | none => LaunchVel
    AxesRotation.RotateVector LaunchVel
  else
    if FVector.DotProduct vLine self.m_Params.GravityDirection < 0 then
      -self.m_Params.GravityDirection
        * FMath.Sqrt (2 * self.m_Params.fGravity
            * (self.m_Params.TargetLocation - self.m_Params.LaunchLocation).Size)
    else LaunchVel

/-- `GetGravityComponent (InVector)`, lines 203-213. -/
def GetGravityComponent (self : UHomingProjectileMotion K) (InVector : FVector K) :
    FVector K :=
  if InVector.SizeSquared > SMALL_NUMBER then InVector.ProjectOnTo self.m_Params.GravityDirection
  else FVector.ZeroVector

/-- `GetLinearComponent (InVector)`, lines 215-225. -/
def GetLinearComponent (self : UHomingProjectileMotion K) (InVector : FVector K) :
    FVector K :=
  if InVector.SizeSquared > SMALL_NUMBER then
    InVector.ProjectOnTo self.m_ProjectileState.LinearDirection
  else FVector.ZeroVector

/-- `GetTrajectoryDuration ()`, lines 176-201. -/
def GetTrajectoryDuration (self : UHomingProjectileMotion K) : K :=
  let T : K := 0
  if self.m_ProjectileState.fLinearSpeed > 1 / 1000 then
    let dX := (self.GetLinearComponent
      (self.m_Params.TargetLocation - self.m_Params.LaunchLocation)).Size
    let V := self.m_ProjectileState.fLinearSpeed
    let T := dX / V
    T
  else
    let D := (self.GetGravityComponent
      (self.m_Params.TargetLocation - self.m_Params.LaunchLocation)).Size
    let U := self.m_ProjectileState.LaunchVelocity.Size
    let A := self.m_Params.fGravity
      * FVector.DotProduct
          (self.m_Params.TargetLocation - self.m_Params.LaunchLocation).GetSafeNormal
          self.m_Params.GravityDirection
    let V := FMath.Sqrt (U * U + 2 * A * D)
    let T := (V - U) / A
    T

/-- `SetupHPM (WorldContext, LaunchParams)`, lines 6-29.  `XVel` and `YVel` are the contents
of the two vectors that `FProjectileState ()` leaves uninitialised. -/
def SetupHPM (Arc : ArcSolver K) (self : UHomingProjectileMotion K)
    (WorldContext : Option (UObject K)) (LaunchParams : FProjectileParams K)
    (XVel YVel : FVector K) : UHomingProjectileMotion K :=
  if WorldContext.isNone then self
  else
    let self := { self with WorldContextObj := WorldContext }
    let self := { self with m_Params := LaunchParams }
    let self := { self with m_ProjectileState := FProjectileState.Default XVel YVel }
    let self := { self with
      m_ProjectileState.LinearDirection :=
        self.GetLinearDirection self.m_Params.LaunchLocation self.m_Params.TargetLocation }
    let self := { self with
      m_ProjectileState.LaunchVelocity := self.CalculateLaunchVelocity Arc }
    let self := { self with
      m_ProjectileState.YVel := self.GetGravityComponent self.m_ProjectileState.LaunchVelocity }
    let self := { self with
      m_ProjectileState.XVel := self.GetLinearComponent self.m_ProjectileState.LaunchVelocity }
    let self := { self with m_ProjectileState.fLinearSpeed := self.m_ProjectileState.XVel.Size }
    let Duration := self.GetTrajectoryDuration
    let self := { self with m_ProjectileState.fTimeLeft := Duration }
    let self := { self with m_ProjectileState.fTotalTime := self.m_ProjectileState.fTimeLeft }
    self

/-- `UpdateHPM (CurrentLocation, CurrentTargetLocation, TimeStamp)`, lines 31-66: the state
returned and the object after the call.  `XVel` and `YVel` are the contents of the two
vectors that `FProjectileState ()` leaves uninitialised. -/
def UpdateHPM (self : UHomingProjectileMotion K)
    (CurrentLocation CurrentTargetLocation : FVector K) (TimeStamp : K)
    (XVel YVel : FVector K) : FProjectileState K × UHomingProjectileMotion K :=
  match self.WorldContextObj.bind UObject.GetWorld with
  | none => (FProjectileState.Default XVel YVel, self)
  | some World =>
    if self.m_ProjectileState.fTimeLeft ≤ 0 then (FProjectileState.Default XVel YVel, self)
    else
      let self := { self with
        m_ProjectileState.LinearDirection :=
          self.GetLinearDirection CurrentLocation CurrentTargetLocation }
      let self := { self with
        m_ProjectileState.fLinearSpeed :=
          self.GetHomingLinearSpeed CurrentLocation CurrentTargetLocation }
      let ProjectedLine :=
        FVector.PointPlaneProject CurrentTargetLocation CurrentLocation
          self.m_ProjectileState.LinearDirection - CurrentLocation
      let dX := FVector.DotProduct self.m_Params.GravityDirection ProjectedLine
      let V := FVector.DotProduct self.m_ProjectileState.YVel self.m_Params.GravityDirection
      let MutatedGravity :=
        (2 * (dX - (V * self.m_ProjectileState.fTimeLeft)))
          / (self.m_ProjectileState.fTimeLeft * self.m_ProjectileState.fTimeLeft)
      let DeltaTime := World.GetDeltaSeconds
      let self := { self with
        m_ProjectileState.YVel :=
          self.m_ProjectileState.YVel
            + (MutatedGravity * self.m_Params.GravityDirection * DeltaTime) }
      let self := { self with
        m_ProjectileState.XVel :=
          self.m_ProjectileState.LinearDirection * self.m_ProjectileState.fLinearSpeed }
      let self := { self with
        m_ProjectileState.NetVelocity :=
          self.m_ProjectileState.XVel + self.m_ProjectileState.YVel }
      let self := { self with
        m_ProjectileState.fTimeLeft := self.m_ProjectileState.fTimeLeft - DeltaTime }
      (self.m_ProjectileState, self)

end UHomingProjectileMotion

/-! ## Callers

The program is driven by a caller that is not part of it; the two drivers below are the
callers that the statements about repeated calls speak of. -/

/-- The arguments of one `UpdateHPM` call, with the contents of the storage of the
`FProjectileState ()` that the call may construct. -/
structure FUpdateArgs (K : Type) where
  CurrentLocation : FVector K
  CurrentTargetLocation : FVector K
  TimeStamp : K
  XVel : FVector K
  YVel : FVector K

/-- The object after `n` successive `UpdateHPM` calls, the call number `i` (from zero) made
with the arguments `Args i`. -/
def UpdateHPM_calls (Args : ℕ → FUpdateArgs K) (self : UHomingProjectileMotion K) :
    ℕ → UHomingProjectileMotion K
  | 0 => self
  | n + 1 =>
    (UHomingProjectileMotion.UpdateHPM (UpdateHPM_calls Args self n) (Args n).CurrentLocation
      (Args n).CurrentTargetLocation (Args n).TimeStamp (Args n).XVel (Args n).YVel).2

/-- The state returned by the call number `n` (from zero) of that sequence. -/
def UpdateHPM_returned (Args : ℕ → FUpdateArgs K) (self : UHomingProjectileMotion K)
    (n : ℕ) : FProjectileState K :=
  (UHomingProjectileMotion.UpdateHPM (UpdateHPM_calls Args self n) (Args n).CurrentLocation
    (Args n).CurrentTargetLocation (Args n).TimeStamp (Args n).XVel (Args n).YVel).1

/-- The offset from a location to the target after both are projected on the plane through
the launch location with the gravity direction as normal: the vector that
`GetLinearDirection` normalises and whose length `GetHomingLinearSpeed` divides by the
remaining time. -/
def PlaneOffset (self : UHomingProjectileMotion K) (Location Target : FVector K) : FVector K :=
  FVector.PointPlaneProject Target self.m_Params.LaunchLocation self.m_Params.GravityDirection
    - FVector.PointPlaneProject Location self.m_Params.LaunchLocation
      self.m_Params.GravityDirection

/-- The offset from a location to the target along the gravity direction. -/
def GravityOffset (self : UHomingProjectileMotion K) (Location Target : FVector K) : K :=
  FVector.DotProduct self.m_Params.GravityDirection (Target - Location)

/-- A caller that integrates the returned velocity: the object and the projectile location
after `n` calls against a target that stays at `Target`, where after every call the caller
moves the location by `NetVelocity * DeltaTime` of the returned state.  `TimeStamp`, `XVel`
and `YVel` give the remaining arguments of the call number `i`. -/
def Integrate (Target : FVector K) (DeltaTime : K) (TimeStamp : ℕ → K)
    (XVel YVel : ℕ → FVector K) (self : UHomingProjectileMotion K) (Location : FVector K) :
    ℕ → UHomingProjectileMotion K × FVector K
  | 0 => (self, Location)
  | n + 1 =>
    let Before := Integrate Target DeltaTime TimeStamp XVel YVel self Location n
    let Call := UHomingProjectileMotion.UpdateHPM Before.1 Before.2 Target (TimeStamp n)
      (XVel n) (YVel n)
    (Call.2, Before.2 + Call.1.NetVelocity * DeltaTime)

/-- The object after a `SetupHPM` with the non-null context `Ctx` followed by `n` successive
`UpdateHPM` calls made with the arguments `Args`. -/
def SetupHPM_then_calls (Arc : ArcSolver K) (self : UHomingProjectileMotion K)
    (Ctx : UObject K) (LaunchParams : FProjectileParams K) (XVel YVel : FVector K)
    (Args : ℕ → FUpdateArgs K) (n : ℕ) : UHomingProjectileMotion K :=
  UpdateHPM_calls Args
    (UHomingProjectileMotion.SetupHPM Arc self (some Ctx) LaunchParams XVel YVel) n

/-! ## Sample inputs -/

/-- A context object whose world reports the frame time `DeltaSeconds`. -/
def SampleContext (DeltaSeconds : K) : UObject K := ⟨some ⟨DeltaSeconds⟩⟩

/-- An object in flight along the X axis with gravity along -Z: `TimeLeft` of a total flight
time `TotalTime` remains, frames last `DeltaSeconds`, and the cached vertical velocity is
`VSpeed` times the gravity direction. -/
def SampleFlight (DeltaSeconds TotalTime TimeLeft VSpeed : K) : UHomingProjectileMotion K :=
  ⟨some (SampleContext DeltaSeconds),
    ⟨FVector.ZeroVector, ⟨4, 0, 0⟩, FVector.DownVector, 2, 1 / 2⟩,
    ⟨FVector.ForwardVector, FVector.ZeroVector, FVector.ZeroVector, FVector.ZeroVector,
      (FVector.DownVector : FVector K) * VSpeed, 0, TotalTime, TimeLeft⟩⟩

/-- An object whose parameters put the target on the gravity axis of the launch location:
launch at the origin, gravity along -Z with magnitude `Gravity`, target at the launch
location plus `Offset` times the gravity direction. -/
def SampleVertical (Offset Gravity : K) : UHomingProjectileMotion K :=
  ⟨some (SampleContext 1),
    ⟨FVector.ZeroVector, FVector.ZeroVector + (FVector.DownVector : FVector K) * Offset,
      FVector.DownVector, Gravity, 1 / 2⟩,
    FProjectileState.Default FVector.ZeroVector FVector.ZeroVector⟩

/-- Arguments that repeat one location and one target in every call. -/
def SampleArgs (Location Target : FVector K) : ℕ → FUpdateArgs K :=
  fun _ => ⟨Location, Target, 0, FVector.ZeroVector, FVector.ZeroVector⟩

/-- A freshly constructed object, before any `SetupHPM`: null context, default parameters,
default state. -/
def SampleFresh : UHomingProjectileMotion K :=
  ⟨none, FProjectileParams.Default, FProjectileState.Default FVector.ZeroVector FVector.ZeroVector⟩

/-- An object whose gravity is tilted off the Z axis and whose target is not level with the
launch location: launch at the origin, target at `(12/5, 3, -16/5)`, at distance 5, unit
gravity direction `(3/5, 0, -4/5)`. -/
def SampleTilted : UHomingProjectileMotion K :=
  ⟨some (SampleContext 1),
    ⟨FVector.ZeroVector, ⟨12 / 5, 3, -(16 / 5)⟩, ⟨3 / 5, 0, -(4 / 5)⟩, 2, 1 / 2⟩,
    FProjectileState.Default FVector.ZeroVector FVector.ZeroVector⟩

end Program

/-! ## The remaining time as a `float`

`fTimeLeft` and `DeltaTime` are `float`s: the subtraction of line 61 rounds its result, and
a NaN fails every comparison.  The definitions below are the part of `UpdateHPM` that reads
and writes `fTimeLeft` (the guard of lines 33-36 and line 61), with the rounding as a
parameter and `none` for NaN. -/

section RemainingTime

variable {K : Type} [LinearOrderedField K]

/-- What one `UpdateHPM` call of an object with a valid context does to `fTimeLeft`.  A NaN
fails the test `fTimeLeft <= 0.0f`, so the call is effective and the subtraction leaves a
NaN; a value that is not positive makes the call a no-op; any other value becomes
`Round (fTimeLeft - DeltaTime)`. -/
def UpdateHPM_fTimeLeft (Round : K → K) (DeltaTime : K) : Option K → Option K
  | none => none
  | some fTimeLeft =>
    if fTimeLeft ≤ 0 then some fTimeLeft else some (Round (fTimeLeft - DeltaTime))

/-- The remaining time after `n` successive calls. -/
def UpdateHPM_fTimeLeft_calls (Round : K → K) (DeltaTime : K) (fTimeLeft : Option K) :
    ℕ → Option K
  | 0 => fTimeLeft
  | n + 1 =>
    UpdateHPM_fTimeLeft Round DeltaTime (UpdateHPM_fTimeLeft_calls Round DeltaTime fTimeLeft n)

end RemainingTime

/-- The number of low binary digits that rounding to 24 significant digits drops from `n`;
`Fuel` bounds the number of digits dropped. -/
def SignificandShift : ℕ → ℕ → ℕ
  | 0, _ => 0
  | Fuel + 1, n => if n < 2 ^ 24 then 0 else SignificandShift Fuel (n / 2) + 1

/-- Rounding of a natural number to 24 significant binary digits, to the nearest such
number and to the even one of two nearest: the rounding of the significand of a `float`
(IEEE 754 binary32, round to nearest, ties to even).  The rounding may carry into a 25th
digit, which is then a power of two. -/
def RoundSignificand (n : ℕ) : ℕ :=
  let s := SignificandShift 300 n
  let q := n / 2 ^ s
  let r := n % 2 ^ s
  if 2 * r < 2 ^ s then q * 2 ^ s
  else if 2 ^ s < 2 * r then (q + 1) * 2 ^ s
  else if q % 2 = 0 then q * 2 ^ s else (q + 1) * 2 ^ s

/-- The `float` nearest to a rational whose denominator is a power of two, as the exact sum
or difference of two `float`s is, in the range where `float`s have 24 significant digits
(no overflow, no subnormal result). -/
def RoundToFloat (x : ℚ) : ℚ :=
  if 0 ≤ x then (RoundSignificand x.num.toNat : ℚ) / x.den
  else -((RoundSignificand (-x).num.toNat : ℚ) / x.den)

/-! ## Component lemmas of the vector library -/

section VectorLemmas

variable {K : Type} [LinearOrderedField K]

@[simp] theorem FVector.add_X (A B : FVector K) : (A + B).X = A.X + B.X := rfl

@[simp] theorem FVector.add_Y (A B : FVector K) : (A + B).Y = A.Y + B.Y := rfl

@[simp] theorem FVector.add_Z (A B : FVector K) : (A + B).Z = A.Z + B.Z := rfl

@[simp] theorem FVector.sub_X (A B : FVector K) : (A - B).X = A.X - B.X := rfl

@[simp] theorem FVector.sub_Y (A B : FVector K) : (A - B).Y = A.Y - B.Y := rfl

@[simp] theorem FVector.sub_Z (A B : FVector K) : (A - B).Z = A.Z - B.Z := rfl

@[simp] theorem FVector.neg_X (A : FVector K) : (-A).X = -A.X := rfl

@[simp] theorem FVector.neg_Y (A : FVector K) : (-A).Y = -A.Y := rfl

@[simp] theorem FVector.neg_Z (A : FVector K) : (-A).Z = -A.Z := rfl

@[simp] theorem FVector.mul_X (A : FVector K) (s : K) : (A * s).X = A.X * s := rfl

@[simp] theorem FVector.mul_Y (A : FVector K) (s : K) : (A * s).Y = A.Y * s := rfl

@[simp] theorem FVector.mul_Z (A : FVector K) (s : K) : (A * s).Z = A.Z * s := rfl

@[simp] theorem FVector.smul_X (s : K) (A : FVector K) : (s * A).X = A.X * s := rfl

@[simp] theorem FVector.smul_Y (s : K) (A : FVector K) : (s * A).Y = A.Y * s := rfl

@[simp] theorem FVector.smul_Z (s : K) (A : FVector K) : (s * A).Z = A.Z * s := rfl

@[simp] theorem FVector.ZeroVector_X : (FVector.ZeroVector : FVector K).X = 0 := rfl

@[simp] theorem FVector.ZeroVector_Y : (FVector.ZeroVector : FVector K).Y = 0 := rfl

@[simp] theorem FVector.ZeroVector_Z : (FVector.ZeroVector : FVector K).Z = 0 := rfl

theorem FVector.DotProduct_self (A : FVector K) : FVector.DotProduct A A = A.SizeSquared := rfl

theorem SMALL_NUMBER_pos : (0 : K) < SMALL_NUMBER := by
  unfold SMALL_NUMBER; norm_num

end VectorLemmas

/-! ## Square roots and lengths -/

section SqrtLemmas

variable {K : Type} [LinearOrderedField K] [FloorRing K] [FMath K]

theorem Sqrt_mul_self_of_nonneg (a : K) (h : 0 ≤ a) : FMath.Sqrt (a * a) = a :=
  (mul_self_inj (FMath.Sqrt_nonneg _) h).mp (FMath.Sqrt_mul_self _ (mul_self_nonneg a))

theorem Sqrt_mul_self_abs (a : K) : FMath.Sqrt (a * a) = |a| := by
  have h := Sqrt_mul_self_of_nonneg |a| (abs_nonneg a)
  rwa [abs_mul_abs_self] at h

theorem Sqrt_zero : FMath.Sqrt (0 : K) = 0 := by
  have h := Sqrt_mul_self_of_nonneg (0 : K) le_rfl
  rwa [mul_zero] at h

theorem Sqrt_one : FMath.Sqrt (1 : K) = 1 := by
  have h := Sqrt_mul_self_of_nonneg (1 : K) zero_le_one
  rwa [mul_one] at h

theorem Sqrt_pos (x : K) (h : 0 < x) : 0 < FMath.Sqrt x := by
  rcases (FMath.Sqrt_nonneg x).lt_or_eq with h1 | h1
  · exact h1
  · have h2 := FMath.Sqrt_mul_self x h.le
    rw [← h1, mul_zero] at h2
    exact absurd h2 h.ne

theorem FVector.SizeSquared_nonneg (V : FVector K) : 0 ≤ V.SizeSquared := by
  unfold FVector.SizeSquared
  nlinarith [mul_self_nonneg V.X, mul_self_nonneg V.Y, mul_self_nonneg V.Z]

theorem FVector.Size_nonneg (V : FVector K) : 0 ≤ V.Size := FMath.Sqrt_nonneg _

theorem FVector.Size_mul_self (V : FVector K) : V.Size * V.Size = V.SizeSquared :=
  FMath.Sqrt_mul_self _ V.SizeSquared_nonneg

theorem FVector.Size_eq_Sqrt (V : FVector K) : V.Size = FMath.Sqrt V.SizeSquared := rfl

theorem FVector.SizeSquared_mul (V : FVector K) (s : K) :
    (V * s).SizeSquared = V.SizeSquared * (s * s) := by
  simp only [FVector.SizeSquared, FVector.mul_X, FVector.mul_Y, FVector.mul_Z]
  ring

theorem FVector.SizeSquared_neg (V : FVector K) : (-V).SizeSquared = V.SizeSquared := by
  simp only [FVector.SizeSquared, FVector.neg_X, FVector.neg_Y, FVector.neg_Z]
  ring

theorem FVector.SizeSquared_ZeroVector : (FVector.ZeroVector : FVector K).SizeSquared = 0 := by
  simp [FVector.SizeSquared]

theorem FVector.add_sub_cancel_left (A B : FVector K) : A + B - A = B := by
  ext <;> simp

/-- Below the tolerance the safe normal is the zero vector. -/
theorem FVector.GetSafeNormal_of_small (V : FVector K) (h : V.SizeSquared < SMALL_NUMBER) :
    V.GetSafeNormal = FVector.ZeroVector := by
  have h1 : V.X * V.X + V.Y * V.Y + V.Z * V.Z < SMALL_NUMBER := h
  have h2 : ¬ (V.X * V.X + V.Y * V.Y + V.Z * V.Z = 1) := by
    intro h3
    rw [h3] at h1
    unfold SMALL_NUMBER at h1
    norm_num at h1
  simp only [FVector.GetSafeNormal, if_neg h2, if_pos h1]

/-- From the tolerance on, the safe normal is the vector divided by its length. -/
theorem FVector.GetSafeNormal_of_large (V : FVector K) (h : SMALL_NUMBER ≤ V.SizeSquared) :
    V.GetSafeNormal = V * (1 / V.Size) := by
  have h1 : ¬ (V.X * V.X + V.Y * V.Y + V.Z * V.Z < SMALL_NUMBER) := not_lt.mpr h
  by_cases h2 : V.X * V.X + V.Y * V.Y + V.Z * V.Z = 1
  · simp only [FVector.GetSafeNormal, if_pos h2, FVector.Size, h2, Sqrt_one]
    ext <;> simp
  · simp only [FVector.GetSafeNormal, if_neg h2, if_neg h1, FVector.Size]
    rfl

theorem FVector.Size_pos_of_large (V : FVector K) (h : SMALL_NUMBER ≤ V.SizeSquared) :
    0 < V.Size :=
  Sqrt_pos _ (lt_of_lt_of_le SMALL_NUMBER_pos h)

/-- From the tolerance on, the safe normal is a unit vector. -/
theorem FVector.SizeSquared_GetSafeNormal (V : FVector K) (h : SMALL_NUMBER ≤ V.SizeSquared) :
    V.GetSafeNormal.SizeSquared = 1 := by
  rw [FVector.GetSafeNormal_of_large V h, FVector.SizeSquared_mul]
  have hp := FVector.Size_pos_of_large V h
  have hs := FVector.Size_mul_self V
  field_simp
  linarith

end SqrtLemmas

/-! ## Angles and rotations -/

section RotationLemmas

variable {K : Type} [LinearOrderedField K] [FloorRing K] [FMath K]

open UHomingProjectileMotion

theorem PI_ne_zero : (FMath.PI : K) ≠ 0 := (FMath.PI_pos).ne'

theorem DegreesToRadians_mul_div (x : K) :
    DegreesToRadians (x * 180 / (FMath.PI : K)) = x := by
  unfold DegreesToRadians
  field_simp [PI_ne_zero]

theorem DegreesToRadians_mul_ratio (x : K) :
    DegreesToRadians (x * (180 / (FMath.PI : K))) = x := by
  unfold DegreesToRadians
  field_simp [PI_ne_zero]

theorem DegreesToRadians_zero : DegreesToRadians (0 : K) = 0 := by
  unfold DegreesToRadians
  rw [zero_mul]

/-- The elevation angle of `GetPerpendicularVector`: a quarter turn, which `Fmod` by 90
leaves as it is. -/
theorem Fmod_half_PI : Fmod ((FMath.PI : K) / 2) 90 = FMath.PI / 2 := by
  have hpos : (0 : K) < FMath.PI := FMath.PI_pos
  have hlt : (FMath.PI : K) < 4 := FMath.PI_lt_four
  have h90 : ¬ (|(90 : K)| ≤ 1 / 100000000) := by
    rw [abs_of_pos (by norm_num : (0 : K) < 90)]
    norm_num
  have hq0 : (0 : K) ≤ FMath.PI / 2 / 90 := by positivity
  have hq1 : (FMath.PI : K) / 2 / 90 < 1 := by
    rw [div_div, div_lt_one (by norm_num)]
    linarith
  have hfl : Int.floor ((FMath.PI : K) / 2 / 90) = 0 :=
    Int.floor_eq_zero_iff.mpr ⟨hq0, hq1⟩
  have htr : TruncToFloat ((FMath.PI : K) / 2 / 90) = 0 := by
    rw [TruncToFloat, if_pos hq0, hfl, Int.cast_zero]
  have hab : ¬ (|(0 : K)| > |(FMath.PI : K) / 2|) := by
    rw [abs_zero]
    exact not_lt.mpr (abs_nonneg _)
  simp only [Fmod, if_neg h90, htr, if_neg hab, mul_zero, sub_zero]

/-- The first rotation of `GetPerpendicularVector`: a quarter turn of the direction about
the second row of its rotation matrix. -/
theorem RotateAngleAxis_quarter (R CP SP CY SY a : K)
    (hS : FMath.Sin (DegreesToRadians a) = 1) (hC : FMath.Cos (DegreesToRadians a) = 0)
    (h2 : SY * SY + CY * CY = 1) :
    (⟨R * CP * CY, R * CP * SY, R * SP⟩ : FVector K).RotateAngleAxis a ⟨-SY, CY, 0⟩
      = ⟨R * CY * SP, R * SY * SP, -(R * CP)⟩ := by
  simp only [FVector.RotateAngleAxis, hS, hC]
  ext
  · simp only; ring
  · simp only; ring
  · simp only; linear_combination (-R * CP) * h2

/-- The second rotation of `GetPerpendicularVector`: a turn by the azimuth about the first
row of the rotation matrix of the direction. -/
theorem RotateAngleAxis_azimuth (R CP SP CY SY a : K)
    (h1 : SP * SP + CP * CP = 1) (h2 : SY * SY + CY * CY = 1) :
    (⟨R * CY * SP, R * SY * SP, -(R * CP)⟩ : FVector K).RotateAngleAxis a
        ⟨CP * CY, CP * SY, SP⟩
      = ⟨R * (CY * SP * FMath.Cos (DegreesToRadians a) - SY * FMath.Sin (DegreesToRadians a)),
          R * (SY * SP * FMath.Cos (DegreesToRadians a) + CY * FMath.Sin (DegreesToRadians a)),
          -(R * CP * FMath.Cos (DegreesToRadians a))⟩ := by
  simp only [FVector.RotateAngleAxis]
  generalize FMath.Sin (DegreesToRadians a) = S2
  generalize FMath.Cos (DegreesToRadians a) = C2
  ext
  · simp only
    linear_combination ((1 - C2) * CP * CP * CY * R * SP) * h2 - (S2 * R * SY) * h1
  · simp only
    linear_combination ((1 - C2) * CP * CP * SY * R * SP) * h2 + (S2 * R * CY) * h1
  · simp only
    linear_combination ((1 - C2) * SP * SP * R * CP) * h2

/-- The two rotations of `GetPerpendicularVector` on a direction given by its length, its
pitch and its yaw. -/
theorem RotateAngleAxis_twice (Dir : FVector K) (R CP SP CY SY a b : K)
    (hDir : Dir = ⟨R * CP * CY, R * CP * SY, R * SP⟩)
    (hS : FMath.Sin (DegreesToRadians a) = 1) (hC : FMath.Cos (DegreesToRadians a) = 0)
    (h1 : SP * SP + CP * CP = 1) (h2 : SY * SY + CY * CY = 1) :
    (Dir.RotateAngleAxis a ⟨-SY, CY, 0⟩).RotateAngleAxis b ⟨CP * CY, CP * SY, SP⟩
      = ⟨R * (CY * SP * FMath.Cos (DegreesToRadians b) - SY * FMath.Sin (DegreesToRadians b)),
          R * (SY * SP * FMath.Cos (DegreesToRadians b) + CY * FMath.Sin (DegreesToRadians b)),
          -(R * CP * FMath.Cos (DegreesToRadians b))⟩ := by
  subst hDir
  rw [RotateAngleAxis_quarter R CP SP CY SY a hS hC h2,
    RotateAngleAxis_azimuth R CP SP CY SY b h1 h2]

/-- The vector that `GetPerpendicularVector` normalises: for every direction there are a
length `R`, the sine and cosine of a pitch, of a yaw and of the azimuth, with which the
direction is `R (CP CY, CP SY, SP)` and the result is the safe normal of
`R (CY SP C - SY S, SY SP C + CY S, -CP C)`. -/
theorem GetPerpendicularVector_eq (Dir : FVector K) (Alpha : K) :
    ∃ R CP SP CY SY S C : K,
      SP * SP + CP * CP = 1 ∧ SY * SY + CY * CY = 1 ∧ S * S + C * C = 1
        ∧ R * R = Dir.SizeSquared
        ∧ Dir = ⟨R * CP * CY, R * CP * SY, R * SP⟩
        ∧ GetPerpendicularVector Dir Alpha
          = (⟨R * (CY * SP * C - SY * S), R * (SY * SP * C + CY * S), -(R * CP * C)⟩
              : FVector K).GetSafeNormal
        ∧ CY = FMath.Cos (FMath.Atan2 Dir.Y Dir.X) ∧ SY = FMath.Sin (FMath.Atan2 Dir.Y Dir.X)
        ∧ (Alpha = 0 → S = 0 ∧ C = 1) := by
  have hrr : FMath.Sqrt (Dir.X * Dir.X + Dir.Y * Dir.Y)
      * FMath.Sqrt (Dir.X * Dir.X + Dir.Y * Dir.Y) = Dir.X * Dir.X + Dir.Y * Dir.Y :=
    FMath.Sqrt_mul_self _ (by nlinarith [mul_self_nonneg Dir.X, mul_self_nonneg Dir.Y])
  have hRR : FMath.Sqrt (FMath.Sqrt (Dir.X * Dir.X + Dir.Y * Dir.Y)
        * FMath.Sqrt (Dir.X * Dir.X + Dir.Y * Dir.Y) + Dir.Z * Dir.Z)
      * FMath.Sqrt (FMath.Sqrt (Dir.X * Dir.X + Dir.Y * Dir.Y)
        * FMath.Sqrt (Dir.X * Dir.X + Dir.Y * Dir.Y) + Dir.Z * Dir.Z)
      = Dir.SizeSquared := by
    rw [FMath.Sqrt_mul_self _ (by
      rw [hrr]; nlinarith [mul_self_nonneg Dir.X, mul_self_nonneg Dir.Y, mul_self_nonneg Dir.Z]),
      hrr]
    rfl
  have hx := FMath.Sqrt_mul_Cos_Atan2 Dir.Y Dir.X
  have hy := FMath.Sqrt_mul_Sin_Atan2 Dir.Y Dir.X
  have hr := FMath.Sqrt_mul_Cos_Atan2 Dir.Z (FMath.Sqrt (Dir.X * Dir.X + Dir.Y * Dir.Y))
  have hz := FMath.Sqrt_mul_Sin_Atan2 Dir.Z (FMath.Sqrt (Dir.X * Dir.X + Dir.Y * Dir.Y))
  have h1 := FMath.Sin_sq_add_Cos_sq
    (FMath.Atan2 Dir.Z (FMath.Sqrt (Dir.X * Dir.X + Dir.Y * Dir.Y)))
  have h2 := FMath.Sin_sq_add_Cos_sq (FMath.Atan2 Dir.Y Dir.X)
  have h3 := FMath.Sin_sq_add_Cos_sq
    (DegreesToRadians (2 * (FMath.PI : K) * Alpha * 180 / (FMath.PI : K)))
  have hDir : Dir = ⟨FMath.Sqrt (FMath.Sqrt (Dir.X * Dir.X + Dir.Y * Dir.Y)
        * FMath.Sqrt (Dir.X * Dir.X + Dir.Y * Dir.Y) + Dir.Z * Dir.Z)
        * FMath.Cos (FMath.Atan2 Dir.Z (FMath.Sqrt (Dir.X * Dir.X + Dir.Y * Dir.Y)))
        * FMath.Cos (FMath.Atan2 Dir.Y Dir.X),
      FMath.Sqrt (FMath.Sqrt (Dir.X * Dir.X + Dir.Y * Dir.Y)
        * FMath.Sqrt (Dir.X * Dir.X + Dir.Y * Dir.Y) + Dir.Z * Dir.Z)
        * FMath.Cos (FMath.Atan2 Dir.Z (FMath.Sqrt (Dir.X * Dir.X + Dir.Y * Dir.Y)))
        * FMath.Sin (FMath.Atan2 Dir.Y Dir.X),
      FMath.Sqrt (FMath.Sqrt (Dir.X * Dir.X + Dir.Y * Dir.Y)
        * FMath.Sqrt (Dir.X * Dir.X + Dir.Y * Dir.Y) + Dir.Z * Dir.Z)
        * FMath.Sin (FMath.Atan2 Dir.Z (FMath.Sqrt (Dir.X * Dir.X + Dir.Y * Dir.Y)))⟩ := by
    ext
    · simp only; rw [hr, hx]
    · simp only; rw [hr, hy]
    · simp only; rw [hz]
  have hPhi : Fmod (FMath.Acos (2 * (1 / 2 : K) - 1)) 90 = FMath.PI / 2 := by
    rw [show (2 : K) * (1 / 2) - 1 = 0 by norm_num, FMath.Acos_zero, Fmod_half_PI]
  have hAxX : (FRotationMatrix Dir.Rotation).GetScaledAxis EAxis.X
      = ⟨FMath.Cos (FMath.Atan2 Dir.Z (FMath.Sqrt (Dir.X * Dir.X + Dir.Y * Dir.Y)))
          * FMath.Cos (FMath.Atan2 Dir.Y Dir.X),
        FMath.Cos (FMath.Atan2 Dir.Z (FMath.Sqrt (Dir.X * Dir.X + Dir.Y * Dir.Y)))
          * FMath.Sin (FMath.Atan2 Dir.Y Dir.X),
        FMath.Sin (FMath.Atan2 Dir.Z (FMath.Sqrt (Dir.X * Dir.X + Dir.Y * Dir.Y)))⟩ := by
    simp only [FRotationMatrix, FMatrix.GetScaledAxis, FVector.Rotation,
      DegreesToRadians_mul_ratio]
  have hAxY : (FRotationMatrix Dir.Rotation).GetScaledAxis EAxis.Y
      = ⟨-FMath.Sin (FMath.Atan2 Dir.Y Dir.X), FMath.Cos (FMath.Atan2 Dir.Y Dir.X), 0⟩ := by
    simp only [FRotationMatrix, FMatrix.GetScaledAxis, FVector.Rotation,
      DegreesToRadians_mul_ratio, DegreesToRadians_zero, FMath.Sin_zero, FMath.Cos_zero]
    ext <;> simp
  refine ⟨_, _, _, _, _, _, _, h1, h2, h3, hRR, hDir, ?_, rfl, rfl, ?_⟩
  · simp only [GetPerpendicularVector, hPhi, hAxX, hAxY]
    rw [RotateAngleAxis_twice Dir _ _ _ _ _ _ _ hDir
      (by rw [DegreesToRadians_mul_div]; exact FMath.Sin_half_PI)
      (by rw [DegreesToRadians_mul_div]; exact FMath.Cos_half_PI) h1 h2]
  · intro ha
    rw [ha, mul_zero, zero_mul, zero_div, DegreesToRadians_zero]
    exact ⟨FMath.Sin_zero, FMath.Cos_zero⟩

/-- The safe normal is a multiple of the vector. -/
theorem FVector.GetSafeNormal_eq_mul (V : FVector K) : ∃ c : K, V.GetSafeNormal = V * c := by
  rcases lt_or_le V.SizeSquared SMALL_NUMBER with h | h
  · refine ⟨0, ?_⟩
    rw [FVector.GetSafeNormal_of_small V h]
    ext <;> simp
  · exact ⟨1 / V.Size, FVector.GetSafeNormal_of_large V h⟩

theorem FVector.DotProduct_mul_left (V W : FVector K) (c : K) :
    FVector.DotProduct (V * c) W = FVector.DotProduct V W * c := by
  simp only [FVector.DotProduct, FVector.mul_X, FVector.mul_Y, FVector.mul_Z]
  ring

theorem FVector.DotProduct_GetSafeNormal (V W : FVector K) (h : FVector.DotProduct V W = 0) :
    FVector.DotProduct V.GetSafeNormal W = 0 := by
  obtain ⟨c, hc⟩ := V.GetSafeNormal_eq_mul
  rw [hc, FVector.DotProduct_mul_left, h, zero_mul]

/-- The result of `GetPerpendicularVector` has no component along the direction. -/
theorem GetPerpendicularVector_dot (Dir : FVector K) (Alpha : K) :
    FVector.DotProduct (GetPerpendicularVector Dir Alpha) Dir = 0 := by
  obtain ⟨R, CP, SP, CY, SY, S, C, h1, h2, h3, hRR, hDir, hres, _, _, _⟩ :=
    GetPerpendicularVector_eq Dir Alpha
  rw [hres]
  apply FVector.DotProduct_GetSafeNormal
  rw [hDir]
  simp only [FVector.DotProduct]
  linear_combination (R * R * SP * C * CP) * h2

/-- The vector that `GetPerpendicularVector` normalises is as long as the direction. -/
theorem GetPerpendicularVector_cases (Dir : FVector K) (Alpha : K) :
    (SMALL_NUMBER ≤ Dir.SizeSquared → (GetPerpendicularVector Dir Alpha).SizeSquared = 1)
      ∧ (Dir.SizeSquared < SMALL_NUMBER
        → GetPerpendicularVector Dir Alpha = FVector.ZeroVector) := by
  obtain ⟨R, CP, SP, CY, SY, S, C, h1, h2, h3, hRR, hDir, hres, _, _, _⟩ :=
    GetPerpendicularVector_eq Dir Alpha
  have hlen : (⟨R * (CY * SP * C - SY * S), R * (SY * SP * C + CY * S), -(R * CP * C)⟩
      : FVector K).SizeSquared = Dir.SizeSquared := by
    rw [← hRR]
    simp only [FVector.SizeSquared]
    linear_combination (R * R) * h3 + (R * R * (C * C)) * h1
      + (R * R * (SP * SP * C * C + S * S)) * h2
  rw [hres]
  constructor
  · intro h
    exact FVector.SizeSquared_GetSafeNormal _ (by rw [hlen]; exact h)
  · intro h
    exact FVector.GetSafeNormal_of_small _ (by rw [hlen]; exact h)

/-- The fallback linear direction for gravity along -Z: `GetPerpendicularVector` of
`(0, 0, -1)` with `Alpha` zero is `(-1, 0, 0)`. -/
theorem GetPerpendicularVector_DownVector :
    GetPerpendicularVector (⟨0, 0, -1⟩ : FVector K) 0 = ⟨-1, 0, 0⟩ := by
  obtain ⟨R, CP, SP, CY, SY, S, C, h1, h2, h3, hRR, hDir, hres, hCY, hSY, hA⟩ :=
    GetPerpendicularVector_eq (⟨0, 0, -1⟩ : FVector K) 0
  obtain ⟨hS, hC⟩ := hA rfl
  simp only [FMath.Atan2_zero_zero, FMath.Cos_zero, FMath.Sin_zero] at hCY hSY
  have hX := congrArg FVector.X hDir
  have hZ := congrArg FVector.Z hDir
  simp only [hCY, mul_one] at hX
  simp only at hZ
  rw [hres, hS, hC, hCY, hSY]
  have hv : (⟨R * (1 * SP * 1 - 0 * 0), R * (0 * SP * 1 + 1 * 0), -(R * CP * 1)⟩ : FVector K)
      = ⟨-1, 0, 0⟩ := by
    ext
    · simp only; linarith
    · simp only; ring
    · simp only; linarith
  rw [hv]
  simp [FVector.GetSafeNormal]

/-- The difference of two projections on a plane with a unit normal lies in the plane. -/
theorem PointPlaneProject_sub_dot (A C Base G : FVector K) (hG : G.SizeSquared = 1) :
    FVector.DotProduct
      (FVector.PointPlaneProject A Base G - FVector.PointPlaneProject C Base G) G = 0 := by
  simp only [FVector.DotProduct, FVector.PointPlaneProject, FVector.PointPlaneDist,
    FVector.sub_X, FVector.sub_Y, FVector.sub_Z, FVector.smul_X, FVector.smul_Y,
    FVector.smul_Z]
  simp only [FVector.SizeSquared] at hG
  linear_combination
    (-((A.X - C.X) * G.X + (A.Y - C.Y) * G.Y + (A.Z - C.Z) * G.Z)) * hG

/-- The linear direction, branch by branch, for a unit gravity direction. -/
theorem GetLinearDirection_cases (self : UHomingProjectileMotion K) (Cur Tgt : FVector K) :
    (SMALL_NUMBER ≤ (FVector.PointPlaneProject Tgt self.m_Params.LaunchLocation
            self.m_Params.GravityDirection
          - FVector.PointPlaneProject Cur self.m_Params.LaunchLocation
            self.m_Params.GravityDirection).SizeSquared →
        self.GetLinearDirection Cur Tgt
          = (FVector.PointPlaneProject Tgt self.m_Params.LaunchLocation
              self.m_Params.GravityDirection
            - FVector.PointPlaneProject Cur self.m_Params.LaunchLocation
              self.m_Params.GravityDirection).GetSafeNormal)
      ∧ ((FVector.PointPlaneProject Tgt self.m_Params.LaunchLocation
            self.m_Params.GravityDirection
          - FVector.PointPlaneProject Cur self.m_Params.LaunchLocation
            self.m_Params.GravityDirection).SizeSquared < SMALL_NUMBER →
        self.GetLinearDirection Cur Tgt
          = GetPerpendicularVector self.m_Params.GravityDirection 0) := by
  constructor
  · intro h
    have h1 := FVector.SizeSquared_GetSafeNormal _ h
    simp only [GetLinearDirection, h1]
    norm_num
  · intro h
    have h1 := FVector.GetSafeNormal_of_small _ h
    simp only [GetLinearDirection, h1, FVector.SizeSquared_ZeroVector]
    norm_num

end RotationLemmas

/-! ## The branches of `UpdateHPM` -/

section BranchLemmas

variable {K : Type} [LinearOrderedField K] [FloorRing K] [FMath K]

open UHomingProjectileMotion

theorem UpdateHPM_of_null (self : UHomingProjectileMotion K) (Cur Tgt : FVector K) (Ts : K)
    (XVel YVel : FVector K) (h : self.WorldContextObj = none) :
    UpdateHPM self Cur Tgt Ts XVel YVel = (FProjectileState.Default XVel YVel, self) := by
  simp [UpdateHPM, h]

theorem UpdateHPM_of_no_world (self : UHomingProjectileMotion K) (Cur Tgt : FVector K) (Ts : K)
    (XVel YVel : FVector K) (Ctx : UObject K) (h : self.WorldContextObj = some Ctx)
    (hw : Ctx.GetWorld = none) :
    UpdateHPM self Cur Tgt Ts XVel YVel = (FProjectileState.Default XVel YVel, self) := by
  simp [UpdateHPM, h, hw]

theorem UpdateHPM_of_time_up (self : UHomingProjectileMotion K) (Cur Tgt : FVector K) (Ts : K)
    (XVel YVel : FVector K) (h : self.m_ProjectileState.fTimeLeft ≤ 0) :
    UpdateHPM self Cur Tgt Ts XVel YVel = (FProjectileState.Default XVel YVel, self) := by
  unfold UpdateHPM
  split
  · rfl
  · rw [if_pos h]

/-- The state that an effective call stores and returns, field by field. -/
theorem UpdateHPM_effective (self : UHomingProjectileMotion K) (Cur Tgt : FVector K) (Ts : K)
    (XVel YVel : FVector K) (Ctx : UObject K) (World : UWorld K)
    (h : self.WorldContextObj = some Ctx) (hw : Ctx.GetWorld = some World)
    (ht : 0 < self.m_ProjectileState.fTimeLeft) :
    UpdateHPM self Cur Tgt Ts XVel YVel
      = (let L := self.GetLinearDirection Cur Tgt
         let Speed := self.GetHomingLinearSpeed Cur Tgt
         let dX := FVector.DotProduct self.m_Params.GravityDirection
           (FVector.PointPlaneProject Tgt Cur L - Cur)
         let V := FVector.DotProduct self.m_ProjectileState.YVel self.m_Params.GravityDirection
         let a := (2 * (dX - V * self.m_ProjectileState.fTimeLeft))
           / (self.m_ProjectileState.fTimeLeft * self.m_ProjectileState.fTimeLeft)
         let Y := self.m_ProjectileState.YVel
           + a * self.m_Params.GravityDirection * World.GetDeltaSeconds
         let S : FProjectileState K :=
           ⟨L, self.m_ProjectileState.LaunchVelocity, L * Speed + Y, L * Speed, Y, Speed,
             self.m_ProjectileState.fTotalTime,
             self.m_ProjectileState.fTimeLeft - World.GetDeltaSeconds⟩
         (S, ⟨self.WorldContextObj, self.m_Params, S⟩)) := by
  simp [UpdateHPM, h, hw, not_le.mpr ht, GetLinearDirection, GetHomingLinearSpeed]


/-- What no `UpdateHPM` call changes: the context, the parameters, the total flight time
and the launch velocity. -/
theorem UpdateHPM_keeps (self : UHomingProjectileMotion K) (Cur Tgt : FVector K) (Ts : K)
    (XVel YVel : FVector K) :
    (UpdateHPM self Cur Tgt Ts XVel YVel).2.WorldContextObj = self.WorldContextObj
      ∧ (UpdateHPM self Cur Tgt Ts XVel YVel).2.m_Params = self.m_Params
      ∧ (UpdateHPM self Cur Tgt Ts XVel YVel).2.m_ProjectileState.fTotalTime
          = self.m_ProjectileState.fTotalTime
      ∧ (UpdateHPM self Cur Tgt Ts XVel YVel).2.m_ProjectileState.LaunchVelocity
          = self.m_ProjectileState.LaunchVelocity := by
  unfold UpdateHPM
  split
  · exact ⟨rfl, rfl, rfl, rfl⟩
  · split_ifs
    · exact ⟨rfl, rfl, rfl, rfl⟩
    · exact ⟨rfl, rfl, rfl, rfl⟩

theorem UpdateHPM_calls_context (Args : ℕ → FUpdateArgs K) (self : UHomingProjectileMotion K)
    (k : ℕ) : (UpdateHPM_calls Args self k).WorldContextObj = self.WorldContextObj := by
  induction k with
  | zero => rfl
  | succ n ih =>
    rw [UpdateHPM_calls, (UpdateHPM_keeps _ _ _ _ _ _).1, ih]

/-- What a `SetupHPM` call with a non-null context stores. -/
theorem SetupHPM_fields (Arc : ArcSolver K) (self : UHomingProjectileMotion K)
    (Ctx : UObject K) (LaunchParams : FProjectileParams K) (XVel YVel : FVector K) :
    (SetupHPM Arc self (some Ctx) LaunchParams XVel YVel).WorldContextObj = some Ctx
      ∧ (SetupHPM Arc self (some Ctx) LaunchParams XVel YVel).m_Params = LaunchParams
      ∧ (SetupHPM Arc self (some Ctx) LaunchParams XVel YVel).m_ProjectileState.LinearDirection
        = (SetupHPM Arc self (some Ctx) LaunchParams XVel YVel).GetLinearDirection
            LaunchParams.LaunchLocation LaunchParams.TargetLocation
      ∧ (SetupHPM Arc self (some Ctx) LaunchParams XVel YVel).m_ProjectileState.LaunchVelocity
        = (SetupHPM Arc self (some Ctx) LaunchParams XVel YVel).CalculateLaunchVelocity Arc
      ∧ (SetupHPM Arc self (some Ctx) LaunchParams XVel YVel).m_ProjectileState.YVel
        = (SetupHPM Arc self (some Ctx) LaunchParams XVel YVel).GetGravityComponent
            (SetupHPM Arc self (some Ctx) LaunchParams XVel YVel).m_ProjectileState.LaunchVelocity
      ∧ (SetupHPM Arc self (some Ctx) LaunchParams XVel YVel).m_ProjectileState.XVel
        = (SetupHPM Arc self (some Ctx) LaunchParams XVel YVel).GetLinearComponent
            (SetupHPM Arc self (some Ctx) LaunchParams XVel YVel).m_ProjectileState.LaunchVelocity
      ∧ (SetupHPM Arc self (some Ctx) LaunchParams XVel YVel).m_ProjectileState.fLinearSpeed
        = (SetupHPM Arc self (some Ctx) LaunchParams XVel YVel).m_ProjectileState.XVel.Size
      ∧ (SetupHPM Arc self (some Ctx) LaunchParams XVel YVel).m_ProjectileState.fTotalTime
        = (SetupHPM Arc self (some Ctx) LaunchParams XVel YVel).GetTrajectoryDuration
      ∧ (SetupHPM Arc self (some Ctx) LaunchParams XVel YVel).m_ProjectileState.fTimeLeft
        = (SetupHPM Arc self (some Ctx) LaunchParams XVel YVel).m_ProjectileState.fTotalTime
      ∧ (SetupHPM Arc self (some Ctx) LaunchParams XVel YVel).m_ProjectileState.NetVelocity
        = FVector.ZeroVector :=
  ⟨rfl, rfl, rfl, rfl, rfl, rfl, rfl, rfl, rfl, rfl⟩

end BranchLemmas

/-! ## One homing step -/

section StepLemmas

variable {K : Type} [LinearOrderedField K] [FloorRing K] [FMath K]

open UHomingProjectileMotion

/-- The linear direction has no component along a unit gravity direction. -/
theorem GetLinearDirection_dot (self : UHomingProjectileMotion K) (Cur Tgt : FVector K)
    (hG : self.m_Params.GravityDirection.SizeSquared = 1) :
    FVector.DotProduct (self.GetLinearDirection Cur Tgt) self.m_Params.GravityDirection = 0 := by
  obtain ⟨hbig, hsmall⟩ := GetLinearDirection_cases self Cur Tgt
  rcases lt_or_le (FVector.PointPlaneProject Tgt self.m_Params.LaunchLocation
      self.m_Params.GravityDirection - FVector.PointPlaneProject Cur
      self.m_Params.LaunchLocation self.m_Params.GravityDirection).SizeSquared
      SMALL_NUMBER with hlt | hge
  · rw [hsmall hlt]; exact GetPerpendicularVector_dot _ _
  · rw [hbig hge]
    exact FVector.DotProduct_GetSafeNormal _ _ (PointPlaneProject_sub_dot _ _ _ _ hG)

/-- The plane offset is the offset minus its part along the gravity direction. -/
theorem PlaneOffset_eq (self : UHomingProjectileMotion K) (Cur Tgt : FVector K) :
    PlaneOffset self Cur Tgt
      = (Tgt - Cur) - self.m_Params.GravityDirection * GravityOffset self Cur Tgt := by
  ext <;>
    simp only [PlaneOffset, GravityOffset, FVector.DotProduct, FVector.PointPlaneProject,
      FVector.PointPlaneDist, FVector.sub_X, FVector.sub_Y, FVector.sub_Z, FVector.smul_X,
      FVector.smul_Y, FVector.smul_Z, FVector.mul_X, FVector.mul_Y, FVector.mul_Z] <;>
    ring

/-- The horizontal velocity of a call closes the plane offset in the remaining time, when
that offset is the zero vector or its squared length reaches the tolerance. -/
theorem XVel_closes_offset (self : UHomingProjectileMotion K) (Cur Tgt : FVector K)
    (ht : 0 < self.m_ProjectileState.fTimeLeft)
    (hgap : PlaneOffset self Cur Tgt = FVector.ZeroVector
      ∨ SMALL_NUMBER ≤ (PlaneOffset self Cur Tgt).SizeSquared) :
    self.GetLinearDirection Cur Tgt * self.GetHomingLinearSpeed Cur Tgt
      = PlaneOffset self Cur Tgt * (1 / self.m_ProjectileState.fTimeLeft) := by
  have hspeed : self.GetHomingLinearSpeed Cur Tgt
      = (PlaneOffset self Cur Tgt).Size / self.m_ProjectileState.fTimeLeft := rfl
  rcases hgap with h0 | hge
  · have hs : (PlaneOffset self Cur Tgt).Size = 0 := by
      rw [h0, FVector.Size_eq_Sqrt, FVector.SizeSquared_ZeroVector, Sqrt_zero]
    rw [hspeed, hs, h0]
    ext <;> simp
  · have hL : self.GetLinearDirection Cur Tgt
        = PlaneOffset self Cur Tgt * (1 / (PlaneOffset self Cur Tgt).Size) := by
      rw [(GetLinearDirection_cases self Cur Tgt).1 hge]
      exact FVector.GetSafeNormal_of_large _ hge
    have hp : (PlaneOffset self Cur Tgt).Size ≠ 0 := (FVector.Size_pos_of_large _ hge).ne'
    have ht' : self.m_ProjectileState.fTimeLeft ≠ 0 := ht.ne'
    rw [hspeed, hL]
    ext <;> simp <;> field_simp

/-- The vertical offset that a call measures is the offset along gravity when the linear
direction is orthogonal to gravity. -/
theorem dX_eq_GravityOffset (self : UHomingProjectileMotion K) (Cur Tgt L : FVector K)
    (hL : FVector.DotProduct L self.m_Params.GravityDirection = 0) :
    FVector.DotProduct self.m_Params.GravityDirection
        (FVector.PointPlaneProject Tgt Cur L - Cur)
      = GravityOffset self Cur Tgt := by
  simp only [GravityOffset, FVector.DotProduct, FVector.PointPlaneProject,
    FVector.PointPlaneDist, FVector.sub_X, FVector.sub_Y, FVector.sub_Z, FVector.smul_X,
    FVector.smul_Y, FVector.smul_Z] at hL ⊢
  linear_combination
    (-((Tgt.X - Cur.X) * L.X + (Tgt.Y - Cur.Y) * L.Y + (Tgt.Z - Cur.Z) * L.Z)) * hL

/-- One effective call with a unit gravity direction `G` and a cached vertical velocity
`G * v`: what it returns and stores. -/
theorem UpdateHPM_vertical_step (self : UHomingProjectileMotion K) (Cur Tgt : FVector K)
    (Ts : K) (XVel YVel : FVector K) (Ctx : UObject K) (World : UWorld K) (v : K)
    (h : self.WorldContextObj = some Ctx) (hw : Ctx.GetWorld = some World)
    (ht : 0 < self.m_ProjectileState.fTimeLeft)
    (hG : self.m_Params.GravityDirection.SizeSquared = 1)
    (hY : self.m_ProjectileState.YVel = self.m_Params.GravityDirection * v) :
    (UpdateHPM self Cur Tgt Ts XVel YVel).1.NetVelocity
        = self.GetLinearDirection Cur Tgt * self.GetHomingLinearSpeed Cur Tgt
          + self.m_Params.GravityDirection
            * (v + 2 * (GravityOffset self Cur Tgt - v * self.m_ProjectileState.fTimeLeft)
                / (self.m_ProjectileState.fTimeLeft * self.m_ProjectileState.fTimeLeft)
              * World.GetDeltaSeconds)
      ∧ (UpdateHPM self Cur Tgt Ts XVel YVel).2.m_ProjectileState.YVel
        = self.m_Params.GravityDirection
            * (v + 2 * (GravityOffset self Cur Tgt - v * self.m_ProjectileState.fTimeLeft)
                / (self.m_ProjectileState.fTimeLeft * self.m_ProjectileState.fTimeLeft)
              * World.GetDeltaSeconds)
      ∧ (UpdateHPM self Cur Tgt Ts XVel YVel).2.m_ProjectileState.fTimeLeft
        = self.m_ProjectileState.fTimeLeft - World.GetDeltaSeconds
      ∧ (UpdateHPM self Cur Tgt Ts XVel YVel).2.WorldContextObj = self.WorldContextObj
      ∧ (UpdateHPM self Cur Tgt Ts XVel YVel).2.m_Params = self.m_Params := by
  have hdX := dX_eq_GravityOffset self Cur Tgt (self.GetLinearDirection Cur Tgt)
    (GetLinearDirection_dot self Cur Tgt hG)
  have hV : FVector.DotProduct self.m_ProjectileState.YVel self.m_Params.GravityDirection
      = v := by
    rw [hY, FVector.DotProduct_mul_left, FVector.DotProduct_self, hG, one_mul]
  rw [UpdateHPM_effective self Cur Tgt Ts XVel YVel Ctx World h hw ht]
  simp only [hdX, hV]
  have hYnew : self.m_ProjectileState.YVel
      + 2 * (GravityOffset self Cur Tgt - v * self.m_ProjectileState.fTimeLeft)
          / (self.m_ProjectileState.fTimeLeft * self.m_ProjectileState.fTimeLeft)
        * self.m_Params.GravityDirection * World.GetDeltaSeconds
      = self.m_Params.GravityDirection
          * (v + 2 * (GravityOffset self Cur Tgt - v * self.m_ProjectileState.fTimeLeft)
              / (self.m_ProjectileState.fTimeLeft * self.m_ProjectileState.fTimeLeft)
            * World.GetDeltaSeconds) := by
    rw [hY]
    ext <;> simp <;> ring
  rw [hYnew]
  exact ⟨rfl, rfl, trivial, trivial, trivial⟩

/-- The same call when the plane offset is the zero vector or reaches the tolerance: the
horizontal part of the returned velocity is the plane offset over the remaining time. -/
theorem UpdateHPM_homing_step (self : UHomingProjectileMotion K) (Cur Tgt : FVector K)
    (Ts : K) (XVel YVel : FVector K) (Ctx : UObject K) (World : UWorld K) (v : K)
    (h : self.WorldContextObj = some Ctx) (hw : Ctx.GetWorld = some World)
    (ht : 0 < self.m_ProjectileState.fTimeLeft)
    (hG : self.m_Params.GravityDirection.SizeSquared = 1)
    (hY : self.m_ProjectileState.YVel = self.m_Params.GravityDirection * v)
    (hgap : PlaneOffset self Cur Tgt = FVector.ZeroVector
      ∨ SMALL_NUMBER ≤ (PlaneOffset self Cur Tgt).SizeSquared) :
    (UpdateHPM self Cur Tgt Ts XVel YVel).1.NetVelocity
        = PlaneOffset self Cur Tgt * (1 / self.m_ProjectileState.fTimeLeft)
          + self.m_Params.GravityDirection
            * (v + 2 * (GravityOffset self Cur Tgt - v * self.m_ProjectileState.fTimeLeft)
                / (self.m_ProjectileState.fTimeLeft * self.m_ProjectileState.fTimeLeft)
              * World.GetDeltaSeconds)
      ∧ (UpdateHPM self Cur Tgt Ts XVel YVel).2.m_ProjectileState.YVel
        = self.m_Params.GravityDirection
            * (v + 2 * (GravityOffset self Cur Tgt - v * self.m_ProjectileState.fTimeLeft)
                / (self.m_ProjectileState.fTimeLeft * self.m_ProjectileState.fTimeLeft)
              * World.GetDeltaSeconds)
      ∧ (UpdateHPM self Cur Tgt Ts XVel YVel).2.m_ProjectileState.fTimeLeft
        = self.m_ProjectileState.fTimeLeft - World.GetDeltaSeconds
      ∧ (UpdateHPM self Cur Tgt Ts XVel YVel).2.WorldContextObj = self.WorldContextObj
      ∧ (UpdateHPM self Cur Tgt Ts XVel YVel).2.m_Params = self.m_Params := by
  have key := UpdateHPM_vertical_step self Cur Tgt Ts XVel YVel Ctx World v h hw ht hG hY
  rw [XVel_closes_offset self Cur Tgt ht hgap] at key
  exact key

theorem PlaneOffset_congr (a b : UHomingProjectileMotion K) (h : a.m_Params = b.m_Params)
    (Cur Tgt : FVector K) : PlaneOffset a Cur Tgt = PlaneOffset b Cur Tgt := by
  simp only [PlaneOffset, h]

theorem GravityOffset_congr (a b : UHomingProjectileMotion K) (h : a.m_Params = b.m_Params)
    (Cur Tgt : FVector K) : GravityOffset a Cur Tgt = GravityOffset b Cur Tgt := by
  simp only [GravityOffset, h]

/-- The offset along gravity after the caller has moved the location by a velocity made of
`c` times the plane offset and `w` times the unit gravity direction. -/
theorem GravityOffset_move (self : UHomingProjectileMotion K) (Cur Tgt : FVector K)
    (c w dt : K) (hG : self.m_Params.GravityDirection.SizeSquared = 1) :
    GravityOffset self
        (Cur + (PlaneOffset self Cur Tgt * c + self.m_Params.GravityDirection * w) * dt) Tgt
      = GravityOffset self Cur Tgt - w * dt := by
  simp only [PlaneOffset, GravityOffset, FVector.DotProduct, FVector.PointPlaneProject,
    FVector.PointPlaneDist, FVector.sub_X, FVector.sub_Y, FVector.sub_Z, FVector.smul_X,
    FVector.smul_Y, FVector.smul_Z, FVector.mul_X, FVector.mul_Y, FVector.mul_Z,
    FVector.add_X, FVector.add_Y, FVector.add_Z, FVector.SizeSquared] at hG ⊢
  linear_combination
    ((self.m_Params.GravityDirection.X * (Tgt.X - Cur.X)
        + self.m_Params.GravityDirection.Y * (Tgt.Y - Cur.Y)
        + self.m_Params.GravityDirection.Z * (Tgt.Z - Cur.Z)) * c * dt - w * dt) * hG

/-- The plane offset after that move. -/
theorem PlaneOffset_move (self : UHomingProjectileMotion K) (Cur Tgt : FVector K)
    (c w dt : K) (hG : self.m_Params.GravityDirection.SizeSquared = 1) :
    PlaneOffset self
        (Cur + (PlaneOffset self Cur Tgt * c + self.m_Params.GravityDirection * w) * dt) Tgt
      = PlaneOffset self Cur Tgt * (1 - c * dt) := by
  ext
  · simp only [PlaneOffset, FVector.DotProduct, FVector.PointPlaneProject,
      FVector.PointPlaneDist, FVector.sub_X, FVector.sub_Y, FVector.sub_Z, FVector.smul_X,
      FVector.smul_Y, FVector.smul_Z, FVector.mul_X, FVector.mul_Y, FVector.mul_Z,
      FVector.add_X, FVector.add_Y, FVector.add_Z, FVector.SizeSquared] at hG ⊢
    linear_combination
      (-self.m_Params.GravityDirection.X
        * ((self.m_Params.GravityDirection.X * (Tgt.X - Cur.X)
          + self.m_Params.GravityDirection.Y * (Tgt.Y - Cur.Y)
          + self.m_Params.GravityDirection.Z * (Tgt.Z - Cur.Z)) * c * dt - w * dt)) * hG
  · simp only [PlaneOffset, FVector.DotProduct, FVector.PointPlaneProject,
      FVector.PointPlaneDist, FVector.sub_X, FVector.sub_Y, FVector.sub_Z, FVector.smul_X,
      FVector.smul_Y, FVector.smul_Z, FVector.mul_X, FVector.mul_Y, FVector.mul_Z,
      FVector.add_X, FVector.add_Y, FVector.add_Z, FVector.SizeSquared] at hG ⊢
    linear_combination
      (-self.m_Params.GravityDirection.Y
        * ((self.m_Params.GravityDirection.X * (Tgt.X - Cur.X)
          + self.m_Params.GravityDirection.Y * (Tgt.Y - Cur.Y)
          + self.m_Params.GravityDirection.Z * (Tgt.Z - Cur.Z)) * c * dt - w * dt)) * hG
  · simp only [PlaneOffset, FVector.DotProduct, FVector.PointPlaneProject,
      FVector.PointPlaneDist, FVector.sub_X, FVector.sub_Y, FVector.sub_Z, FVector.smul_X,
      FVector.smul_Y, FVector.smul_Z, FVector.mul_X, FVector.mul_Y, FVector.mul_Z,
      FVector.add_X, FVector.add_Y, FVector.add_Z, FVector.SizeSquared] at hG ⊢
    linear_combination
      (-self.m_Params.GravityDirection.Z
        * ((self.m_Params.GravityDirection.X * (Tgt.X - Cur.X)
          + self.m_Params.GravityDirection.Y * (Tgt.Y - Cur.Y)
          + self.m_Params.GravityDirection.Z * (Tgt.Z - Cur.Z)) * c * dt - w * dt)) * hG

theorem FVector.ZeroVector_mul (c : K) : (FVector.ZeroVector : FVector K) * c
    = FVector.ZeroVector := by
  ext <;> simp

theorem FVector.mul_mul (V : FVector K) (a b : K) : V * a * b = V * (a * b) := by
  ext <;> simp <;> ring

/-- The state of the integrating caller after `k` of `N` calls, `N` at least 2: the remaining
time is `(N - k) dt`, the cached vertical velocity is still along gravity, the plane offset
to the target is `(N - k) / N` of the first one, and the offset along gravity differs from
what the cached vertical speed covers in the remaining time by
`(N - k) (N - k - 1) / (N (N - 1))` of the first difference. -/
theorem Integrate_invariant (self : UHomingProjectileMotion K) (Start Target : FVector K)
    (TimeStamp : ℕ → K) (XVel YVel : ℕ → FVector K) (Ctx : UObject K) (World : UWorld K)
    (N : ℕ) (v : K)
    (h : self.WorldContextObj = some Ctx) (hw : Ctx.GetWorld = some World)
    (hdt : 0 < World.GetDeltaSeconds) (hN : 2 ≤ N)
    (hT : self.m_ProjectileState.fTimeLeft = N * World.GetDeltaSeconds)
    (hG : self.m_Params.GravityDirection.SizeSquared = 1)
    (hY : self.m_ProjectileState.YVel = self.m_Params.GravityDirection * v)
    (hgap : PlaneOffset self Start Target = FVector.ZeroVector
      ∨ SMALL_NUMBER * ((N : K) * N) ≤ (PlaneOffset self Start Target).SizeSquared)
    (k : ℕ) (hk : k ≤ N) :
    (Integrate Target World.GetDeltaSeconds TimeStamp XVel YVel self Start k).1.WorldContextObj
        = self.WorldContextObj
      ∧ (Integrate Target World.GetDeltaSeconds TimeStamp XVel YVel self Start k).1.m_Params
        = self.m_Params
      ∧ (Integrate Target World.GetDeltaSeconds TimeStamp XVel YVel self Start k
          ).1.m_ProjectileState.fTimeLeft = ((N : K) - (k : K)) * World.GetDeltaSeconds
      ∧ PlaneOffset self
          (Integrate Target World.GetDeltaSeconds TimeStamp XVel YVel self Start k).2 Target
        = PlaneOffset self Start Target * (((N : K) - (k : K)) / (N : K))
      ∧ ∃ w : K,
        (Integrate Target World.GetDeltaSeconds TimeStamp XVel YVel self Start k
            ).1.m_ProjectileState.YVel = self.m_Params.GravityDirection * w
          ∧ GravityOffset self
              (Integrate Target World.GetDeltaSeconds TimeStamp XVel YVel self Start k).2 Target
            - w * (((N : K) - (k : K)) * World.GetDeltaSeconds)
            = (GravityOffset self Start Target - v * (N * World.GetDeltaSeconds))
              * ((((N : K) - (k : K)) * ((N : K) - (k : K) - 1)) / ((N : K) * ((N : K) - 1))) := by
  have hN0 : (N : K) ≠ 0 := by
    have : (0 : K) < N := by exact_mod_cast (by omega : 0 < N)
    exact this.ne'
  have hN1 : (N : K) - 1 ≠ 0 := by
    have h1 : (1 : K) < N := by exact_mod_cast (by omega : 1 < N)
    have h2 : (0 : K) < (N : K) - 1 := by linarith
    exact h2.ne'
  induction k with
  | zero =>
    refine ⟨rfl, rfl, ?_, ?_, v, hY, ?_⟩
    · simp [Integrate, hT]
    · simp only [Integrate, Nat.cast_zero, sub_zero, div_self hN0]
      ext <;> simp
    · simp only [Integrate, Nat.cast_zero, sub_zero]
      field_simp
  | succ n ih =>
    obtain ⟨ic, ip, it, ig, w, iy, ie⟩ := ih (Nat.le_of_succ_le hk)
    have hm : (1 : K) ≤ (N : K) - (n : K) := by
      have : ((n + 1 : ℕ) : K) ≤ N := by exact_mod_cast hk
      push_cast at this
      linarith
    have hmpos : (0 : K) < (N : K) - (n : K) := by linarith
    have hm0 : (N : K) - (n : K) ≠ 0 := hmpos.ne'
    have hdt0 : World.GetDeltaSeconds ≠ 0 := hdt.ne'
    set B := Integrate Target World.GetDeltaSeconds TimeStamp XVel YVel self Start n with hB
    have htpos : 0 < B.1.m_ProjectileState.fTimeLeft := by
      rw [it]; exact mul_pos hmpos hdt
    have hGB : B.1.m_Params.GravityDirection.SizeSquared = 1 := by rw [ip]; exact hG
    have hPO : PlaneOffset B.1 B.2 Target = PlaneOffset self B.2 Target :=
      PlaneOffset_congr _ _ ip _ _
    have hGO : GravityOffset B.1 B.2 Target = GravityOffset self B.2 Target :=
      GravityOffset_congr _ _ ip _ _
    have hgapB : PlaneOffset B.1 B.2 Target = FVector.ZeroVector
        ∨ SMALL_NUMBER ≤ (PlaneOffset B.1 B.2 Target).SizeSquared := by
      rw [hPO, ig]
      rcases hgap with h0 | hge
      · left; rw [h0, FVector.ZeroVector_mul]
      · right
        rw [FVector.SizeSquared_mul]
        have hq : (1 : K) ≤ ((N : K) - (n : K)) * ((N : K) - (n : K)) := by nlinarith
        have hNN : (0 : K) < (N : K) * N := by positivity
        have hexp : ((N : K) - (n : K)) / (N : K) * (((N : K) - (n : K)) / (N : K))
            = ((N : K) - (n : K)) * ((N : K) - (n : K)) / ((N : K) * N) := by
          field_simp
        rw [hexp]
        have hS : SMALL_NUMBER
            ≤ (PlaneOffset self Start Target).SizeSquared / ((N : K) * N) :=
          (le_div_iff₀ hNN).mpr hge
        calc (SMALL_NUMBER : K) = SMALL_NUMBER * 1 := (mul_one _).symm
          _ ≤ SMALL_NUMBER * (((N : K) - (n : K)) * ((N : K) - (n : K))) :=
            mul_le_mul_of_nonneg_left hq SMALL_NUMBER_pos.le
          _ ≤ (PlaneOffset self Start Target).SizeSquared / ((N : K) * N)
              * (((N : K) - (n : K)) * ((N : K) - (n : K))) :=
            mul_le_mul_of_nonneg_right hS (by linarith)
          _ = (PlaneOffset self Start Target).SizeSquared
              * (((N : K) - (n : K)) * ((N : K) - (n : K)) / ((N : K) * N)) := by ring
    obtain ⟨sNet, sY, sT, sC, sP⟩ :=
      UpdateHPM_homing_step B.1 B.2 Target (TimeStamp n) (XVel n) (YVel n) Ctx World w
        (by rw [ic, h]) hw htpos hGB (by rw [iy, ip]) hgapB
    rw [hPO, hGO, ip, it] at sNet
    rw [hGO, ip, it] at sY
    have hstep : Integrate Target World.GetDeltaSeconds TimeStamp XVel YVel self Start (n + 1)
        = ((UpdateHPM B.1 B.2 Target (TimeStamp n) (XVel n) (YVel n)).2,
            B.2 + (UpdateHPM B.1 B.2 Target (TimeStamp n) (XVel n) (YVel n)).1.NetVelocity
              * World.GetDeltaSeconds) := rfl
    rw [hstep]
    refine ⟨by rw [sC, ic], by rw [sP, ip], ?_, ?_, _, sY, ?_⟩
    · rw [sT, it]; push_cast; ring
    · simp only [sNet]
      rw [PlaneOffset_move self B.2 Target _ _ _ hG, ig, FVector.mul_mul]
      congr 1
      push_cast
      field_simp
      ring
    · simp only [sNet]
      rw [GravityOffset_move self B.2 Target _ _ _ hG]
      have ie' : GravityOffset self B.2 Target
          = w * (((N : K) - (n : K)) * World.GetDeltaSeconds)
            + (GravityOffset self Start Target - v * (N * World.GetDeltaSeconds))
              * ((((N : K) - (n : K)) * ((N : K) - (n : K) - 1)) / ((N : K) * ((N : K) - 1))) := by
        linear_combination ie
      rw [ie']
      push_cast
      field_simp
      ring

end StepLemmas

/-! ## Lemmas on the launch, the flight time and the samples -/

section SetupLemmas

variable {K : Type} [LinearOrderedField K] [FloorRing K] [FMath K]

open UHomingProjectileMotion

/-- The safe normal of a positive multiple of a unit vector, from the tolerance on. -/
theorem GetSafeNormal_unit_mul_pos (G : FVector K) (s : K) (hG : G.SizeSquared = 1)
    (hs : 0 < s) (hl : SMALL_NUMBER ≤ s * s) : (G * s).GetSafeNormal = G := by
  have hss : (G * s).SizeSquared = s * s := by rw [FVector.SizeSquared_mul, hG, one_mul]
  have hsz : (G * s).Size = s := by
    rw [FVector.Size_eq_Sqrt, hss, Sqrt_mul_self_of_nonneg s hs.le]
  rw [FVector.GetSafeNormal_of_large _ (by rw [hss]; exact hl), hsz]
  ext <;> simp <;> field_simp

/-- The safe normal of a negative multiple of a unit vector, from the tolerance on. -/
theorem GetSafeNormal_unit_mul_neg (G : FVector K) (s : K) (hG : G.SizeSquared = 1)
    (hs : s < 0) (hl : SMALL_NUMBER ≤ s * s) : (G * s).GetSafeNormal = -G := by
  have hss : (G * s).SizeSquared = s * s := by rw [FVector.SizeSquared_mul, hG, one_mul]
  have hsz : (G * s).Size = -s := by
    rw [FVector.Size_eq_Sqrt, hss, Sqrt_mul_self_abs, abs_of_neg hs]
  rw [FVector.GetSafeNormal_of_large _ (by rw [hss]; exact hl), hsz]
  have hne : s ≠ 0 := hs.ne
  have hne2 : -s ≠ 0 := neg_ne_zero.mpr hne
  ext <;> simp <;> field_simp

theorem CrossProduct_self_SizeSquared (G : FVector K) :
    (FVector.CrossProduct G G).SizeSquared = 0 := by
  simp only [FVector.CrossProduct, FVector.SizeSquared]
  ring

theorem CrossProduct_neg_self_SizeSquared (G : FVector K) :
    (FVector.CrossProduct (-G) G).SizeSquared = 0 := by
  simp only [FVector.CrossProduct, FVector.SizeSquared, FVector.neg_X, FVector.neg_Y,
    FVector.neg_Z]
  ring

theorem CrossProduct_ZeroVector_SizeSquared (G : FVector K) :
    (FVector.CrossProduct FVector.ZeroVector G).SizeSquared = 0 := by
  simp [FVector.CrossProduct, FVector.SizeSquared]

theorem DotProduct_ZeroVector_left (G : FVector K) :
    FVector.DotProduct FVector.ZeroVector G = 0 := by
  simp [FVector.DotProduct]

theorem DotProduct_neg_self (G : FVector K) :
    FVector.DotProduct (-G) G = -G.SizeSquared := by
  simp only [FVector.DotProduct, FVector.SizeSquared, FVector.neg_X, FVector.neg_Y,
    FVector.neg_Z]
  ring

/-- The launch velocity when the launch-to-target offset is `G * s` for the unit gravity
direction `G`: the arc solver is not consulted. -/
theorem CalculateLaunchVelocity_on_axis (Arc : ArcSolver K) (self : UHomingProjectileMotion K)
    (s : K) (hG : self.m_Params.GravityDirection.SizeSquared = 1)
    (hT : self.m_Params.TargetLocation
      = self.m_Params.LaunchLocation + self.m_Params.GravityDirection * s) :
    (0 < s → self.CalculateLaunchVelocity Arc = FVector.ZeroVector)
      ∧ (s * s < SMALL_NUMBER → self.CalculateLaunchVelocity Arc = FVector.ZeroVector)
      ∧ (s < 0 → SMALL_NUMBER ≤ s * s →
          self.CalculateLaunchVelocity Arc
            = -self.m_Params.GravityDirection * FMath.Sqrt (2 * self.m_Params.fGravity * |s|))
      := by
  have hd : self.m_Params.TargetLocation - self.m_Params.LaunchLocation
      = self.m_Params.GravityDirection * s := by
    rw [hT, FVector.add_sub_cancel_left]
  have hss : (self.m_Params.GravityDirection * s).SizeSquared = s * s := by
    rw [FVector.SizeSquared_mul, hG, one_mul]
  have hsmall : s * s < SMALL_NUMBER → self.CalculateLaunchVelocity Arc = FVector.ZeroVector := by
    intro hlt
    have hn : (self.m_Params.GravityDirection * s).GetSafeNormal = FVector.ZeroVector :=
      FVector.GetSafeNormal_of_small _ (by rw [hss]; exact hlt)
    simp only [CalculateLaunchVelocity, hd, hn, CrossProduct_ZeroVector_SizeSquared,
      DotProduct_ZeroVector_left]
    norm_num
  refine ⟨?_, hsmall, ?_⟩
  · intro hs
    rcases lt_or_le (s * s) SMALL_NUMBER with hlt | hge
    · exact hsmall hlt
    · have hn := GetSafeNormal_unit_mul_pos _ s hG hs hge
      simp only [CalculateLaunchVelocity, hd, hn, CrossProduct_self_SizeSquared,
        FVector.DotProduct_self, hG]
      norm_num
  · intro hs hge
    have hn := GetSafeNormal_unit_mul_neg _ s hG hs hge
    have hsz : (self.m_Params.GravityDirection * s).Size = |s| := by
      rw [FVector.Size_eq_Sqrt, hss, Sqrt_mul_self_abs]
    simp only [CalculateLaunchVelocity, hd, hn, CrossProduct_neg_self_SizeSquared,
      DotProduct_neg_self, hG, hsz]
    norm_num

/-- The offsets of the sample flights, whose launch location is the origin and whose gravity
direction is `(0, 0, -1)`. -/
theorem Sample_offsets (self : UHomingProjectileMotion K) (Cur Tgt : FVector K)
    (hL : self.m_Params.LaunchLocation = FVector.ZeroVector)
    (hG : self.m_Params.GravityDirection = FVector.DownVector) :
    PlaneOffset self Cur Tgt = ⟨Tgt.X - Cur.X, Tgt.Y - Cur.Y, 0⟩
      ∧ GravityOffset self Cur Tgt = Cur.Z - Tgt.Z := by
  constructor
  · ext <;>
      simp [PlaneOffset, hL, hG, FVector.PointPlaneProject, FVector.PointPlaneDist,
        FVector.DotProduct, FVector.DownVector]
  · simp [GravityOffset, hG, FVector.DotProduct, FVector.DownVector]

/-- One effective call of a flight with launch at the origin and gravity along -Z whose
plane offset to the target is below the tolerance: the call steers along `(-1, 0, 0)`. -/
theorem Sample_fallback_step (self : UHomingProjectileMotion K) (Cur Tgt : FVector K)
    (Ts : K) (XVel YVel : FVector K) (Ctx : UObject K) (World : UWorld K) (v : K)
    (h : self.WorldContextObj = some Ctx) (hw : Ctx.GetWorld = some World)
    (ht : 0 < self.m_ProjectileState.fTimeLeft)
    (hL : self.m_Params.LaunchLocation = FVector.ZeroVector)
    (hG : self.m_Params.GravityDirection = FVector.DownVector)
    (hY : self.m_ProjectileState.YVel = (FVector.DownVector : FVector K) * v)
    (hlt : (⟨Tgt.X - Cur.X, Tgt.Y - Cur.Y, 0⟩ : FVector K).SizeSquared < SMALL_NUMBER) :
    (UpdateHPM self Cur Tgt Ts XVel YVel).1.NetVelocity
        = (⟨-1, 0, 0⟩ : FVector K)
            * ((⟨Tgt.X - Cur.X, Tgt.Y - Cur.Y, 0⟩ : FVector K).Size
              / self.m_ProjectileState.fTimeLeft)
          + (FVector.DownVector : FVector K)
            * (v + 2 * (Cur.Z - Tgt.Z - v * self.m_ProjectileState.fTimeLeft)
                / (self.m_ProjectileState.fTimeLeft * self.m_ProjectileState.fTimeLeft)
              * World.GetDeltaSeconds)
      ∧ (UpdateHPM self Cur Tgt Ts XVel YVel).2.m_ProjectileState.YVel
        = (FVector.DownVector : FVector K)
            * (v + 2 * (Cur.Z - Tgt.Z - v * self.m_ProjectileState.fTimeLeft)
                / (self.m_ProjectileState.fTimeLeft * self.m_ProjectileState.fTimeLeft)
              * World.GetDeltaSeconds)
      ∧ (UpdateHPM self Cur Tgt Ts XVel YVel).2.m_ProjectileState.fTimeLeft
        = self.m_ProjectileState.fTimeLeft - World.GetDeltaSeconds
      ∧ (UpdateHPM self Cur Tgt Ts XVel YVel).2.WorldContextObj = self.WorldContextObj
      ∧ (UpdateHPM self Cur Tgt Ts XVel YVel).2.m_Params = self.m_Params := by
  obtain ⟨hoff, hgo⟩ := Sample_offsets self Cur Tgt hL hG
  have hGu : self.m_Params.GravityDirection.SizeSquared = 1 := by
    rw [hG]; norm_num [FVector.SizeSquared, FVector.DownVector]
  have key := UpdateHPM_vertical_step self Cur Tgt Ts XVel YVel Ctx World v h hw ht hGu
    (by rw [hY, hG])
  have hdir : self.GetLinearDirection Cur Tgt = ⟨-1, 0, 0⟩ := by
    have h1 := (GetLinearDirection_cases self Cur Tgt).2
      (by
        have h2 : (PlaneOffset self Cur Tgt).SizeSquared < SMALL_NUMBER := by
          rw [hoff]; exact hlt
        exact h2)
    rw [h1, hG]
    exact GetPerpendicularVector_DownVector
  have hspeed : self.GetHomingLinearSpeed Cur Tgt
      = (⟨Tgt.X - Cur.X, Tgt.Y - Cur.Y, 0⟩ : FVector K).Size
        / self.m_ProjectileState.fTimeLeft := by
    have h1 : self.GetHomingLinearSpeed Cur Tgt
        = (PlaneOffset self Cur Tgt).Size / self.m_ProjectileState.fTimeLeft := rfl
    rw [h1, hoff]
  rw [hdir, hspeed, hgo, hG] at key
  exact key

theorem FVector.Size_along_X (a : K) : (⟨a, 0, 0⟩ : FVector K).Size = |a| := by
  have h : a * a + 0 * 0 + 0 * 0 = a * a := by ring
  rw [FVector.Size, h, Sqrt_mul_self_abs]

/-- The squared length of an offset is that of its plane part plus the square of its part
along a unit gravity direction. -/
theorem SizeSquared_eq_plane_add_gravity (self : UHomingProjectileMotion K)
    (Cur Tgt : FVector K) (hG : self.m_Params.GravityDirection.SizeSquared = 1) :
    (Tgt - Cur).SizeSquared
      = (PlaneOffset self Cur Tgt).SizeSquared
        + GravityOffset self Cur Tgt * GravityOffset self Cur Tgt := by
  simp only [PlaneOffset, GravityOffset, FVector.DotProduct, FVector.PointPlaneProject,
    FVector.PointPlaneDist, FVector.sub_X, FVector.sub_Y, FVector.sub_Z, FVector.smul_X,
    FVector.smul_Y, FVector.smul_Z, FVector.SizeSquared] at hG ⊢
  linear_combination
    (-((self.m_Params.GravityDirection.X * (Tgt.X - Cur.X)
        + self.m_Params.GravityDirection.Y * (Tgt.Y - Cur.Y)
        + self.m_Params.GravityDirection.Z * (Tgt.Z - Cur.Z))
      * (self.m_Params.GravityDirection.X * (Tgt.X - Cur.X)
        + self.m_Params.GravityDirection.Y * (Tgt.Y - Cur.Y)
        + self.m_Params.GravityDirection.Z * (Tgt.Z - Cur.Z)))) * hG

/-- The offset and its plane part have the squared length of the plane part as dot
product, for a unit gravity direction. -/
theorem DotProduct_PlaneOffset (self : UHomingProjectileMotion K)
    (Cur Tgt : FVector K) (hG : self.m_Params.GravityDirection.SizeSquared = 1) :
    FVector.DotProduct (Tgt - Cur) (PlaneOffset self Cur Tgt)
      = (PlaneOffset self Cur Tgt).SizeSquared := by
  simp only [PlaneOffset, FVector.DotProduct, FVector.PointPlaneProject,
    FVector.PointPlaneDist, FVector.sub_X, FVector.sub_Y, FVector.sub_Z, FVector.smul_X,
    FVector.smul_Y, FVector.smul_Z, FVector.SizeSquared] at hG ⊢
  linear_combination
    (-((self.m_Params.GravityDirection.X * (Tgt.X - Cur.X)
        + self.m_Params.GravityDirection.Y * (Tgt.Y - Cur.Y)
        + self.m_Params.GravityDirection.Z * (Tgt.Z - Cur.Z))
      * (self.m_Params.GravityDirection.X * (Tgt.X - Cur.X)
        + self.m_Params.GravityDirection.Y * (Tgt.Y - Cur.Y)
        + self.m_Params.GravityDirection.Z * (Tgt.Z - Cur.Z)))) * hG

theorem FVector.DotProduct_mul_right (V W : FVector K) (c : K) :
    FVector.DotProduct V (W * c) = FVector.DotProduct V W * c := by
  simp only [FVector.DotProduct, FVector.mul_X, FVector.mul_Y, FVector.mul_Z]
  ring

theorem FVector.DotProduct_comm (V W : FVector K) :
    FVector.DotProduct V W = FVector.DotProduct W V := by
  simp only [FVector.DotProduct]
  ring

/-- The flight time on the branch of `GetTrajectoryDuration` for a linear speed above
`0.001`, when the linear direction is the one of the launch parameters and the plane offset
of the target is above the tolerance. -/
theorem GetTrajectoryDuration_linear_pos (self : UHomingProjectileMotion K)
    (hG : self.m_Params.GravityDirection.SizeSquared = 1)
    (hL : self.m_ProjectileState.LinearDirection
      = self.GetLinearDirection self.m_Params.LaunchLocation self.m_Params.TargetLocation)
    (hs : self.m_ProjectileState.fLinearSpeed > 1 / 1000)
    (hgap : SMALL_NUMBER
      < (PlaneOffset self self.m_Params.LaunchLocation self.m_Params.TargetLocation
        ).SizeSquared) :
    0 < self.GetTrajectoryDuration := by
  have hd : (self.m_Params.TargetLocation - self.m_Params.LaunchLocation).SizeSquared
      > SMALL_NUMBER := by
    rw [SizeSquared_eq_plane_add_gravity self _ _ hG]
    nlinarith [mul_self_nonneg
      (GravityOffset self self.m_Params.LaunchLocation self.m_Params.TargetLocation)]
  have hdir : self.m_ProjectileState.LinearDirection
      = PlaneOffset self self.m_Params.LaunchLocation self.m_Params.TargetLocation
        * (1 / (PlaneOffset self self.m_Params.LaunchLocation self.m_Params.TargetLocation
          ).Size) := by
    rw [hL, (GetLinearDirection_cases self _ _).1 hgap.le]
    exact FVector.GetSafeNormal_of_large _ hgap.le
  have hunit : self.m_ProjectileState.LinearDirection.SizeSquared = 1 := by
    rw [hL, (GetLinearDirection_cases self _ _).1 hgap.le]
    exact FVector.SizeSquared_GetSafeNormal _ hgap.le
  have hsz := FVector.Size_pos_of_large _ hgap.le
  have hszsq := FVector.Size_mul_self
    (PlaneOffset self self.m_Params.LaunchLocation self.m_Params.TargetLocation)
  have hdot : FVector.DotProduct (self.m_Params.TargetLocation - self.m_Params.LaunchLocation)
      self.m_ProjectileState.LinearDirection
      = (PlaneOffset self self.m_Params.LaunchLocation self.m_Params.TargetLocation).Size := by
    rw [hdir, FVector.DotProduct_mul_right, DotProduct_PlaneOffset self _ _ hG, ← hszsq]
    field_simp
  have hcomp : (self.GetLinearComponent
      (self.m_Params.TargetLocation - self.m_Params.LaunchLocation)).SizeSquared
      = (PlaneOffset self self.m_Params.LaunchLocation self.m_Params.TargetLocation
        ).SizeSquared := by
    simp only [GetLinearComponent, if_pos hd, FVector.ProjectOnTo, FVector.DotProduct_self,
      hunit, div_one, hdot, FVector.SizeSquared_mul, one_mul, hszsq]
  have hdX : 0 < (self.GetLinearComponent
      (self.m_Params.TargetLocation - self.m_Params.LaunchLocation)).Size := by
    rw [FVector.Size_eq_Sqrt, hcomp]
    exact Sqrt_pos _ (lt_trans SMALL_NUMBER_pos hgap)
  have hspos : 0 < self.m_ProjectileState.fLinearSpeed :=
    lt_trans (by norm_num) hs
  simp only [GetTrajectoryDuration, if_pos hs]
  exact div_pos hdX hspos

/-- The flight time on the other branch of `GetTrajectoryDuration`, when the target is
farther than the tolerance, not level with the launch location, and the launch speed `U`
makes `U * U + 2 * A * D` non-negative. -/
theorem GetTrajectoryDuration_vertical_pos (self : UHomingProjectileMotion K)
    (hG : self.m_Params.GravityDirection.SizeSquared = 1)
    (hg : 0 < self.m_Params.fGravity)
    (hs : ¬ self.m_ProjectileState.fLinearSpeed > 1 / 1000)
    (hd : SMALL_NUMBER
      < (self.m_Params.TargetLocation - self.m_Params.LaunchLocation).SizeSquared)
    (hy : FVector.DotProduct (self.m_Params.TargetLocation - self.m_Params.LaunchLocation)
      self.m_Params.GravityDirection ≠ 0)
    (hU : 0 ≤ self.m_ProjectileState.LaunchVelocity.Size
        * self.m_ProjectileState.LaunchVelocity.Size
      + 2 * (self.m_Params.fGravity
          * FVector.DotProduct
            (self.m_Params.TargetLocation - self.m_Params.LaunchLocation).GetSafeNormal
            self.m_Params.GravityDirection)
        * (self.GetGravityComponent
            (self.m_Params.TargetLocation - self.m_Params.LaunchLocation)).Size) :
    0 < self.GetTrajectoryDuration := by
  have hszd := FVector.Size_pos_of_large _ hd.le
  have hD : (self.GetGravityComponent
      (self.m_Params.TargetLocation - self.m_Params.LaunchLocation)).Size
      = |FVector.DotProduct (self.m_Params.TargetLocation - self.m_Params.LaunchLocation)
          self.m_Params.GravityDirection| := by
    simp only [GetGravityComponent, if_pos hd, FVector.ProjectOnTo, FVector.DotProduct_self,
      hG, div_one]
    rw [FVector.Size_eq_Sqrt, FVector.SizeSquared_mul, hG, one_mul, Sqrt_mul_self_abs]
  have hDpos : 0 < (self.GetGravityComponent
      (self.m_Params.TargetLocation - self.m_Params.LaunchLocation)).Size := by
    rw [hD]; exact abs_pos.mpr hy
  have hn : FVector.DotProduct
      (self.m_Params.TargetLocation - self.m_Params.LaunchLocation).GetSafeNormal
      self.m_Params.GravityDirection
      = FVector.DotProduct (self.m_Params.TargetLocation - self.m_Params.LaunchLocation)
          self.m_Params.GravityDirection
        * (1 / (self.m_Params.TargetLocation - self.m_Params.LaunchLocation).Size) := by
    rw [FVector.GetSafeNormal_of_large _ hd.le, FVector.DotProduct_mul_left]
  have hU0 := FVector.Size_nonneg self.m_ProjectileState.LaunchVelocity
  have hV0 := FMath.Sqrt_nonneg (self.m_ProjectileState.LaunchVelocity.Size
      * self.m_ProjectileState.LaunchVelocity.Size
    + 2 * (self.m_Params.fGravity
        * FVector.DotProduct
          (self.m_Params.TargetLocation - self.m_Params.LaunchLocation).GetSafeNormal
          self.m_Params.GravityDirection)
      * (self.GetGravityComponent
          (self.m_Params.TargetLocation - self.m_Params.LaunchLocation)).Size)
  have hVV := FMath.Sqrt_mul_self _ hU
  simp only [GetTrajectoryDuration, if_neg hs]
  rcases lt_or_gt_of_ne hy with hneg | hpos
  · have hA : self.m_Params.fGravity
        * FVector.DotProduct
          (self.m_Params.TargetLocation - self.m_Params.LaunchLocation).GetSafeNormal
          self.m_Params.GravityDirection < 0 := by
      rw [hn]
      exact mul_neg_of_pos_of_neg hg (mul_neg_of_neg_of_pos hneg (by positivity))
    apply div_pos_of_neg_of_neg _ hA
    rw [sub_neg]
    by_contra hle
    push_neg at hle
    nlinarith [mul_le_mul hle hle hU0 hV0, mul_neg_of_neg_of_pos hA hDpos]
  · have hA : 0 < self.m_Params.fGravity
        * FVector.DotProduct
          (self.m_Params.TargetLocation - self.m_Params.LaunchLocation).GetSafeNormal
          self.m_Params.GravityDirection := by
      rw [hn]
      exact mul_pos hg (mul_pos hpos (by positivity))
    apply div_pos _ hA
    rw [sub_pos]
    by_contra hle
    push_neg at hle
    nlinarith [mul_le_mul hle hle hV0 hU0, mul_pos hA hDpos]

/-- The launch velocity when the target is closer to the launch location than the
tolerance of the normalisation: the zero vector, the arc solver is not consulted. -/
theorem CalculateLaunchVelocity_of_near (Arc : ArcSolver K) (self : UHomingProjectileMotion K)
    (hd : (self.m_Params.TargetLocation - self.m_Params.LaunchLocation).SizeSquared
      < SMALL_NUMBER) :
    self.CalculateLaunchVelocity Arc = FVector.ZeroVector := by
  have hn := FVector.GetSafeNormal_of_small _ hd
  simp only [CalculateLaunchVelocity, hn, CrossProduct_ZeroVector_SizeSquared,
    DotProduct_ZeroVector_left]
  norm_num

theorem GetLinearComponent_ZeroVector (self : UHomingProjectileMotion K) :
    self.GetLinearComponent FVector.ZeroVector = FVector.ZeroVector := by
  simp only [GetLinearComponent, FVector.SizeSquared_ZeroVector,
    if_neg (not_lt.mpr (SMALL_NUMBER_pos (K := K)).le)]

theorem FVector.Size_ZeroVector : (FVector.ZeroVector : FVector K).Size = 0 := by
  rw [FVector.Size_eq_Sqrt, FVector.SizeSquared_ZeroVector, Sqrt_zero]

/-- The flight time that `SetupHPM` stores when the target is closer to the launch location
than the tolerance of the normalisation is not positive. -/
theorem SetupHPM_of_near (Arc : ArcSolver K) (self : UHomingProjectileMotion K)
    (Ctx : UObject K) (LaunchParams : FProjectileParams K) (XVel YVel : FVector K)
    (hd : (LaunchParams.TargetLocation - LaunchParams.LaunchLocation).SizeSquared
      < SMALL_NUMBER) :
    ¬ 0 < (SetupHPM Arc self (some Ctx) LaunchParams XVel YVel).m_ProjectileState.fTotalTime := by
  obtain ⟨_, hP, _, hLV, _, hXV, hSp, hTT, _, _⟩ :=
    SetupHPM_fields Arc self Ctx LaunchParams XVel YVel
  have hd' : ((SetupHPM Arc self (some Ctx) LaunchParams XVel YVel).m_Params.TargetLocation
      - (SetupHPM Arc self (some Ctx) LaunchParams XVel YVel).m_Params.LaunchLocation
      ).SizeSquared < SMALL_NUMBER := by
    rw [hP]; exact hd
  have hLV0 : (SetupHPM Arc self (some Ctx) LaunchParams XVel YVel
      ).m_ProjectileState.LaunchVelocity = FVector.ZeroVector := by
    rw [hLV]; exact CalculateLaunchVelocity_of_near Arc _ hd'
  have hsp0 : (SetupHPM Arc self (some Ctx) LaunchParams XVel YVel
      ).m_ProjectileState.fLinearSpeed = 0 := by
    rw [hSp, hXV, hLV0, GetLinearComponent_ZeroVector, FVector.Size_ZeroVector]
  have hs : ¬ (SetupHPM Arc self (some Ctx) LaunchParams XVel YVel
      ).m_ProjectileState.fLinearSpeed > 1 / 1000 := by
    rw [hsp0]; norm_num
  rw [hTT]
  simp only [GetTrajectoryDuration, if_neg hs, hLV0, FVector.Size_ZeroVector,
    GetGravityComponent, if_neg (not_lt.mpr hd'.le), FVector.GetSafeNormal_of_small _ hd',
    DotProduct_ZeroVector_left]
  norm_num [Sqrt_zero]

/-- The length of the gravity component of an offset above the tolerance, for a unit
gravity direction. -/
theorem GetGravityComponent_Size (self : UHomingProjectileMotion K) (V : FVector K)
    (hG : self.m_Params.GravityDirection.SizeSquared = 1) (hV : SMALL_NUMBER < V.SizeSquared) :
    (self.GetGravityComponent V).Size
      = |FVector.DotProduct V self.m_Params.GravityDirection| := by
  simp only [GetGravityComponent, if_pos hV, FVector.ProjectOnTo, FVector.DotProduct_self,
    hG, div_one]
  rw [FVector.Size_eq_Sqrt, FVector.SizeSquared_mul, hG, one_mul, Sqrt_mul_self_abs]

/-- The linear component of a multiple of the gravity direction is the zero vector when the
linear direction is orthogonal to gravity. -/
theorem GetLinearComponent_along_gravity (self : UHomingProjectileMotion K) (c : K)
    (hLG : FVector.DotProduct self.m_ProjectileState.LinearDirection
      self.m_Params.GravityDirection = 0) :
    self.GetLinearComponent (self.m_Params.GravityDirection * c) = FVector.ZeroVector := by
  unfold GetLinearComponent
  split_ifs
  · rw [FVector.ProjectOnTo, FVector.DotProduct_mul_left, FVector.DotProduct_comm, hLG,
      zero_mul, zero_div]
    ext <;> simp
  · rfl

/-- What `SetupHPM` stores when the target is at `launch + s * G` for the unit gravity
direction `G`: the launch velocity of the axis branch and the linear speed 0. -/
theorem SetupHPM_on_axis (Arc : ArcSolver K) (self : UHomingProjectileMotion K)
    (Ctx : UObject K) (LaunchParams : FProjectileParams K) (XVel YVel : FVector K) (s : K)
    (hG : LaunchParams.GravityDirection.SizeSquared = 1)
    (hT : LaunchParams.TargetLocation
      = LaunchParams.LaunchLocation + LaunchParams.GravityDirection * s) :
    (0 < s → (SetupHPM Arc self (some Ctx) LaunchParams XVel YVel
        ).m_ProjectileState.LaunchVelocity = FVector.ZeroVector)
      ∧ (s < 0 → SMALL_NUMBER ≤ s * s →
        (SetupHPM Arc self (some Ctx) LaunchParams XVel YVel
          ).m_ProjectileState.LaunchVelocity
          = -LaunchParams.GravityDirection
            * FMath.Sqrt (2 * LaunchParams.fGravity * |s|))
      ∧ (0 < s ∨ SMALL_NUMBER ≤ s * s →
        (SetupHPM Arc self (some Ctx) LaunchParams XVel YVel
          ).m_ProjectileState.fLinearSpeed = 0) := by
  obtain ⟨_, hP, hL, hLV, _, hXV, hSp, _, _, _⟩ :=
    SetupHPM_fields Arc self Ctx LaunchParams XVel YVel
  have hG' : (SetupHPM Arc self (some Ctx) LaunchParams XVel YVel
      ).m_Params.GravityDirection.SizeSquared = 1 := by rw [hP]; exact hG
  have hT' : (SetupHPM Arc self (some Ctx) LaunchParams XVel YVel).m_Params.TargetLocation
      = (SetupHPM Arc self (some Ctx) LaunchParams XVel YVel).m_Params.LaunchLocation
        + (SetupHPM Arc self (some Ctx) LaunchParams XVel YVel).m_Params.GravityDirection * s := by
    rw [hP]; exact hT
  obtain ⟨h1, _, h3⟩ := CalculateLaunchVelocity_on_axis Arc
    (SetupHPM Arc self (some Ctx) LaunchParams XVel YVel) s hG' hT'
  have hLG : FVector.DotProduct
      (SetupHPM Arc self (some Ctx) LaunchParams XVel YVel).m_ProjectileState.LinearDirection
      (SetupHPM Arc self (some Ctx) LaunchParams XVel YVel).m_Params.GravityDirection = 0 := by
    rw [hL]
    exact GetLinearDirection_dot _ _ _ hG'
  refine ⟨fun hs => by rw [hLV]; exact h1 hs,
    fun hs hge => by rw [hLV, h3 hs hge, hP], fun hs => ?_⟩
  rw [hSp, hXV, hLV]
  have hz : (SetupHPM Arc self (some Ctx) LaunchParams XVel YVel).GetLinearComponent
      ((SetupHPM Arc self (some Ctx) LaunchParams XVel YVel).CalculateLaunchVelocity Arc)
      = FVector.ZeroVector := by
    rcases lt_trichotomy s 0 with hneg | hzero | hpos
    · have hge : SMALL_NUMBER ≤ s * s := by
        rcases hs with hs | hs
        · exact absurd hs (not_lt.mpr hneg.le)
        · exact hs
      rw [h3 hneg hge]
      have hneg_mul : -(SetupHPM Arc self (some Ctx) LaunchParams XVel YVel
            ).m_Params.GravityDirection
          * FMath.Sqrt (2 * (SetupHPM Arc self (some Ctx) LaunchParams XVel YVel
            ).m_Params.fGravity * |s|)
          = (SetupHPM Arc self (some Ctx) LaunchParams XVel YVel).m_Params.GravityDirection
            * (-FMath.Sqrt (2 * (SetupHPM Arc self (some Ctx) LaunchParams XVel YVel
              ).m_Params.fGravity * |s|)) := by
        ext <;> simp
      rw [hneg_mul]
      exact GetLinearComponent_along_gravity _ _ hLG
    · rcases hs with hs | hs
      · exact absurd hs (by rw [hzero]; exact lt_irrefl 0)
      · rw [hzero, mul_zero] at hs
        exact absurd hs (not_le.mpr SMALL_NUMBER_pos)
    · rw [h1 hpos]
      exact GetLinearComponent_ZeroVector _
  rw [hz, FVector.Size_ZeroVector]

theorem Atan2_zero_one : FMath.Cos (FMath.Atan2 (0 : K) 1) = 1
    ∧ FMath.Sin (FMath.Atan2 (0 : K) 1) = 0 := by
  have hc := FMath.Sqrt_mul_Cos_Atan2 (0 : K) 1
  have hs := FMath.Sqrt_mul_Sin_Atan2 (0 : K) 1
  have h1 : (1 : K) * 1 + 0 * 0 = 1 := by norm_num
  rw [h1, Sqrt_one, one_mul] at hc hs
  exact ⟨hc, hs⟩

/-- The axes rotation of a flight along the X axis with gravity along -Z is the identity. -/
theorem Sample_axes_rotation (self : UHomingProjectileMotion K) (a : K) (ha : 0 < a)
    (hge : SMALL_NUMBER ≤ a * a)
    (hL : self.m_Params.LaunchLocation = FVector.ZeroVector)
    (hT : self.m_Params.TargetLocation = ⟨a, 0, 0⟩)
    (hG : self.m_Params.GravityDirection = FVector.DownVector) :
    FRotationMatrix self.GetAxesRotation = ⟨⟨1, 0, 0⟩, ⟨0, 1, 0⟩, ⟨0, 0, 1⟩⟩ := by
  obtain ⟨hc, hs⟩ := Atan2_zero_one (K := K)
  have hd : self.m_Params.TargetLocation - self.m_Params.LaunchLocation
      = (⟨1, 0, 0⟩ : FVector K) * a := by
    rw [hT, hL]; ext <;> simp
  have hn : ((⟨1, 0, 0⟩ : FVector K) * a).GetSafeNormal = ⟨1, 0, 0⟩ :=
    GetSafeNormal_unit_mul_pos _ a (by norm_num [FVector.SizeSquared]) ha hge
  have hp : FVector.VectorPlaneProject (⟨1, 0, 0⟩ : FVector K) FVector.DownVector
      = ⟨1, 0, 0⟩ := by
    ext <;> simp [FVector.VectorPlaneProject, FVector.ProjectOnToNormal, FVector.DotProduct,
      FVector.DownVector]
  have hss : (⟨1, 0, 0⟩ : FVector K).SizeSquared > 1 / 10000 := by
    norm_num [FVector.SizeSquared]
  have h11 : (1 : K) * 1 + 0 * 0 = 1 := by norm_num
  have hup : -(FVector.DownVector : FVector K) = ⟨0, 0, 1⟩ := by
    ext <;> simp [FVector.DownVector]
  have hright : FVector.CrossProduct (⟨0, 0, 1⟩ : FVector K) ⟨1, 0, 0⟩ = ⟨0, 1, 0⟩ := by
    ext <;> simp [FVector.CrossProduct]
  have hAx : self.GetAxesRotation
      = (FMatrix.ofAxes (⟨1, 0, 0⟩ : FVector K) ⟨0, 1, 0⟩ ⟨0, 0, 1⟩).Rotator := by
    simp only [GetAxesRotation, hd, hn, hG, hp, if_pos hss, hup, hright]
  rw [hAx]
  simp only [FMatrix.ofAxes, FMatrix.Rotator, FMatrix.GetScaledAxis, FRotationMatrix,
    FVector.DotProduct, DegreesToRadians_mul_div, DegreesToRadians_zero, FMath.Sin_zero,
    FMath.Cos_zero, h11, Sqrt_one, hc, hs]
  norm_num [hc, hs]

/-- `SetupHPM` for a flight along the X axis with gravity along -Z and an arc solver that
answers `OutLaunchVelocity`: the launch velocity is that answer and the linear speed is the
absolute value of its X component. -/
theorem Sample_setup_linear (Arc : ArcSolver K) (self : UHomingProjectileMotion K)
    (Ctx : UObject K) (a g arc : K) (OutLaunchVelocity XVel YVel : FVector K)
    (hArc : ∀ c s e z r, Arc c s e z r = some OutLaunchVelocity)
    (ha : 0 < a) (hge : SMALL_NUMBER ≤ a * a)
    (hv : SMALL_NUMBER < OutLaunchVelocity.SizeSquared) :
    (SetupHPM Arc self (some Ctx) ⟨FVector.ZeroVector, ⟨a, 0, 0⟩, FVector.DownVector, g, arc⟩
        XVel YVel).m_ProjectileState.LaunchVelocity = OutLaunchVelocity
      ∧ (SetupHPM Arc self (some Ctx)
          ⟨FVector.ZeroVector, ⟨a, 0, 0⟩, FVector.DownVector, g, arc⟩
          XVel YVel).m_ProjectileState.fLinearSpeed = |OutLaunchVelocity.X| := by
  obtain ⟨_, hP, hL, hLV, _, hXV, hSp, _, _, _⟩ :=
    SetupHPM_fields Arc self Ctx ⟨FVector.ZeroVector, ⟨a, 0, 0⟩, FVector.DownVector, g, arc⟩
      XVel YVel
  generalize SetupHPM Arc self (some Ctx)
    ⟨FVector.ZeroVector, ⟨a, 0, 0⟩, FVector.DownVector, g, arc⟩ XVel YVel = S at *
  have hLa : S.m_Params.LaunchLocation = FVector.ZeroVector := by rw [hP]
  have hTa : S.m_Params.TargetLocation = ⟨a, 0, 0⟩ := by rw [hP]
  have hGa : S.m_Params.GravityDirection = FVector.DownVector := by rw [hP]
  have hrot := Sample_axes_rotation S a ha hge hLa hTa hGa
  have hd : S.m_Params.TargetLocation - S.m_Params.LaunchLocation
      = (⟨1, 0, 0⟩ : FVector K) * a := by
    rw [hTa, hLa]; ext <;> simp
  have hn : ((⟨1, 0, 0⟩ : FVector K) * a).GetSafeNormal = ⟨1, 0, 0⟩ :=
    GetSafeNormal_unit_mul_pos _ a (by norm_num [FVector.SizeSquared]) ha hge
  have hcross : (FVector.CrossProduct (⟨1, 0, 0⟩ : FVector K) FVector.DownVector).SizeSquared
      > 1 / 1000 := by
    norm_num [FVector.CrossProduct, FVector.SizeSquared, FVector.DownVector]
  have hLVv : S.m_ProjectileState.LaunchVelocity = OutLaunchVelocity := by
    rw [hLV]
    simp only [CalculateLaunchVelocity, hd, hn, hGa, if_pos hcross, hArc,
      FRotator.RotateVector, hrot, FMatrix.TransformVector]
    ext <;> simp
  have hoff := (Sample_offsets S S.m_Params.LaunchLocation S.m_Params.TargetLocation hLa hGa).1
  rw [hTa, hLa] at hoff
  have hoff' : PlaneOffset S FVector.ZeroVector ⟨a, 0, 0⟩ = (⟨1, 0, 0⟩ : FVector K) * a := by
    rw [hoff]; ext <;> simp
  have hdir : S.m_ProjectileState.LinearDirection = ⟨1, 0, 0⟩ := by
    rw [hL]
    have h1 := (GetLinearDirection_cases S FVector.ZeroVector ⟨a, 0, 0⟩).1
      (by
        have h2 : SMALL_NUMBER ≤ (PlaneOffset S FVector.ZeroVector ⟨a, 0, 0⟩).SizeSquared := by
          rw [hoff', FVector.SizeSquared_mul]
          norm_num [FVector.SizeSquared]
          exact hge
        exact h2)
    have h3 : (FVector.PointPlaneProject ⟨a, 0, 0⟩ S.m_Params.LaunchLocation
          S.m_Params.GravityDirection
        - FVector.PointPlaneProject FVector.ZeroVector S.m_Params.LaunchLocation
          S.m_Params.GravityDirection)
        = (⟨1, 0, 0⟩ : FVector K) * a := hoff'
    rw [h1, h3, hn]
  refine ⟨hLVv, ?_⟩
  rw [hSp, hXV, hLVv]
  simp only [GetLinearComponent, if_pos hv, hdir, FVector.ProjectOnTo, FVector.DotProduct]
  have hvec : (⟨1, 0, 0⟩ : FVector K)
      * ((OutLaunchVelocity.X * 1 + OutLaunchVelocity.Y * 0 + OutLaunchVelocity.Z * 0)
        / ((1 : K) * 1 + 0 * 0 + 0 * 0)) = ⟨OutLaunchVelocity.X, 0, 0⟩ := by
    ext <;> simp
  rw [hvec, FVector.Size_along_X]

end SetupLemmas

/-! ## Lemmas on single calls, the vertical launch and the axes rotation -/

section CallLemmas

variable {K : Type} [LinearOrderedField K] [FloorRing K] [FMath K]

open UHomingProjectileMotion

/-- The horizontal velocity that an effective call stores when the flight has its launch at
the origin and gravity along -Z and the plane offset to the target is below the tolerance. -/
theorem Sample_fallback_XVel (self : UHomingProjectileMotion K) (Cur Tgt : FVector K)
    (Ts : K) (XVel YVel : FVector K) (Ctx : UObject K) (World : UWorld K)
    (h : self.WorldContextObj = some Ctx) (hw : Ctx.GetWorld = some World)
    (ht : 0 < self.m_ProjectileState.fTimeLeft)
    (hL : self.m_Params.LaunchLocation = FVector.ZeroVector)
    (hG : self.m_Params.GravityDirection = FVector.DownVector)
    (hlt : (⟨Tgt.X - Cur.X, Tgt.Y - Cur.Y, 0⟩ : FVector K).SizeSquared < SMALL_NUMBER) :
    (UpdateHPM self Cur Tgt Ts XVel YVel).2.m_ProjectileState.XVel
      = (⟨-1, 0, 0⟩ : FVector K)
          * ((⟨Tgt.X - Cur.X, Tgt.Y - Cur.Y, 0⟩ : FVector K).Size
            / self.m_ProjectileState.fTimeLeft) := by
  obtain ⟨hoff, -⟩ := Sample_offsets self Cur Tgt hL hG
  have hdir : self.GetLinearDirection Cur Tgt = ⟨-1, 0, 0⟩ := by
    have h2 : (PlaneOffset self Cur Tgt).SizeSquared < SMALL_NUMBER := by
      rw [hoff]; exact hlt
    rw [(GetLinearDirection_cases self Cur Tgt).2 h2, hG]
    exact GetPerpendicularVector_DownVector
  have hspeed : self.GetHomingLinearSpeed Cur Tgt
      = (PlaneOffset self Cur Tgt).Size / self.m_ProjectileState.fTimeLeft := rfl
  rw [UpdateHPM_effective self Cur Tgt Ts XVel YVel Ctx World h hw ht]
  simp only [hdir, hspeed, hoff]

/-- A square root divided by a positive number is the square root of the quotient by its
square. -/
theorem Sqrt_div_pos (a g : K) (ha : 0 ≤ a) (hg : 0 < g) :
    FMath.Sqrt a / g = FMath.Sqrt (a / (g * g)) := by
  have h1 : 0 ≤ FMath.Sqrt a / g := div_nonneg (FMath.Sqrt_nonneg a) hg.le
  have h2 : FMath.Sqrt a / g * (FMath.Sqrt a / g) = a / (g * g) := by
    rw [div_mul_div_comm, FMath.Sqrt_mul_self a ha]
  rw [← h2, Sqrt_mul_self_of_nonneg _ h1]

/-- The length of a non-negative multiple of the reversed unit vector. -/
theorem Size_neg_unit_mul (G : FVector K) (c : K) (hG : G.SizeSquared = 1) (hc : 0 ≤ c) :
    (-G * c).Size = c := by
  rw [FVector.Size_eq_Sqrt, FVector.SizeSquared_mul, FVector.SizeSquared_neg, hG, one_mul,
    Sqrt_mul_self_of_nonneg c hc]

/-- The flight time of `GetTrajectoryDuration` when the target is at `launch + s * G` for
the unit gravity direction `G`, farther than the tolerance, the linear speed is 0 and the
launch velocity is the one of the axis branch of `CalculateLaunchVelocity`: the quantities
`D`, `U`, `A`, `V` of the vertical branch and the time `(V - U) / A`. -/
theorem GetTrajectoryDuration_on_axis (self : UHomingProjectileMotion K) (s : K)
    (hG : self.m_Params.GravityDirection.SizeSquared = 1)
    (hg : 0 < self.m_Params.fGravity)
    (hT : self.m_Params.TargetLocation
      = self.m_Params.LaunchLocation + self.m_Params.GravityDirection * s)
    (hs : SMALL_NUMBER < s * s)
    (hsp : self.m_ProjectileState.fLinearSpeed = 0)
    (hpos : 0 < s → self.m_ProjectileState.LaunchVelocity = FVector.ZeroVector)
    (hneg : s < 0 → self.m_ProjectileState.LaunchVelocity
      = -self.m_Params.GravityDirection * FMath.Sqrt (2 * self.m_Params.fGravity * |s|)) :
    ∃ D U A V : K,
      D = (self.GetGravityComponent
          (self.m_Params.TargetLocation - self.m_Params.LaunchLocation)).Size
        ∧ U = self.m_ProjectileState.LaunchVelocity.Size
        ∧ A = self.m_Params.fGravity
          * FVector.DotProduct
              (self.m_Params.TargetLocation - self.m_Params.LaunchLocation).GetSafeNormal
              self.m_Params.GravityDirection
        ∧ V = FMath.Sqrt (U * U + 2 * A * D)
        ∧ self.GetTrajectoryDuration = (V - U) / A
        ∧ self.GetTrajectoryDuration = FMath.Sqrt (2 * |s| / self.m_Params.fGravity)
        ∧ D = |s|
        ∧ (0 < s → U = 0 ∧ A = self.m_Params.fGravity
            ∧ V = FMath.Sqrt (2 * self.m_Params.fGravity * |s|))
        ∧ (s < 0 → U = FMath.Sqrt (2 * self.m_Params.fGravity * |s|)
            ∧ A = -self.m_Params.fGravity ∧ V = 0) := by
  have hd : self.m_Params.TargetLocation - self.m_Params.LaunchLocation
      = self.m_Params.GravityDirection * s := by
    rw [hT, FVector.add_sub_cancel_left]
  have hss : (self.m_Params.GravityDirection * s).SizeSquared = s * s := by
    rw [FVector.SizeSquared_mul, hG, one_mul]
  have hbranch : ¬ self.m_ProjectileState.fLinearSpeed > 1 / 1000 := by
    rw [hsp]; norm_num
  have hD : (self.GetGravityComponent (self.m_Params.GravityDirection * s)).Size = |s| := by
    rw [GetGravityComponent_Size self _ hG (by rw [hss]; exact hs),
      FVector.DotProduct_mul_left, FVector.DotProduct_self, hG, one_mul]
  have hg0 : self.m_Params.fGravity ≠ 0 := hg.ne'
  have hrad : 0 ≤ 2 * self.m_Params.fGravity * |s| :=
    mul_nonneg (mul_nonneg zero_le_two hg.le) (abs_nonneg s)
  have hquot : FMath.Sqrt (2 * self.m_Params.fGravity * |s|) / self.m_Params.fGravity
      = FMath.Sqrt (2 * |s| / self.m_Params.fGravity) := by
    rw [Sqrt_div_pos _ _ hrad hg]
    congr 1
    field_simp
    ring
  have hT0 : self.GetTrajectoryDuration
      = (FMath.Sqrt (self.m_ProjectileState.LaunchVelocity.Size
              * self.m_ProjectileState.LaunchVelocity.Size
            + 2 * (self.m_Params.fGravity
                * FVector.DotProduct (self.m_Params.GravityDirection * s).GetSafeNormal
                  self.m_Params.GravityDirection)
              * (self.GetGravityComponent (self.m_Params.GravityDirection * s)).Size)
          - self.m_ProjectileState.LaunchVelocity.Size)
        / (self.m_Params.fGravity
            * FVector.DotProduct (self.m_Params.GravityDirection * s).GetSafeNormal
              self.m_Params.GravityDirection) := by
    simp only [GetTrajectoryDuration, if_neg hbranch, hd]
  rw [hd]
  refine ⟨_, _, _, _, rfl, rfl, rfl, rfl, hT0, ?_, hD, ?_, ?_⟩
  · rw [hT0, hD]
    rcases lt_trichotomy s 0 with hlt | hzero | hgt
    · rw [GetSafeNormal_unit_mul_neg _ s hG hlt hs.le, DotProduct_neg_self, hG, hneg hlt,
        Size_neg_unit_mul _ _ hG (FMath.Sqrt_nonneg _), FMath.Sqrt_mul_self _ hrad]
      have hz : 2 * self.m_Params.fGravity * |s| + 2 * (self.m_Params.fGravity * -1) * |s|
          = 0 := by ring
      rw [hz, Sqrt_zero, ← hquot]
      field_simp
    · rw [hzero, mul_zero] at hs
      exact absurd hs (not_lt.mpr SMALL_NUMBER_pos.le)
    · rw [GetSafeNormal_unit_mul_pos _ s hG hgt hs.le, FVector.DotProduct_self, hG, hpos hgt,
        FVector.Size_ZeroVector, ← hquot]
      simp
  · intro hgt
    rw [GetSafeNormal_unit_mul_pos _ s hG hgt hs.le, FVector.DotProduct_self, hG, hpos hgt,
      FVector.Size_ZeroVector, hD]
    refine ⟨rfl, mul_one _, ?_⟩
    simp
  · intro hlt
    rw [GetSafeNormal_unit_mul_neg _ s hG hlt hs.le, DotProduct_neg_self, hG, hneg hlt,
      Size_neg_unit_mul _ _ hG (FMath.Sqrt_nonneg _), FMath.Sqrt_mul_self _ hrad, hD]
    refine ⟨rfl, by ring, ?_⟩
    have hz : 2 * self.m_Params.fGravity * |s| + 2 * (self.m_Params.fGravity * -1) * |s|
        = 0 := by ring
    rw [hz, Sqrt_zero]

/-- The plane-projected part of the state of the integrating caller after `k` of `N` calls,
`N` at least 1: the remaining time is `(N - k) dt`, the cached vertical velocity is still
along gravity, and the plane offset to the target is `(N - k) / N` of the first one. -/
theorem Integrate_plane_invariant (self : UHomingProjectileMotion K)
    (Start Target : FVector K) (TimeStamp : ℕ → K) (XVel YVel : ℕ → FVector K)
    (Ctx : UObject K) (World : UWorld K) (N : ℕ) (v : K)
    (h : self.WorldContextObj = some Ctx) (hw : Ctx.GetWorld = some World)
    (hdt : 0 < World.GetDeltaSeconds) (hN : 1 ≤ N)
    (hT : self.m_ProjectileState.fTimeLeft = N * World.GetDeltaSeconds)
    (hG : self.m_Params.GravityDirection.SizeSquared = 1)
    (hY : self.m_ProjectileState.YVel = self.m_Params.GravityDirection * v)
    (hgap : PlaneOffset self Start Target = FVector.ZeroVector
      ∨ SMALL_NUMBER * ((N : K) * N) ≤ (PlaneOffset self Start Target).SizeSquared)
    (k : ℕ) (hk : k ≤ N) :
    (Integrate Target World.GetDeltaSeconds TimeStamp XVel YVel self Start k).1.WorldContextObj
        = self.WorldContextObj
      ∧ (Integrate Target World.GetDeltaSeconds TimeStamp XVel YVel self Start k).1.m_Params
        = self.m_Params
      ∧ (Integrate Target World.GetDeltaSeconds TimeStamp XVel YVel self Start k
          ).1.m_ProjectileState.fTimeLeft = ((N : K) - (k : K)) * World.GetDeltaSeconds
      ∧ PlaneOffset self
          (Integrate Target World.GetDeltaSeconds TimeStamp XVel YVel self Start k).2 Target
        = PlaneOffset self Start Target * (((N : K) - (k : K)) / (N : K))
      ∧ ∃ w : K,
        (Integrate Target World.GetDeltaSeconds TimeStamp XVel YVel self Start k
            ).1.m_ProjectileState.YVel = self.m_Params.GravityDirection * w := by
  have hN0 : (N : K) ≠ 0 := by
    have : (0 : K) < N := by exact_mod_cast (by omega : 0 < N)
    exact this.ne'
  induction k with
  | zero =>
    refine ⟨rfl, rfl, ?_, ?_, v, hY⟩
    · simp [Integrate, hT]
    · simp only [Integrate, Nat.cast_zero, sub_zero, div_self hN0]
      ext <;> simp
  | succ n ih =>
    obtain ⟨ic, ip, it, ig, w, iy⟩ := ih (Nat.le_of_succ_le hk)
    have hm : (1 : K) ≤ (N : K) - (n : K) := by
      have : ((n + 1 : ℕ) : K) ≤ N := by exact_mod_cast hk
      push_cast at this
      linarith
    have hmpos : (0 : K) < (N : K) - (n : K) := by linarith
    have hm0 : (N : K) - (n : K) ≠ 0 := hmpos.ne'
    have hdt0 : World.GetDeltaSeconds ≠ 0 := hdt.ne'
    set B := Integrate Target World.GetDeltaSeconds TimeStamp XVel YVel self Start n with hB
    have htpos : 0 < B.1.m_ProjectileState.fTimeLeft := by
      rw [it]; exact mul_pos hmpos hdt
    have hGB : B.1.m_Params.GravityDirection.SizeSquared = 1 := by rw [ip]; exact hG
    have hPO : PlaneOffset B.1 B.2 Target = PlaneOffset self B.2 Target :=
      PlaneOffset_congr _ _ ip _ _
    have hGO : GravityOffset B.1 B.2 Target = GravityOffset self B.2 Target :=
      GravityOffset_congr _ _ ip _ _
    have hgapB : PlaneOffset B.1 B.2 Target = FVector.ZeroVector
        ∨ SMALL_NUMBER ≤ (PlaneOffset B.1 B.2 Target).SizeSquared := by
      rw [hPO, ig]
      rcases hgap with h0 | hge
      · left; rw [h0, FVector.ZeroVector_mul]
      · right
        rw [FVector.SizeSquared_mul]
        have hq : (1 : K) ≤ ((N : K) - (n : K)) * ((N : K) - (n : K)) := by nlinarith
        have hNN : (0 : K) < (N : K) * N := by positivity
        have hS : SMALL_NUMBER
            ≤ (PlaneOffset self Start Target).SizeSquared / ((N : K) * N) :=
          (le_div_iff₀ hNN).mpr hge
        have hexp : (PlaneOffset self Start Target).SizeSquared
              * (((N : K) - (n : K)) / (N : K) * (((N : K) - (n : K)) / (N : K)))
            = (PlaneOffset self Start Target).SizeSquared / ((N : K) * N)
              * (((N : K) - (n : K)) * ((N : K) - (n : K))) := by
          field_simp
        rw [hexp]
        exact le_trans
          (le_of_eq_of_le (mul_one _).symm (mul_le_mul_of_nonneg_left hq SMALL_NUMBER_pos.le))
          (mul_le_mul_of_nonneg_right hS (by linarith))
    obtain ⟨sNet, sY, sT, sC, sP⟩ :=
      UpdateHPM_homing_step B.1 B.2 Target (TimeStamp n) (XVel n) (YVel n) Ctx World w
        (by rw [ic, h]) hw htpos hGB (by rw [iy, ip]) hgapB
    rw [hPO, hGO, ip, it] at sNet
    rw [hGO, ip, it] at sY
    have hstep : Integrate Target World.GetDeltaSeconds TimeStamp XVel YVel self Start (n + 1)
        = ((UpdateHPM B.1 B.2 Target (TimeStamp n) (XVel n) (YVel n)).2,
            B.2 + (UpdateHPM B.1 B.2 Target (TimeStamp n) (XVel n) (YVel n)).1.NetVelocity
              * World.GetDeltaSeconds) := rfl
    rw [hstep]
    refine ⟨by rw [sC, ic], by rw [sP, ip], ?_, ?_, _, sY⟩
    · rw [sT, it]; push_cast; ring
    · simp only [sNet]
      rw [PlaneOffset_move self B.2 Target _ _ _ hG, ig, FVector.mul_mul]
      congr 1
      push_cast
      field_simp
      ring

/-- Two points with a zero plane offset have the same projection on the plane. -/
theorem PointPlaneProject_eq_of_PlaneOffset (self : UHomingProjectileMotion K)
    (Location Target : FVector K)
    (h0 : PlaneOffset self Location Target = FVector.ZeroVector) :
    FVector.PointPlaneProject Location self.m_Params.LaunchLocation
        self.m_Params.GravityDirection
      = FVector.PointPlaneProject Target self.m_Params.LaunchLocation
        self.m_Params.GravityDirection := by
  have hx := congrArg FVector.X h0
  have hy := congrArg FVector.Y h0
  have hz := congrArg FVector.Z h0
  simp only [PlaneOffset, FVector.sub_X, FVector.sub_Y, FVector.sub_Z, FVector.ZeroVector]
    at hx hy hz
  ext
  · linarith
  · linarith
  · linarith

/-- The linear direction is a unit vector when the gravity direction is one. -/
theorem GetLinearDirection_SizeSquared (self : UHomingProjectileMotion K) (Cur Tgt : FVector K)
    (hG : self.m_Params.GravityDirection.SizeSquared = 1) :
    (self.GetLinearDirection Cur Tgt).SizeSquared = 1 := by
  have hone : SMALL_NUMBER ≤ self.m_Params.GravityDirection.SizeSquared := by
    rw [hG]; unfold SMALL_NUMBER; norm_num
  obtain ⟨hbig, hsmall⟩ := GetLinearDirection_cases self Cur Tgt
  rcases lt_or_le (FVector.PointPlaneProject Tgt self.m_Params.LaunchLocation
      self.m_Params.GravityDirection - FVector.PointPlaneProject Cur
      self.m_Params.LaunchLocation self.m_Params.GravityDirection).SizeSquared
      SMALL_NUMBER with hlt | hge
  · rw [hsmall hlt]
    exact (GetPerpendicularVector_cases _ _).1 hone
  · rw [hbig hge]
    exact FVector.SizeSquared_GetSafeNormal _ hge

/-- Every `UpdateHPM` call is either a no-op or an effective call. -/
theorem UpdateHPM_cases (self : UHomingProjectileMotion K) (Cur Tgt : FVector K) (Ts : K)
    (XVel YVel : FVector K) :
    UpdateHPM self Cur Tgt Ts XVel YVel = (FProjectileState.Default XVel YVel, self)
      ∨ ∃ (Ctx : UObject K) (World : UWorld K), self.WorldContextObj = some Ctx
          ∧ Ctx.GetWorld = some World ∧ 0 < self.m_ProjectileState.fTimeLeft := by
  rcases hc : self.WorldContextObj with _ | Ctx
  · exact Or.inl (UpdateHPM_of_null self Cur Tgt Ts XVel YVel hc)
  · rcases hw : Ctx.GetWorld with _ | World
    · exact Or.inl (UpdateHPM_of_no_world self Cur Tgt Ts XVel YVel Ctx hc hw)
    · rcases le_or_lt self.m_ProjectileState.fTimeLeft 0 with hle | hlt
      · exact Or.inl (UpdateHPM_of_time_up self Cur Tgt Ts XVel YVel hle)
      · exact Or.inr ⟨Ctx, World, rfl, hw, hlt⟩

/-- The two cached velocities after `SetupHPM` lie along the gravity direction and along
the linear direction, which is orthogonal to a unit gravity direction. -/
theorem SetupHPM_axes (Arc : ArcSolver K) (self : UHomingProjectileMotion K)
    (Ctx : UObject K) (LaunchParams : FProjectileParams K) (XVel YVel : FVector K)
    (hG : LaunchParams.GravityDirection.SizeSquared = 1) :
    (∃ w : K, (SetupHPM Arc self (some Ctx) LaunchParams XVel YVel).m_ProjectileState.YVel
        = (SetupHPM Arc self (some Ctx) LaunchParams XVel YVel).m_Params.GravityDirection * w)
      ∧ (∃ c : K, (SetupHPM Arc self (some Ctx) LaunchParams XVel YVel).m_ProjectileState.XVel
        = (SetupHPM Arc self (some Ctx) LaunchParams XVel YVel
            ).m_ProjectileState.LinearDirection * c)
      ∧ FVector.DotProduct
          (SetupHPM Arc self (some Ctx) LaunchParams XVel YVel).m_ProjectileState.LinearDirection
          (SetupHPM Arc self (some Ctx) LaunchParams XVel YVel).m_Params.GravityDirection
        = 0 := by
  obtain ⟨_, hP, hL, _, hYV, hXV, _, _, _, _⟩ :=
    SetupHPM_fields Arc self Ctx LaunchParams XVel YVel
  refine ⟨?_, ?_, ?_⟩
  · rw [hYV]
    unfold GetGravityComponent
    split_ifs
    · exact ⟨_, rfl⟩
    · exact ⟨0, by ext <;> simp⟩
  · rw [hXV]
    unfold GetLinearComponent
    split_ifs
    · exact ⟨_, rfl⟩
    · exact ⟨0, by ext <;> simp⟩
  · rw [hL]
    exact GetLinearDirection_dot _ _ _ (by rw [hP]; exact hG)

/-- One `UpdateHPM` call, no-op or effective, keeps the two cached velocities along the
unit gravity direction and along the linear direction, and these two orthogonal. -/
theorem UpdateHPM_axes (self : UHomingProjectileMotion K) (Cur Tgt : FVector K) (Ts : K)
    (XVel YVel : FVector K)
    (hG : self.m_Params.GravityDirection.SizeSquared = 1)
    (hY : ∃ w : K, self.m_ProjectileState.YVel = self.m_Params.GravityDirection * w)
    (hX : ∃ c : K, self.m_ProjectileState.XVel = self.m_ProjectileState.LinearDirection * c)
    (hLG : FVector.DotProduct self.m_ProjectileState.LinearDirection
      self.m_Params.GravityDirection = 0) :
    (∃ w : K, (UpdateHPM self Cur Tgt Ts XVel YVel).2.m_ProjectileState.YVel
        = (UpdateHPM self Cur Tgt Ts XVel YVel).2.m_Params.GravityDirection * w)
      ∧ (∃ c : K, (UpdateHPM self Cur Tgt Ts XVel YVel).2.m_ProjectileState.XVel
        = (UpdateHPM self Cur Tgt Ts XVel YVel).2.m_ProjectileState.LinearDirection * c)
      ∧ FVector.DotProduct
          (UpdateHPM self Cur Tgt Ts XVel YVel).2.m_ProjectileState.LinearDirection
          (UpdateHPM self Cur Tgt Ts XVel YVel).2.m_Params.GravityDirection = 0 := by
  rcases UpdateHPM_cases self Cur Tgt Ts XVel YVel with hnoop | ⟨Ctx, World, h, hw, ht⟩
  · rw [hnoop]
    exact ⟨hY, hX, hLG⟩
  · obtain ⟨w, hw'⟩ := hY
    obtain ⟨-, sY, -, -, sP⟩ :=
      UpdateHPM_vertical_step self Cur Tgt Ts XVel YVel Ctx World w h hw ht hG hw'
    refine ⟨⟨_, by rw [sY, sP]⟩, ?_, ?_⟩
    · rw [UpdateHPM_effective self Cur Tgt Ts XVel YVel Ctx World h hw ht]
      exact ⟨_, rfl⟩
    · rw [UpdateHPM_effective self Cur Tgt Ts XVel YVel Ctx World h hw ht]
      exact GetLinearDirection_dot self Cur Tgt hG

/-- The projections of a sum of multiples of two orthogonal unit vectors on each of them. -/
theorem ProjectOnTo_orthogonal_sum (L G : FVector K) (S W : K) (hL : L.SizeSquared = 1)
    (hG : G.SizeSquared = 1) (hLG : FVector.DotProduct L G = 0) :
    (L * S + G * W).ProjectOnTo G = G * W ∧ (L * S + G * W).ProjectOnTo L = L * S := by
  have d1 : FVector.DotProduct (L * S + G * W) G = W := by
    simp only [FVector.DotProduct, FVector.SizeSquared, FVector.add_X, FVector.add_Y,
      FVector.add_Z, FVector.mul_X, FVector.mul_Y, FVector.mul_Z] at hLG hG ⊢
    linear_combination S * hLG + W * hG
  have d2 : FVector.DotProduct (L * S + G * W) L = S := by
    simp only [FVector.DotProduct, FVector.SizeSquared, FVector.add_X, FVector.add_Y,
      FVector.add_Z, FVector.mul_X, FVector.mul_Y, FVector.mul_Z] at hLG hL ⊢
    linear_combination S * hL + W * hLG
  constructor
  · rw [FVector.ProjectOnTo, d1, FVector.DotProduct_self, hG, div_one]
  · rw [FVector.ProjectOnTo, d2, FVector.DotProduct_self, hL, div_one]

theorem UpdateHPM_calls_params (Args : ℕ → FUpdateArgs K) (self : UHomingProjectileMotion K)
    (k : ℕ) : (UpdateHPM_calls Args self k).m_Params = self.m_Params := by
  induction k with
  | zero => rfl
  | succ n ih =>
    rw [UpdateHPM_calls, (UpdateHPM_keeps _ _ _ _ _ _).2.1, ih]

/-- The same after any number of calls that follow a `SetupHPM`. -/
theorem UpdateHPM_calls_axes (Args : ℕ → FUpdateArgs K) (self : UHomingProjectileMotion K)
    (hG : self.m_Params.GravityDirection.SizeSquared = 1)
    (hY : ∃ w : K, self.m_ProjectileState.YVel = self.m_Params.GravityDirection * w)
    (hX : ∃ c : K, self.m_ProjectileState.XVel = self.m_ProjectileState.LinearDirection * c)
    (hLG : FVector.DotProduct self.m_ProjectileState.LinearDirection
      self.m_Params.GravityDirection = 0) (n : ℕ) :
    (∃ w : K, (UpdateHPM_calls Args self n).m_ProjectileState.YVel
        = (UpdateHPM_calls Args self n).m_Params.GravityDirection * w)
      ∧ (∃ c : K, (UpdateHPM_calls Args self n).m_ProjectileState.XVel
        = (UpdateHPM_calls Args self n).m_ProjectileState.LinearDirection * c)
      ∧ FVector.DotProduct (UpdateHPM_calls Args self n).m_ProjectileState.LinearDirection
          (UpdateHPM_calls Args self n).m_Params.GravityDirection = 0 := by
  induction n with
  | zero => exact ⟨hY, hX, hLG⟩
  | succ m ih =>
    obtain ⟨iY, iX, iL⟩ := ih
    exact UpdateHPM_axes (UpdateHPM_calls Args self m) _ _ _ _ _
      (by rw [UpdateHPM_calls_params]; exact hG) iY iX iL

/-- The net velocity after an effective call, for a unit gravity direction and a cached
vertical velocity along it: the sum of the two cached velocities, whose projections on the
gravity direction and on the linear direction are these two; `GetGravityComponent` and
`GetLinearComponent` return them above the tolerance and the zero vector otherwise. -/
theorem UpdateHPM_net_components (self : UHomingProjectileMotion K) (Cur Tgt : FVector K)
    (Ts : K) (XVel YVel : FVector K) (Ctx : UObject K) (World : UWorld K)
    (h : self.WorldContextObj = some Ctx) (hw : Ctx.GetWorld = some World)
    (ht : 0 < self.m_ProjectileState.fTimeLeft)
    (hG : self.m_Params.GravityDirection.SizeSquared = 1)
    (hY : ∃ w : K, self.m_ProjectileState.YVel = self.m_Params.GravityDirection * w) :
    (UpdateHPM self Cur Tgt Ts XVel YVel).2.m_ProjectileState.NetVelocity
        = (UpdateHPM self Cur Tgt Ts XVel YVel).2.m_ProjectileState.XVel
          + (UpdateHPM self Cur Tgt Ts XVel YVel).2.m_ProjectileState.YVel
      ∧ (UpdateHPM self Cur Tgt Ts XVel YVel).2.m_ProjectileState.NetVelocity.ProjectOnTo
          (UpdateHPM self Cur Tgt Ts XVel YVel).2.m_Params.GravityDirection
        = (UpdateHPM self Cur Tgt Ts XVel YVel).2.m_ProjectileState.YVel
      ∧ (UpdateHPM self Cur Tgt Ts XVel YVel).2.m_ProjectileState.NetVelocity.ProjectOnTo
          (UpdateHPM self Cur Tgt Ts XVel YVel).2.m_ProjectileState.LinearDirection
        = (UpdateHPM self Cur Tgt Ts XVel YVel).2.m_ProjectileState.XVel
      ∧ (SMALL_NUMBER
          < (UpdateHPM self Cur Tgt Ts XVel YVel).2.m_ProjectileState.NetVelocity.SizeSquared →
        (UpdateHPM self Cur Tgt Ts XVel YVel).2.GetGravityComponent
            (UpdateHPM self Cur Tgt Ts XVel YVel).2.m_ProjectileState.NetVelocity
          = (UpdateHPM self Cur Tgt Ts XVel YVel).2.m_ProjectileState.YVel
        ∧ (UpdateHPM self Cur Tgt Ts XVel YVel).2.GetLinearComponent
            (UpdateHPM self Cur Tgt Ts XVel YVel).2.m_ProjectileState.NetVelocity
          = (UpdateHPM self Cur Tgt Ts XVel YVel).2.m_ProjectileState.XVel)
      ∧ ((UpdateHPM self Cur Tgt Ts XVel YVel).2.m_ProjectileState.NetVelocity.SizeSquared
          ≤ SMALL_NUMBER →
        (UpdateHPM self Cur Tgt Ts XVel YVel).2.GetGravityComponent
            (UpdateHPM self Cur Tgt Ts XVel YVel).2.m_ProjectileState.NetVelocity
          = FVector.ZeroVector
        ∧ (UpdateHPM self Cur Tgt Ts XVel YVel).2.GetLinearComponent
            (UpdateHPM self Cur Tgt Ts XVel YVel).2.m_ProjectileState.NetVelocity
          = FVector.ZeroVector) := by
  obtain ⟨v, hv⟩ := hY
  obtain ⟨sNet, sY, -, -, sP⟩ :=
    UpdateHPM_vertical_step self Cur Tgt Ts XVel YVel Ctx World v h hw ht hG hv
  have hXV : (UpdateHPM self Cur Tgt Ts XVel YVel).2.m_ProjectileState.XVel
      = self.GetLinearDirection Cur Tgt * self.GetHomingLinearSpeed Cur Tgt := by
    rw [UpdateHPM_effective self Cur Tgt Ts XVel YVel Ctx World h hw ht]
  have hLD : (UpdateHPM self Cur Tgt Ts XVel YVel).2.m_ProjectileState.LinearDirection
      = self.GetLinearDirection Cur Tgt := by
    rw [UpdateHPM_effective self Cur Tgt Ts XVel YVel Ctx World h hw ht]
  have hN2 : (UpdateHPM self Cur Tgt Ts XVel YVel).2.m_ProjectileState.NetVelocity
      = (UpdateHPM self Cur Tgt Ts XVel YVel).1.NetVelocity := by
    rw [UpdateHPM_effective self Cur Tgt Ts XVel YVel Ctx World h hw ht]
  obtain ⟨pG, pL⟩ := ProjectOnTo_orthogonal_sum (self.GetLinearDirection Cur Tgt)
    self.m_Params.GravityDirection (self.GetHomingLinearSpeed Cur Tgt)
    (v + 2 * (GravityOffset self Cur Tgt - v * self.m_ProjectileState.fTimeLeft)
        / (self.m_ProjectileState.fTimeLeft * self.m_ProjectileState.fTimeLeft)
      * World.GetDeltaSeconds)
    (GetLinearDirection_SizeSquared self Cur Tgt hG) hG (GetLinearDirection_dot self Cur Tgt hG)
  simp only [GetGravityComponent, GetLinearComponent]
  rw [hN2, sNet, sY, hXV, hLD, sP]
  refine ⟨rfl, pG, pL, ?_, ?_⟩
  · intro hbig
    rw [if_pos hbig, if_pos hbig]
    exact ⟨pG, pL⟩
  · intro hsmall
    rw [if_neg (not_lt.mpr hsmall), if_neg (not_lt.mpr hsmall)]
    exact ⟨rfl, rfl⟩

theorem GetGravityComponent_ZeroVector (self : UHomingProjectileMotion K) :
    self.GetGravityComponent FVector.ZeroVector = FVector.ZeroVector := by
  simp only [GetGravityComponent, FVector.SizeSquared_ZeroVector,
    if_neg (not_lt.mpr (SMALL_NUMBER_pos (K := K)).le)]

/-- The time that `SetupHPM` stores when the target is at `launch + s * G` for the unit
gravity direction `G`, farther than the tolerance. -/
theorem SetupHPM_on_axis_time (Arc : ArcSolver K) (self : UHomingProjectileMotion K)
    (Ctx : UObject K) (LaunchParams : FProjectileParams K) (XVel YVel : FVector K) (s : K)
    (hG : LaunchParams.GravityDirection.SizeSquared = 1)
    (hg : 0 < LaunchParams.fGravity)
    (hT : LaunchParams.TargetLocation
      = LaunchParams.LaunchLocation + LaunchParams.GravityDirection * s)
    (hs : SMALL_NUMBER < s * s) :
    (SetupHPM Arc self (some Ctx) LaunchParams XVel YVel).m_ProjectileState.fTimeLeft
      = FMath.Sqrt (2 * |s| / LaunchParams.fGravity) := by
  obtain ⟨_, hP, _, _, _, _, _, hTT, hTL, _⟩ :=
    SetupHPM_fields Arc self Ctx LaunchParams XVel YVel
  obtain ⟨hpos, hneg, hsp⟩ := SetupHPM_on_axis Arc self Ctx LaunchParams XVel YVel s hG hT
  obtain ⟨D, U, A, V, -, -, -, -, -, hTime, -⟩ := GetTrajectoryDuration_on_axis
    (SetupHPM Arc self (some Ctx) LaunchParams XVel YVel) s
    (by rw [hP]; exact hG) (by rw [hP]; exact hg) (by rw [hP]; exact hT) hs
    (hsp (Or.inr hs.le)) hpos (by rw [hP]; exact fun hlt => hneg hlt hs.le)
  rw [hTL, hTT, hTime, hP]

/-- The gravity component of a multiple of the unit gravity direction above the tolerance
is that multiple. -/
theorem GetGravityComponent_along_gravity (self : UHomingProjectileMotion K) (c : K)
    (hG : self.m_Params.GravityDirection.SizeSquared = 1) (hc : SMALL_NUMBER < c * c) :
    self.GetGravityComponent (self.m_Params.GravityDirection * c)
      = self.m_Params.GravityDirection * c := by
  have hss : (self.m_Params.GravityDirection * c).SizeSquared = c * c := by
    rw [FVector.SizeSquared_mul, hG, one_mul]
  rw [GetGravityComponent, if_pos (by rw [hss]; exact hc), FVector.ProjectOnTo,
    FVector.DotProduct_mul_left, FVector.DotProduct_self, hG, div_one, one_mul]

/-- The cached vertical velocity and the net velocity right after `SetupHPM` when the
target is above the launch location on the gravity axis: the first is the launch velocity,
the second is the zero vector. -/
theorem SetupHPM_above (Arc : ArcSolver K) (self : UHomingProjectileMotion K)
    (Ctx : UObject K) (LaunchParams : FProjectileParams K) (XVel YVel : FVector K) (s : K)
    (hG : LaunchParams.GravityDirection.SizeSquared = 1)
    (hT : LaunchParams.TargetLocation
      = LaunchParams.LaunchLocation + LaunchParams.GravityDirection * s)
    (hs : s < 0) (hl : SMALL_NUMBER ≤ s * s)
    (hq : SMALL_NUMBER < 2 * LaunchParams.fGravity * |s|) :
    (SetupHPM Arc self (some Ctx) LaunchParams XVel YVel).m_ProjectileState.YVel
        = LaunchParams.GravityDirection * (-FMath.Sqrt (2 * LaunchParams.fGravity * |s|))
      ∧ (SetupHPM Arc self (some Ctx) LaunchParams XVel YVel).m_ProjectileState.NetVelocity
        = FVector.ZeroVector
      ∧ (SetupHPM Arc self (some Ctx) LaunchParams XVel YVel).GetGravityComponent
          (SetupHPM Arc self (some Ctx) LaunchParams XVel YVel).m_ProjectileState.NetVelocity
        = FVector.ZeroVector := by
  obtain ⟨_, hP, _, _, hYV, _, _, _, _, hNet⟩ :=
    SetupHPM_fields Arc self Ctx LaunchParams XVel YVel
  obtain ⟨-, hneg, -⟩ := SetupHPM_on_axis Arc self Ctx LaunchParams XVel YVel s hG hT
  have hrad : 0 ≤ 2 * LaunchParams.fGravity * |s| := le_trans SMALL_NUMBER_pos.le hq.le
  have hflip : -LaunchParams.GravityDirection * FMath.Sqrt (2 * LaunchParams.fGravity * |s|)
      = (SetupHPM Arc self (some Ctx) LaunchParams XVel YVel).m_Params.GravityDirection
        * (-FMath.Sqrt (2 * LaunchParams.fGravity * |s|)) := by
    rw [hP]
    ext <;> simp
  refine ⟨?_, hNet, ?_⟩
  · rw [hYV, hneg hs hl, hflip, GetGravityComponent_along_gravity _ _ (by rw [hP]; exact hG)
      (by rw [neg_mul_neg, FMath.Sqrt_mul_self _ hrad]; exact hq), hP]
  · rw [hNet]
    exact GetGravityComponent_ZeroVector _

/-- The cached vertical velocity right after `SetupHPM` when the target is below the launch
location on the gravity axis is the zero vector. -/
theorem SetupHPM_below (Arc : ArcSolver K) (self : UHomingProjectileMotion K)
    (Ctx : UObject K) (LaunchParams : FProjectileParams K) (XVel YVel : FVector K) (s : K)
    (hG : LaunchParams.GravityDirection.SizeSquared = 1)
    (hT : LaunchParams.TargetLocation
      = LaunchParams.LaunchLocation + LaunchParams.GravityDirection * s)
    (hs : 0 < s) :
    (SetupHPM Arc self (some Ctx) LaunchParams XVel YVel).m_ProjectileState.YVel
      = (SetupHPM Arc self (some Ctx) LaunchParams XVel YVel).m_Params.GravityDirection
        * (0 : K) := by
  obtain ⟨_, hP, _, _, hYV, _, _, _, _, _⟩ :=
    SetupHPM_fields Arc self Ctx LaunchParams XVel YVel
  obtain ⟨hpos, -, -⟩ := SetupHPM_on_axis Arc self Ctx LaunchParams XVel YVel s hG hT
  rw [hYV, hpos hs, GetGravityComponent_ZeroVector]
  ext <;> simp

/-- Cosine and sine of the angle of a point on the positive X axis. -/
theorem Atan2_zero_pos (x : K) (hx : 0 < x) :
    FMath.Cos (FMath.Atan2 (0 : K) x) = 1 ∧ FMath.Sin (FMath.Atan2 (0 : K) x) = 0 := by
  have hc := FMath.Sqrt_mul_Cos_Atan2 (0 : K) x
  have hs := FMath.Sqrt_mul_Sin_Atan2 (0 : K) x
  have h1 : x * x + (0 : K) * 0 = x * x := by ring
  rw [h1, Sqrt_mul_self_of_nonneg x hx.le] at hc hs
  constructor
  · exact mul_left_cancel₀ hx.ne' (by rw [hc, mul_one])
  · exact mul_left_cancel₀ hx.ne' (by rw [hs, mul_zero])

/-- Cosine and sine of the angle of a point on the positive Y axis. -/
theorem Atan2_pos_zero (y : K) (hy : 0 < y) :
    FMath.Cos (FMath.Atan2 y (0 : K)) = 0 ∧ FMath.Sin (FMath.Atan2 y (0 : K)) = 1 := by
  have hc := FMath.Sqrt_mul_Cos_Atan2 y (0 : K)
  have hs := FMath.Sqrt_mul_Sin_Atan2 y (0 : K)
  have h1 : (0 : K) * 0 + y * y = y * y := by ring
  rw [h1, Sqrt_mul_self_of_nonneg y hy.le] at hc hs
  constructor
  · exact mul_left_cancel₀ hy.ne' (by rw [hc, mul_zero])
  · exact mul_left_cancel₀ hy.ne' (by rw [hs, mul_one])

/-- The three rows that `GetAxesRotation` hands to `FMatrix::Rotator` for the tilted sample:
the forward row is the plane projection of the unit line, of length `3/5`. -/
theorem SampleTilted_axes :
    (SampleTilted : UHomingProjectileMotion K).GetAxesRotation
      = (FMatrix.ofAxes (⟨0, 3 / 5, 0⟩ : FVector K) ⟨-(12 / 25), 0, -(9 / 25)⟩
          ⟨-(3 / 5), 0, 4 / 5⟩).Rotator := by
  have hd : (SampleTilted : UHomingProjectileMotion K).m_Params.TargetLocation
      - (SampleTilted : UHomingProjectileMotion K).m_Params.LaunchLocation
      = ⟨12 / 5, 3, -(16 / 5)⟩ := by
    ext <;> simp [SampleTilted, FVector.ZeroVector]
  have hG : (SampleTilted : UHomingProjectileMotion K).m_Params.GravityDirection
      = ⟨3 / 5, 0, -(4 / 5)⟩ := rfl
  have hss : (⟨12 / 5, 3, -(16 / 5)⟩ : FVector K).SizeSquared = 5 * 5 := by
    norm_num [FVector.SizeSquared]
  have hn : (⟨12 / 5, 3, -(16 / 5)⟩ : FVector K).GetSafeNormal
      = ⟨12 / 25, 3 / 5, -(16 / 25)⟩ := by
    rw [FVector.GetSafeNormal_of_large _ (by rw [hss]; norm_num [SMALL_NUMBER]),
      FVector.Size_eq_Sqrt, hss, Sqrt_mul_self_of_nonneg (5 : K) (by norm_num)]
    ext <;> norm_num
  have hp : FVector.VectorPlaneProject (⟨12 / 25, 3 / 5, -(16 / 25)⟩ : FVector K)
      ⟨3 / 5, 0, -(4 / 5)⟩ = ⟨0, 3 / 5, 0⟩ := by
    ext <;> norm_num [FVector.VectorPlaneProject, FVector.ProjectOnToNormal,
      FVector.DotProduct]
  have hbig : (⟨0, 3 / 5, 0⟩ : FVector K).SizeSquared > 1 / 10000 := by
    norm_num [FVector.SizeSquared]
  have hup : -(⟨3 / 5, 0, -(4 / 5)⟩ : FVector K) = ⟨-(3 / 5), 0, 4 / 5⟩ := by
    ext <;> norm_num
  have hright : FVector.CrossProduct (⟨-(3 / 5), 0, 4 / 5⟩ : FVector K) ⟨0, 3 / 5, 0⟩
      = ⟨-(12 / 25), 0, -(9 / 25)⟩ := by
    ext <;> norm_num [FVector.CrossProduct]
  simp only [GetAxesRotation, hd, hn, hG, hp, if_pos hbig, hup, hright]

/-- The rotation matrix of the axes rotation of the tilted sample: its forward row is the
normalised forward row, and its roll angle `r` has `Q cos r = 12/25` and `Q sin r = 3/5`
for one and the same `Q`. -/
theorem SampleTilted_rotation :
    ∃ Q CR SR : K, Q * CR = 12 / 25 ∧ Q * SR = 3 / 5 ∧ SR * SR + CR * CR = 1
      ∧ FRotationMatrix (SampleTilted : UHomingProjectileMotion K).GetAxesRotation
        = ⟨⟨0, 1, 0⟩, ⟨-CR, 0, -SR⟩, ⟨-SR, 0, CR⟩⟩ := by
  obtain ⟨hcp, hsp⟩ := Atan2_zero_pos (3 / 5 : K) (by norm_num)
  obtain ⟨hcy, hsy⟩ := Atan2_pos_zero (3 / 5 : K) (by norm_num)
  have hq : FMath.Sqrt ((0 : K) * 0 + 3 / 5 * (3 / 5)) = 3 / 5 := by
    have h1 : (0 : K) * 0 + 3 / 5 * (3 / 5) = 3 / 5 * (3 / 5) := by ring
    rw [h1, Sqrt_mul_self_of_nonneg (3 / 5 : K) (by norm_num)]
  have hRot : (FMatrix.ofAxes (⟨0, 3 / 5, 0⟩ : FVector K) ⟨-(12 / 25), 0, -(9 / 25)⟩
      ⟨-(3 / 5), 0, 4 / 5⟩).Rotator
      = ⟨FMath.Atan2 (0 : K) (3 / 5) * 180 / (FMath.PI : K),
          FMath.Atan2 (3 / 5 : K) 0 * 180 / (FMath.PI : K),
          FMath.Atan2 (3 / 5 : K) (12 / 25) * 180 / (FMath.PI : K)⟩ := by
    simp only [FMatrix.ofAxes, FMatrix.Rotator, FMatrix.GetScaledAxis, FRotationMatrix,
      FVector.DotProduct, DegreesToRadians_mul_div, DegreesToRadians_zero, FMath.Sin_zero,
      FMath.Cos_zero, hq, hcp, hsp, hcy, hsy]
    norm_num
  refine ⟨FMath.Sqrt ((12 / 25 : K) * (12 / 25) + 3 / 5 * (3 / 5)),
    FMath.Cos (FMath.Atan2 (3 / 5 : K) (12 / 25)),
    FMath.Sin (FMath.Atan2 (3 / 5 : K) (12 / 25)),
    FMath.Sqrt_mul_Cos_Atan2 _ _, FMath.Sqrt_mul_Sin_Atan2 _ _,
    FMath.Sin_sq_add_Cos_sq _, ?_⟩
  rw [SampleTilted_axes, hRot]
  simp only [FRotationMatrix, DegreesToRadians_mul_div, hcp, hsp, hcy, hsy]
  norm_num

/-- The launch velocity of the tilted sample: the cross-product test passes, so the arc
solver is asked for the target at the launch location plus the unrotated offset, and its
answer is rotated back. -/
theorem SampleTilted_launch (Arc : ArcSolver K) :
    (SampleTilted : UHomingProjectileMotion K).CalculateLaunchVelocity Arc
      = (SampleTilted : UHomingProjectileMotion K).GetAxesRotation.RotateVector
          ((Arc (SampleTilted : UHomingProjectileMotion K).WorldContextObj
              FVector.ZeroVector
              (FVector.ZeroVector
                + (SampleTilted : UHomingProjectileMotion K).GetAxesRotation.UnrotateVector
                    ⟨12 / 5, 3, -(16 / 5)⟩)
              (-2) (1 / 2)).getD FVector.ZeroVector) := by
  have hd : (SampleTilted : UHomingProjectileMotion K).m_Params.TargetLocation
      - (SampleTilted : UHomingProjectileMotion K).m_Params.LaunchLocation
      = ⟨12 / 5, 3, -(16 / 5)⟩ := by
    ext <;> simp [SampleTilted, FVector.ZeroVector]
  have hss : (⟨12 / 5, 3, -(16 / 5)⟩ : FVector K).SizeSquared = 5 * 5 := by
    norm_num [FVector.SizeSquared]
  have hn : (⟨12 / 5, 3, -(16 / 5)⟩ : FVector K).GetSafeNormal
      = ⟨12 / 25, 3 / 5, -(16 / 25)⟩ := by
    rw [FVector.GetSafeNormal_of_large _ (by rw [hss]; norm_num [SMALL_NUMBER]),
      FVector.Size_eq_Sqrt, hss, Sqrt_mul_self_of_nonneg (5 : K) (by norm_num)]
    ext <;> norm_num
  have hcross : (FVector.CrossProduct (⟨12 / 25, 3 / 5, -(16 / 25)⟩ : FVector K)
      (SampleTilted : UHomingProjectileMotion K).m_Params.GravityDirection).SizeSquared
      > 1 / 1000 := by
    norm_num [SampleTilted, FVector.CrossProduct, FVector.SizeSquared]
  have key : ∀ o : Option (FVector K),
      (SampleTilted : UHomingProjectileMotion K).GetAxesRotation.RotateVector
          (match o with
            | some OutLaunchVelocity => OutLaunchVelocity
            | none => FVector.ZeroVector)
        = (SampleTilted : UHomingProjectileMotion K).GetAxesRotation.RotateVector
          (o.getD FVector.ZeroVector) := by
    intro o
    cases o <;> rfl
  simp only [CalculateLaunchVelocity, hd, hn, if_pos hcross]
  exact key _

/-- The component of a rotated vector along the image of the canonical forward axis is its
forward component: the first row of a rotation matrix is a unit vector orthogonal to the
other two rows. -/
theorem FRotationMatrix_XAxis_dot (R : FRotator K) (V : FVector K) :
    FVector.DotProduct (R.RotateVector V) (FRotationMatrix R).XAxis = V.X := by
  have hP := FMath.Sin_sq_add_Cos_sq (DegreesToRadians R.Pitch)
  have hY := FMath.Sin_sq_add_Cos_sq (DegreesToRadians R.Yaw)
  simp only [FRotator.RotateVector, FRotationMatrix, FMatrix.TransformVector,
    FVector.DotProduct]
  linear_combination
    (V.X * FMath.Cos (DegreesToRadians R.Pitch) * FMath.Cos (DegreesToRadians R.Pitch)
      + V.Y * FMath.Cos (DegreesToRadians R.Pitch) * FMath.Sin (DegreesToRadians R.Roll)
        * FMath.Sin (DegreesToRadians R.Pitch)
      - V.Z * FMath.Cos (DegreesToRadians R.Pitch) * FMath.Cos (DegreesToRadians R.Roll)
        * FMath.Sin (DegreesToRadians R.Pitch)) * hY
    + V.X * hP

/-- The first row of the rotation matrix of `M.Rotator ()`, scaled by the length of the
first row of `M`, is the first row of `M`: pitch and yaw are read off that row and do not
depend on its length. -/
theorem Rotator_XAxis (M : FMatrix K) :
    (FRotationMatrix M.Rotator).XAxis * M.XAxis.Size = M.XAxis := by
  have hq : 0 ≤ M.XAxis.X * M.XAxis.X + M.XAxis.Y * M.XAxis.Y :=
    add_nonneg (mul_self_nonneg _) (mul_self_nonneg _)
  have hQQ := FMath.Sqrt_mul_self _ hq
  have hcp := FMath.Sqrt_mul_Cos_Atan2 M.XAxis.Z
    (FMath.Sqrt (M.XAxis.X * M.XAxis.X + M.XAxis.Y * M.XAxis.Y))
  have hsp := FMath.Sqrt_mul_Sin_Atan2 M.XAxis.Z
    (FMath.Sqrt (M.XAxis.X * M.XAxis.X + M.XAxis.Y * M.XAxis.Y))
  have hcy := FMath.Sqrt_mul_Cos_Atan2 M.XAxis.Y M.XAxis.X
  have hsy := FMath.Sqrt_mul_Sin_Atan2 M.XAxis.Y M.XAxis.X
  rw [hQQ] at hcp hsp
  have hsize : M.XAxis.Size
      = FMath.Sqrt (M.XAxis.X * M.XAxis.X + M.XAxis.Y * M.XAxis.Y + M.XAxis.Z * M.XAxis.Z) :=
    rfl
  simp only [FMatrix.Rotator, FMatrix.GetScaledAxis, FRotationMatrix,
    DegreesToRadians_mul_div, hsize]
  ext
  · simp only [FVector.mul_X]
    linear_combination
      (FMath.Cos (FMath.Atan2 M.XAxis.Y M.XAxis.X)) * hcp + hcy
  · simp only [FVector.mul_Y]
    linear_combination
      (FMath.Sin (FMath.Atan2 M.XAxis.Y M.XAxis.X)) * hcp + hsy
  · simp only [FVector.mul_Z]
    linear_combination hsp

/-- The squared length of the part of a vector orthogonal to a unit vector is that of
their cross product. -/
theorem VectorPlaneProject_SizeSquared (V G : FVector K) (hG : G.SizeSquared = 1) :
    (FVector.VectorPlaneProject V G).SizeSquared = (FVector.CrossProduct V G).SizeSquared := by
  simp only [FVector.VectorPlaneProject, FVector.ProjectOnToNormal, FVector.CrossProduct,
    FVector.DotProduct, FVector.SizeSquared, FVector.sub_X, FVector.sub_Y, FVector.sub_Z,
    FVector.mul_X, FVector.mul_Y, FVector.mul_Z] at hG ⊢
  linear_combination
    ((V.X * G.X + V.Y * G.Y + V.Z * G.Z) * (V.X * G.X + V.Y * G.Y + V.Z * G.Z)
      - (V.X * V.X + V.Y * V.Y + V.Z * V.Z)) * hG

/-- The length of a non-negative multiple of a vector. -/
theorem FVector.Size_mul_nonneg (V : FVector K) (c : K) (hc : 0 ≤ c) :
    (V * c).Size = V.Size * c := by
  rw [FVector.Size_eq_Sqrt, FVector.SizeSquared_mul, ← FVector.Size_mul_self V]
  have h1 : V.Size * V.Size * (c * c) = V.Size * c * (V.Size * c) := by ring
  rw [h1, Sqrt_mul_self_of_nonneg _ (mul_nonneg (FVector.Size_nonneg V) hc)]

/-- The squared dot product with a unit vector does not exceed the squared length. -/
theorem DotProduct_sq_le (V L : FVector K) (hL : L.SizeSquared = 1) :
    FVector.DotProduct V L * FVector.DotProduct V L ≤ V.SizeSquared := by
  have h := FVector.SizeSquared_nonneg (FVector.CrossProduct V L)
  have hid : (FVector.CrossProduct V L).SizeSquared
      = V.SizeSquared - FVector.DotProduct V L * FVector.DotProduct V L := by
    simp only [FVector.CrossProduct, FVector.DotProduct, FVector.SizeSquared] at hL ⊢
    linear_combination (V.X * V.X + V.Y * V.Y + V.Z * V.Z) * hL
  rw [hid] at h
  linarith

/-- The image of the canonical forward axis under the axes rotation, when the
cross-product test of `CalculateLaunchVelocity` passes for a unit gravity direction: the
direction of the plane projection of the launch-to-target line. -/
theorem GetAxesRotation_forward (self : UHomingProjectileMotion K)
    (hG : self.m_Params.GravityDirection.SizeSquared = 1)
    (hcross : (FVector.CrossProduct
        (self.m_Params.TargetLocation - self.m_Params.LaunchLocation).GetSafeNormal
        self.m_Params.GravityDirection).SizeSquared > 1 / 1000) :
    (FRotationMatrix self.GetAxesRotation).XAxis
        * (FVector.VectorPlaneProject
            (self.m_Params.TargetLocation - self.m_Params.LaunchLocation).GetSafeNormal
            self.m_Params.GravityDirection).Size
      = FVector.VectorPlaneProject
          (self.m_Params.TargetLocation - self.m_Params.LaunchLocation).GetSafeNormal
          self.m_Params.GravityDirection := by
  have hbig : (FVector.VectorPlaneProject
      (self.m_Params.TargetLocation - self.m_Params.LaunchLocation).GetSafeNormal
      self.m_Params.GravityDirection).SizeSquared > 1 / 10000 := by
    rw [VectorPlaneProject_SizeSquared _ _ hG]
    exact lt_trans (by norm_num) hcross
  simp only [GetAxesRotation, if_pos hbig]
  exact Rotator_XAxis (FMatrix.ofAxes _ _ _)

/-- The offset from launch to target has the length of its plane offset as component along
the linear direction that `SetupHPM` stores, when the plane offset is above the tolerance. -/
theorem DotProduct_LinearDirection (self : UHomingProjectileMotion K)
    (hG : self.m_Params.GravityDirection.SizeSquared = 1)
    (hgap : SMALL_NUMBER
      < (PlaneOffset self self.m_Params.LaunchLocation self.m_Params.TargetLocation
        ).SizeSquared)
    (hL : self.m_ProjectileState.LinearDirection
      = self.GetLinearDirection self.m_Params.LaunchLocation self.m_Params.TargetLocation) :
    FVector.DotProduct (self.m_Params.TargetLocation - self.m_Params.LaunchLocation)
        self.m_ProjectileState.LinearDirection
      = (PlaneOffset self self.m_Params.LaunchLocation self.m_Params.TargetLocation).Size := by
  have hdir : self.m_ProjectileState.LinearDirection
      = PlaneOffset self self.m_Params.LaunchLocation self.m_Params.TargetLocation
        * (1 / (PlaneOffset self self.m_Params.LaunchLocation self.m_Params.TargetLocation
          ).Size) := by
    rw [hL, (GetLinearDirection_cases self _ _).1 hgap.le]
    exact FVector.GetSafeNormal_of_large _ hgap.le
  have hsz := FVector.Size_pos_of_large _ hgap.le
  have hszsq := FVector.Size_mul_self
    (PlaneOffset self self.m_Params.LaunchLocation self.m_Params.TargetLocation)
  rw [hdir, FVector.DotProduct_mul_right, DotProduct_PlaneOffset self _ _ hG, ← hszsq]
  field_simp

/-- The image of the canonical forward axis under the axes rotation is the linear direction
that `SetupHPM` stores, when the cross-product test passes and the plane offset from launch
to target is above the tolerance. -/
theorem GetAxesRotation_XAxis (self : UHomingProjectileMotion K)
    (hG : self.m_Params.GravityDirection.SizeSquared = 1)
    (hcross : (FVector.CrossProduct
        (self.m_Params.TargetLocation - self.m_Params.LaunchLocation).GetSafeNormal
        self.m_Params.GravityDirection).SizeSquared > 1 / 1000)
    (hgap : SMALL_NUMBER
      < (PlaneOffset self self.m_Params.LaunchLocation self.m_Params.TargetLocation
        ).SizeSquared)
    (hL : self.m_ProjectileState.LinearDirection
      = self.GetLinearDirection self.m_Params.LaunchLocation self.m_Params.TargetLocation) :
    (FRotationMatrix self.GetAxesRotation).XAxis = self.m_ProjectileState.LinearDirection := by
  have hd : SMALL_NUMBER
      < (self.m_Params.TargetLocation - self.m_Params.LaunchLocation).SizeSquared := by
    rw [SizeSquared_eq_plane_add_gravity self _ _ hG]
    nlinarith [mul_self_nonneg
      (GravityOffset self self.m_Params.LaunchLocation self.m_Params.TargetLocation)]
  have hdpos := FVector.Size_pos_of_large _ hd.le
  have hgpos := FVector.Size_pos_of_large _ hgap.le
  have hline : (self.m_Params.TargetLocation - self.m_Params.LaunchLocation).GetSafeNormal
      = (self.m_Params.TargetLocation - self.m_Params.LaunchLocation)
        * (1 / (self.m_Params.TargetLocation - self.m_Params.LaunchLocation).Size) :=
    FVector.GetSafeNormal_of_large _ hd.le
  have hproj : FVector.VectorPlaneProject
      (self.m_Params.TargetLocation - self.m_Params.LaunchLocation).GetSafeNormal
      self.m_Params.GravityDirection
      = PlaneOffset self self.m_Params.LaunchLocation self.m_Params.TargetLocation
        * (1 / (self.m_Params.TargetLocation - self.m_Params.LaunchLocation).Size) := by
    rw [hline]
    ext <;>
      simp only [PlaneOffset, FVector.VectorPlaneProject, FVector.ProjectOnToNormal,
        FVector.DotProduct, FVector.PointPlaneProject, FVector.PointPlaneDist, FVector.sub_X,
        FVector.sub_Y, FVector.sub_Z, FVector.smul_X, FVector.smul_Y, FVector.smul_Z,
        FVector.mul_X, FVector.mul_Y, FVector.mul_Z] <;>
      ring
  have hdir : self.m_ProjectileState.LinearDirection
      = PlaneOffset self self.m_Params.LaunchLocation self.m_Params.TargetLocation
        * (1 / (PlaneOffset self self.m_Params.LaunchLocation self.m_Params.TargetLocation
          ).Size) := by
    rw [hL, (GetLinearDirection_cases self _ _).1 hgap.le]
    exact FVector.GetSafeNormal_of_large _ hgap.le
  have hfw := GetAxesRotation_forward self hG hcross
  rw [hproj, FVector.Size_mul_nonneg _ _ (by positivity)] at hfw
  have hx := congrArg FVector.X hfw
  have hy := congrArg FVector.Y hfw
  have hz := congrArg FVector.Z hfw
  simp only [FVector.mul_X, FVector.mul_Y, FVector.mul_Z] at hx hy hz
  rw [hdir]
  have hd0 := hdpos.ne'
  have hg0 := hgpos.ne'
  ext
  · simp only [FVector.mul_X]
    field_simp at hx ⊢
    linear_combination hx
  · simp only [FVector.mul_Y]
    field_simp at hy ⊢
    linear_combination hy
  · simp only [FVector.mul_Z]
    field_simp at hz ⊢
    linear_combination hz

/-- The forward component of an unrotated vector is its component along the image of the
canonical forward axis. -/
theorem UnrotateVector_X (R : FRotator K) (V : FVector K) :
    (R.UnrotateVector V).X = FVector.DotProduct V (FRotationMatrix R).XAxis := rfl

/-- The linear component of a velocity that the axes rotation maps back from the canonical
frame, when the cross-product test passes and the plane offset from launch to target is
above the tolerance: the linear direction times the forward component of the velocity. -/
theorem GetLinearComponent_RotateVector (self : UHomingProjectileMotion K) (V : FVector K)
    (hG : self.m_Params.GravityDirection.SizeSquared = 1)
    (hcross : (FVector.CrossProduct
        (self.m_Params.TargetLocation - self.m_Params.LaunchLocation).GetSafeNormal
        self.m_Params.GravityDirection).SizeSquared > 1 / 1000)
    (hgap : SMALL_NUMBER
      < (PlaneOffset self self.m_Params.LaunchLocation self.m_Params.TargetLocation
        ).SizeSquared)
    (hL : self.m_ProjectileState.LinearDirection
      = self.GetLinearDirection self.m_Params.LaunchLocation self.m_Params.TargetLocation)
    (hV : SMALL_NUMBER < V.X * V.X) :
    self.GetLinearComponent (self.GetAxesRotation.RotateVector V)
        = self.m_ProjectileState.LinearDirection * V.X
      ∧ (self.GetLinearComponent (self.GetAxesRotation.RotateVector V)).Size = |V.X| := by
  have hunit : self.m_ProjectileState.LinearDirection.SizeSquared = 1 := by
    rw [hL, (GetLinearDirection_cases self _ _).1 hgap.le]
    exact FVector.SizeSquared_GetSafeNormal _ hgap.le
  have hXL := GetAxesRotation_XAxis self hG hcross hgap hL
  have hdot : FVector.DotProduct (self.GetAxesRotation.RotateVector V)
      self.m_ProjectileState.LinearDirection = V.X := by
    rw [← hXL]
    exact FRotationMatrix_XAxis_dot _ _
  have hlarge : SMALL_NUMBER < (self.GetAxesRotation.RotateVector V).SizeSquared := by
    have h1 := DotProduct_sq_le (self.GetAxesRotation.RotateVector V)
      self.m_ProjectileState.LinearDirection hunit
    rw [hdot] at h1
    exact lt_of_lt_of_le hV h1
  have hcomp : self.GetLinearComponent (self.GetAxesRotation.RotateVector V)
      = self.m_ProjectileState.LinearDirection * V.X := by
    rw [GetLinearComponent, if_pos hlarge, FVector.ProjectOnTo, hdot, FVector.DotProduct_self,
      hunit, div_one]
  refine ⟨hcomp, ?_⟩
  rw [hcomp, FVector.Size_eq_Sqrt, FVector.SizeSquared_mul, hunit, one_mul, Sqrt_mul_self_abs]

/-- The flight time on the branch of `GetTrajectoryDuration` for a linear speed above
`0.001`: the length of the plane offset from launch to target divided by the linear
speed. -/
theorem GetTrajectoryDuration_linear_eq (self : UHomingProjectileMotion K)
    (hG : self.m_Params.GravityDirection.SizeSquared = 1)
    (hL : self.m_ProjectileState.LinearDirection
      = self.GetLinearDirection self.m_Params.LaunchLocation self.m_Params.TargetLocation)
    (hs : self.m_ProjectileState.fLinearSpeed > 1 / 1000)
    (hgap : SMALL_NUMBER
      < (PlaneOffset self self.m_Params.LaunchLocation self.m_Params.TargetLocation
        ).SizeSquared) :
    self.GetTrajectoryDuration
      = (PlaneOffset self self.m_Params.LaunchLocation self.m_Params.TargetLocation).Size
        / self.m_ProjectileState.fLinearSpeed := by
  have hd : (self.m_Params.TargetLocation - self.m_Params.LaunchLocation).SizeSquared
      > SMALL_NUMBER := by
    rw [SizeSquared_eq_plane_add_gravity self _ _ hG]
    nlinarith [mul_self_nonneg
      (GravityOffset self self.m_Params.LaunchLocation self.m_Params.TargetLocation)]
  have hunit : self.m_ProjectileState.LinearDirection.SizeSquared = 1 := by
    rw [hL, (GetLinearDirection_cases self _ _).1 hgap.le]
    exact FVector.SizeSquared_GetSafeNormal _ hgap.le
  have hdot := DotProduct_LinearDirection self hG hgap hL
  have hcomp : (self.GetLinearComponent
      (self.m_Params.TargetLocation - self.m_Params.LaunchLocation)).Size
      = (PlaneOffset self self.m_Params.LaunchLocation self.m_Params.TargetLocation).Size := by
    rw [GetLinearComponent, if_pos hd, FVector.ProjectOnTo, FVector.DotProduct_self, hunit,
      div_one, hdot, FVector.Size_eq_Sqrt, FVector.SizeSquared_mul, hunit, one_mul,
      Sqrt_mul_self_of_nonneg _ (FVector.Size_nonneg _)]
  simp only [GetTrajectoryDuration, if_pos hs]
  rw [hcomp]

/-- The target that `CalculateLaunchVelocity` hands to the arc solver lies, in the canonical
frame, forward of the launch location by the length of the plane offset from launch to
target, when the cross-product test passes and that offset is above the tolerance. -/
theorem SetupHPM_transformed_target (Arc : ArcSolver K) (self : UHomingProjectileMotion K)
    (Ctx : UObject K) (LaunchParams : FProjectileParams K) (XVel YVel : FVector K)
    (hG : LaunchParams.GravityDirection.SizeSquared = 1)
    (hcross : (FVector.CrossProduct
        (LaunchParams.TargetLocation - LaunchParams.LaunchLocation).GetSafeNormal
        LaunchParams.GravityDirection).SizeSquared > 1 / 1000)
    (hgap : SMALL_NUMBER
      < (FVector.PointPlaneProject LaunchParams.TargetLocation LaunchParams.LaunchLocation
            LaunchParams.GravityDirection
          - FVector.PointPlaneProject LaunchParams.LaunchLocation LaunchParams.LaunchLocation
            LaunchParams.GravityDirection).SizeSquared) :
    (LaunchParams.LaunchLocation
        + (SetupHPM Arc self (some Ctx) LaunchParams XVel YVel).GetAxesRotation.UnrotateVector
            (LaunchParams.TargetLocation - LaunchParams.LaunchLocation)
        - LaunchParams.LaunchLocation).X
      = (FVector.PointPlaneProject LaunchParams.TargetLocation LaunchParams.LaunchLocation
            LaunchParams.GravityDirection
          - FVector.PointPlaneProject LaunchParams.LaunchLocation LaunchParams.LaunchLocation
            LaunchParams.GravityDirection).Size := by
  obtain ⟨_, hP, hL, _, _, _, _, _, _, _⟩ :=
    SetupHPM_fields Arc self Ctx LaunchParams XVel YVel
  generalize SetupHPM Arc self (some Ctx) LaunchParams XVel YVel = S at *
  have hGS : S.m_Params.GravityDirection.SizeSquared = 1 := by rw [hP]; exact hG
  have hcrossS : (FVector.CrossProduct
      (S.m_Params.TargetLocation - S.m_Params.LaunchLocation).GetSafeNormal
      S.m_Params.GravityDirection).SizeSquared > 1 / 1000 := by rw [hP]; exact hcross
  have hgapS : SMALL_NUMBER
      < (PlaneOffset S S.m_Params.LaunchLocation S.m_Params.TargetLocation).SizeSquared := by
    rw [PlaneOffset, hP]; exact hgap
  have hLS : S.m_ProjectileState.LinearDirection
      = S.GetLinearDirection S.m_Params.LaunchLocation S.m_Params.TargetLocation := by
    rw [hP]; exact hL
  have hdot := DotProduct_LinearDirection S hGS hgapS hLS
  rw [PlaneOffset, hP] at hdot
  rw [FVector.add_sub_cancel_left, UnrotateVector_X, GetAxesRotation_XAxis S hGS hcrossS hgapS hLS]
  exact hdot

/-- What `SetupHPM` stores when the cross-product test passes, the plane offset from launch
to target is above the tolerance and the arc solver answers, for the transformed target, a
velocity whose forward component exceeds `0.001` in absolute value: the launch velocity is
that answer rotated back, the linear speed is the absolute value of its forward component,
and the flight time is the length of the plane offset divided by that speed. -/
theorem SetupHPM_off_axis (Arc : ArcSolver K) (self : UHomingProjectileMotion K)
    (Ctx : UObject K) (LaunchParams : FProjectileParams K) (XVel YVel V : FVector K)
    (hG : LaunchParams.GravityDirection.SizeSquared = 1)
    (hcross : (FVector.CrossProduct
        (LaunchParams.TargetLocation - LaunchParams.LaunchLocation).GetSafeNormal
        LaunchParams.GravityDirection).SizeSquared > 1 / 1000)
    (hgap : SMALL_NUMBER
      < (FVector.PointPlaneProject LaunchParams.TargetLocation LaunchParams.LaunchLocation
            LaunchParams.GravityDirection
          - FVector.PointPlaneProject LaunchParams.LaunchLocation LaunchParams.LaunchLocation
            LaunchParams.GravityDirection).SizeSquared)
    (hArc : Arc (some Ctx) LaunchParams.LaunchLocation
        (LaunchParams.LaunchLocation
          + (SetupHPM Arc self (some Ctx) LaunchParams XVel YVel).GetAxesRotation.UnrotateVector
              (LaunchParams.TargetLocation - LaunchParams.LaunchLocation))
        (-LaunchParams.fGravity) LaunchParams.ArcParameter = some V)
    (hV : 1 / 1000 < |V.X|) :
    (SetupHPM Arc self (some Ctx) LaunchParams XVel YVel).m_ProjectileState.LaunchVelocity
        = (SetupHPM Arc self (some Ctx) LaunchParams XVel YVel).GetAxesRotation.RotateVector V
      ∧ (SetupHPM Arc self (some Ctx) LaunchParams XVel YVel).m_ProjectileState.fLinearSpeed
        = |V.X|
      ∧ (SetupHPM Arc self (some Ctx) LaunchParams XVel YVel).m_ProjectileState.fTotalTime
        = (FVector.PointPlaneProject LaunchParams.TargetLocation LaunchParams.LaunchLocation
              LaunchParams.GravityDirection
            - FVector.PointPlaneProject LaunchParams.LaunchLocation
              LaunchParams.LaunchLocation LaunchParams.GravityDirection).Size / |V.X|
      ∧ 0 < (SetupHPM Arc self (some Ctx) LaunchParams XVel YVel
          ).m_ProjectileState.fTotalTime := by
  obtain ⟨hC, hP, hL, hLV, _, hXV, hSp, hTT, _, _⟩ :=
    SetupHPM_fields Arc self Ctx LaunchParams XVel YVel
  generalize SetupHPM Arc self (some Ctx) LaunchParams XVel YVel = S at *
  have hGS : S.m_Params.GravityDirection.SizeSquared = 1 := by rw [hP]; exact hG
  have hcrossS : (FVector.CrossProduct
      (S.m_Params.TargetLocation - S.m_Params.LaunchLocation).GetSafeNormal
      S.m_Params.GravityDirection).SizeSquared > 1 / 1000 := by rw [hP]; exact hcross
  have hgapS : SMALL_NUMBER
      < (PlaneOffset S S.m_Params.LaunchLocation S.m_Params.TargetLocation).SizeSquared := by
    rw [PlaneOffset, hP]; exact hgap
  have hLS : S.m_ProjectileState.LinearDirection
      = S.GetLinearDirection S.m_Params.LaunchLocation S.m_Params.TargetLocation := by
    rw [hP]; exact hL
  have hVV : SMALL_NUMBER < V.X * V.X := by
    have h1 : (1 / 1000 : K) * (1 / 1000) < |V.X| * |V.X| :=
      mul_self_lt_mul_self (by norm_num) hV
    rw [abs_mul_abs_self] at h1
    exact lt_trans (by norm_num [SMALL_NUMBER]) h1
  have hLVv : S.m_ProjectileState.LaunchVelocity = S.GetAxesRotation.RotateVector V := by
    rw [hLV]
    simp only [CalculateLaunchVelocity, hC, hP, hArc, if_pos hcross]
  have hspeed : S.m_ProjectileState.fLinearSpeed = |V.X| := by
    rw [hSp, hXV, hLVv]
    exact (GetLinearComponent_RotateVector S V hGS hcrossS hgapS hLS hVV).2
  have hval := GetTrajectoryDuration_linear_eq S hGS hLS (by rw [hspeed]; exact hV) hgapS
  rw [PlaneOffset, hP, hspeed] at hval
  refine ⟨hLVv, hspeed, by rw [hTT]; exact hval, ?_⟩
  rw [hTT]
  exact GetTrajectoryDuration_linear_pos S hGS hLS (by rw [hspeed]; exact hV) hgapS

/-- The two tests on the launch parameters of a flight along the X axis with gravity along
-Z: the cross-product test passes and the plane offset is above the tolerance. -/
theorem Sample_launch_tests (a g arc : K) (ha : 0 < a) (hge : SMALL_NUMBER < a * a) :
    (FVector.CrossProduct
        ((⟨FVector.ZeroVector, ⟨a, 0, 0⟩, FVector.DownVector, g, arc⟩
            : FProjectileParams K).TargetLocation
          - (⟨FVector.ZeroVector, ⟨a, 0, 0⟩, FVector.DownVector, g, arc⟩
            : FProjectileParams K).LaunchLocation).GetSafeNormal
        (⟨FVector.ZeroVector, ⟨a, 0, 0⟩, FVector.DownVector, g, arc⟩
          : FProjectileParams K).GravityDirection).SizeSquared > 1 / 1000
      ∧ SMALL_NUMBER
        < (FVector.PointPlaneProject
              (⟨FVector.ZeroVector, ⟨a, 0, 0⟩, FVector.DownVector, g, arc⟩
                : FProjectileParams K).TargetLocation
              (⟨FVector.ZeroVector, ⟨a, 0, 0⟩, FVector.DownVector, g, arc⟩
                : FProjectileParams K).LaunchLocation
              (⟨FVector.ZeroVector, ⟨a, 0, 0⟩, FVector.DownVector, g, arc⟩
                : FProjectileParams K).GravityDirection
            - FVector.PointPlaneProject
              (⟨FVector.ZeroVector, ⟨a, 0, 0⟩, FVector.DownVector, g, arc⟩
                : FProjectileParams K).LaunchLocation
              (⟨FVector.ZeroVector, ⟨a, 0, 0⟩, FVector.DownVector, g, arc⟩
                : FProjectileParams K).LaunchLocation
              (⟨FVector.ZeroVector, ⟨a, 0, 0⟩, FVector.DownVector, g, arc⟩
                : FProjectileParams K).GravityDirection).SizeSquared := by
  have hd : (⟨a, 0, 0⟩ : FVector K) - FVector.ZeroVector = (⟨1, 0, 0⟩ : FVector K) * a := by
    ext <;> simp [FVector.ZeroVector]
  have hn : ((⟨1, 0, 0⟩ : FVector K) * a).GetSafeNormal = ⟨1, 0, 0⟩ :=
    GetSafeNormal_unit_mul_pos _ a (by norm_num [FVector.SizeSquared]) ha hge.le
  constructor
  · show (FVector.CrossProduct ((⟨a, 0, 0⟩ : FVector K) - FVector.ZeroVector).GetSafeNormal
      (FVector.DownVector : FVector K)).SizeSquared > (1 / 1000 : K)
    rw [hd, hn]
    norm_num [FVector.CrossProduct, FVector.SizeSquared, FVector.DownVector]
  · show SMALL_NUMBER < (FVector.PointPlaneProject (⟨a, 0, 0⟩ : FVector K) FVector.ZeroVector
        FVector.DownVector
      - FVector.PointPlaneProject (FVector.ZeroVector : FVector K) FVector.ZeroVector
        FVector.DownVector).SizeSquared
    have h1 : (FVector.PointPlaneProject (⟨a, 0, 0⟩ : FVector K) FVector.ZeroVector
          FVector.DownVector
        - FVector.PointPlaneProject (FVector.ZeroVector : FVector K) FVector.ZeroVector
          FVector.DownVector).SizeSquared = a * a := by
      simp [FVector.PointPlaneProject, FVector.PointPlaneDist, FVector.DotProduct,
        FVector.SizeSquared, FVector.ZeroVector, FVector.DownVector]
    rw [h1]
    exact hge

/-- With exact subtraction the remaining time of the object after any number of calls is
the one that `UpdateHPM_fTimeLeft_calls` computes. -/
theorem UpdateHPM_calls_fTimeLeft (Args : ℕ → FUpdateArgs K) (self : UHomingProjectileMotion K)
    (Ctx : UObject K) (World : UWorld K)
    (h : self.WorldContextObj = some Ctx) (hw : Ctx.GetWorld = some World) (k : ℕ) :
    UpdateHPM_fTimeLeft_calls id World.GetDeltaSeconds
        (some self.m_ProjectileState.fTimeLeft) k
      = some (UpdateHPM_calls Args self k).m_ProjectileState.fTimeLeft := by
  induction k with
  | zero => rfl
  | succ n ih =>
    have hc : (UpdateHPM_calls Args self n).WorldContextObj = some Ctx := by
      rw [UpdateHPM_calls_context, h]
    rw [UpdateHPM_fTimeLeft_calls, ih, UpdateHPM_calls, UpdateHPM_fTimeLeft]
    rcases le_or_lt (UpdateHPM_calls Args self n).m_ProjectileState.fTimeLeft 0 with hle | hlt
    · rw [if_pos hle, UpdateHPM_of_time_up _ _ _ _ _ _ hle]
    · rw [if_neg (not_le.mpr hlt), UpdateHPM_effective _ _ _ _ _ _ Ctx World hc hw hlt]
      rfl

/-- What `SetupHPM` stores when the cross-product test of `CalculateLaunchVelocity` fails,
the target is farther than the tolerance and lower than the launch location along gravity:
no launch velocity, no linear speed, and the flight time of a fall from rest,
`sqrt (2 * A * D) / A`. -/
theorem SetupHPM_below_near_axis (Arc : ArcSolver K) (self : UHomingProjectileMotion K)
    (Ctx : UObject K) (LaunchParams : FProjectileParams K) (XVel YVel : FVector K)
    (hG : LaunchParams.GravityDirection.SizeSquared = 1) (hg : 0 < LaunchParams.fGravity)
    (hd : SMALL_NUMBER
      < (LaunchParams.TargetLocation - LaunchParams.LaunchLocation).SizeSquared)
    (hcross : ¬ (FVector.CrossProduct
        (LaunchParams.TargetLocation - LaunchParams.LaunchLocation).GetSafeNormal
        LaunchParams.GravityDirection).SizeSquared > 1 / 1000)
    (hdown : 0 < FVector.DotProduct
        (LaunchParams.TargetLocation - LaunchParams.LaunchLocation)
        LaunchParams.GravityDirection) :
    (SetupHPM Arc self (some Ctx) LaunchParams XVel YVel).m_ProjectileState.LaunchVelocity
        = FVector.ZeroVector
      ∧ (SetupHPM Arc self (some Ctx) LaunchParams XVel YVel).m_ProjectileState.fLinearSpeed
        = 0
      ∧ (SetupHPM Arc self (some Ctx) LaunchParams XVel YVel).m_ProjectileState.fTotalTime
        = FMath.Sqrt (2
              * (LaunchParams.fGravity
                * FVector.DotProduct
                    (LaunchParams.TargetLocation - LaunchParams.LaunchLocation).GetSafeNormal
                    LaunchParams.GravityDirection)
              * FVector.DotProduct
                  (LaunchParams.TargetLocation - LaunchParams.LaunchLocation)
                  LaunchParams.GravityDirection)
          / (LaunchParams.fGravity
            * FVector.DotProduct
                (LaunchParams.TargetLocation - LaunchParams.LaunchLocation).GetSafeNormal
                LaunchParams.GravityDirection)
      ∧ 0 < (SetupHPM Arc self (some Ctx) LaunchParams XVel YVel
          ).m_ProjectileState.fTotalTime := by
  obtain ⟨_, hP, _, hLV, _, hXV, hSp, hTT, _, _⟩ :=
    SetupHPM_fields Arc self Ctx LaunchParams XVel YVel
  generalize SetupHPM Arc self (some Ctx) LaunchParams XVel YVel = S at *
  have hsz := FVector.Size_pos_of_large _ hd.le
  have hn : FVector.DotProduct
      (LaunchParams.TargetLocation - LaunchParams.LaunchLocation).GetSafeNormal
      LaunchParams.GravityDirection
      = FVector.DotProduct (LaunchParams.TargetLocation - LaunchParams.LaunchLocation)
          LaunchParams.GravityDirection
        * (1 / (LaunchParams.TargetLocation - LaunchParams.LaunchLocation).Size) := by
    rw [FVector.GetSafeNormal_of_large _ hd.le, FVector.DotProduct_mul_left]
  have hnpos : 0 < FVector.DotProduct
      (LaunchParams.TargetLocation - LaunchParams.LaunchLocation).GetSafeNormal
      LaunchParams.GravityDirection := by
    rw [hn]; exact mul_pos hdown (by positivity)
  have hLVz : S.m_ProjectileState.LaunchVelocity = FVector.ZeroVector := by
    rw [hLV]
    simp only [CalculateLaunchVelocity, hP, if_neg hcross, if_neg (not_lt.mpr hnpos.le)]
  have hsp : S.m_ProjectileState.fLinearSpeed = 0 := by
    rw [hSp, hXV, hLVz, GetLinearComponent_ZeroVector, FVector.Size_ZeroVector]
  have hs : ¬ S.m_ProjectileState.fLinearSpeed > 1 / 1000 := by
    rw [hsp]; norm_num
  have hD : (S.GetGravityComponent
      (LaunchParams.TargetLocation - LaunchParams.LaunchLocation)).Size
      = FVector.DotProduct (LaunchParams.TargetLocation - LaunchParams.LaunchLocation)
          LaunchParams.GravityDirection := by
    have h1 := GetGravityComponent_Size S
      (LaunchParams.TargetLocation - LaunchParams.LaunchLocation) (by rw [hP]; exact hG) hd
    rw [hP, abs_of_pos hdown] at h1
    exact h1
  have hval : S.GetTrajectoryDuration
      = FMath.Sqrt (2
            * (LaunchParams.fGravity
              * FVector.DotProduct
                  (LaunchParams.TargetLocation - LaunchParams.LaunchLocation).GetSafeNormal
                  LaunchParams.GravityDirection)
            * FVector.DotProduct
                (LaunchParams.TargetLocation - LaunchParams.LaunchLocation)
                LaunchParams.GravityDirection)
        / (LaunchParams.fGravity
          * FVector.DotProduct
              (LaunchParams.TargetLocation - LaunchParams.LaunchLocation).GetSafeNormal
              LaunchParams.GravityDirection) := by
    simp only [GetTrajectoryDuration, if_neg hs, hLVz, FVector.Size_ZeroVector, hP, hD,
      mul_zero, zero_add, sub_zero]
  have hA : 0 < LaunchParams.fGravity
      * FVector.DotProduct
          (LaunchParams.TargetLocation - LaunchParams.LaunchLocation).GetSafeNormal
          LaunchParams.GravityDirection := mul_pos hg hnpos
  refine ⟨hLVz, hsp, by rw [hTT]; exact hval, ?_⟩
  rw [hTT, hval]
  exact div_pos (Sqrt_pos _ (mul_pos (mul_pos two_pos hA) hdown)) hA

/-- The linear speed that `SetupHPM` stores when the cross-product test passes, the plane
offset from launch to target is above the tolerance and the arc solver answers, for the
transformed target, a velocity whose forward component has a square above the tolerance. -/
theorem SetupHPM_off_axis_speed (Arc : ArcSolver K) (self : UHomingProjectileMotion K)
    (Ctx : UObject K) (LaunchParams : FProjectileParams K) (XVel YVel V : FVector K)
    (hG : LaunchParams.GravityDirection.SizeSquared = 1)
    (hcross : (FVector.CrossProduct
        (LaunchParams.TargetLocation - LaunchParams.LaunchLocation).GetSafeNormal
        LaunchParams.GravityDirection).SizeSquared > 1 / 1000)
    (hgap : SMALL_NUMBER
      < (FVector.PointPlaneProject LaunchParams.TargetLocation LaunchParams.LaunchLocation
            LaunchParams.GravityDirection
          - FVector.PointPlaneProject LaunchParams.LaunchLocation LaunchParams.LaunchLocation
            LaunchParams.GravityDirection).SizeSquared)
    (hArc : Arc (some Ctx) LaunchParams.LaunchLocation
        (LaunchParams.LaunchLocation
          + (SetupHPM Arc self (some Ctx) LaunchParams XVel YVel).GetAxesRotation.UnrotateVector
              (LaunchParams.TargetLocation - LaunchParams.LaunchLocation))
        (-LaunchParams.fGravity) LaunchParams.ArcParameter = some V)
    (hVV : SMALL_NUMBER < V.X * V.X) :
    (SetupHPM Arc self (some Ctx) LaunchParams XVel YVel).m_ProjectileState.fLinearSpeed
      = |V.X| := by
  obtain ⟨hC, hP, hL, hLV, _, hXV, hSp, _, _, _⟩ :=
    SetupHPM_fields Arc self Ctx LaunchParams XVel YVel
  generalize SetupHPM Arc self (some Ctx) LaunchParams XVel YVel = S at *
  have hGS : S.m_Params.GravityDirection.SizeSquared = 1 := by rw [hP]; exact hG
  have hcrossS : (FVector.CrossProduct
      (S.m_Params.TargetLocation - S.m_Params.LaunchLocation).GetSafeNormal
      S.m_Params.GravityDirection).SizeSquared > 1 / 1000 := by rw [hP]; exact hcross
  have hgapS : SMALL_NUMBER
      < (PlaneOffset S S.m_Params.LaunchLocation S.m_Params.TargetLocation).SizeSquared := by
    rw [PlaneOffset, hP]; exact hgap
  have hLS : S.m_ProjectileState.LinearDirection
      = S.GetLinearDirection S.m_Params.LaunchLocation S.m_Params.TargetLocation := by
    rw [hP]; exact hL
  have hLVv : S.m_ProjectileState.LaunchVelocity = S.GetAxesRotation.RotateVector V := by
    rw [hLV]
    simp only [CalculateLaunchVelocity, hC, hP, hArc, if_pos hcross]
  rw [hSp, hXV, hLVv]
  exact (GetLinearComponent_RotateVector S V hGS hcrossS hgapS hLS hVV).2

/-- The flight time of `GetTrajectoryDuration` is `(V - U) / 0` when the linear speed is not
above `0.001` and the target is level with the launch location. -/
theorem GetTrajectoryDuration_level (self : UHomingProjectileMotion K)
    (hs : ¬ self.m_ProjectileState.fLinearSpeed > 1 / 1000)
    (hlevel : FVector.DotProduct
        (self.m_Params.TargetLocation - self.m_Params.LaunchLocation).GetSafeNormal
        self.m_Params.GravityDirection = 0) :
    self.GetTrajectoryDuration = 0 := by
  simp only [GetTrajectoryDuration, if_neg hs, hlevel, mul_zero, div_zero]

/-- The flight time that `SetupHPM` stores for a target level with the launch location
when the arc solver answers a velocity whose forward component is not above `0.001` in
absolute value: `A` is 0 and the time is `(V - U) / 0`. -/
theorem SetupHPM_level_slow (Arc : ArcSolver K) (self : UHomingProjectileMotion K)
    (Ctx : UObject K) (LaunchParams : FProjectileParams K) (XVel YVel V : FVector K)
    (hG : LaunchParams.GravityDirection.SizeSquared = 1)
    (hcross : (FVector.CrossProduct
        (LaunchParams.TargetLocation - LaunchParams.LaunchLocation).GetSafeNormal
        LaunchParams.GravityDirection).SizeSquared > 1 / 1000)
    (hgap : SMALL_NUMBER
      < (FVector.PointPlaneProject LaunchParams.TargetLocation LaunchParams.LaunchLocation
            LaunchParams.GravityDirection
          - FVector.PointPlaneProject LaunchParams.LaunchLocation LaunchParams.LaunchLocation
            LaunchParams.GravityDirection).SizeSquared)
    (hArc : Arc (some Ctx) LaunchParams.LaunchLocation
        (LaunchParams.LaunchLocation
          + (SetupHPM Arc self (some Ctx) LaunchParams XVel YVel).GetAxesRotation.UnrotateVector
              (LaunchParams.TargetLocation - LaunchParams.LaunchLocation))
        (-LaunchParams.fGravity) LaunchParams.ArcParameter = some V)
    (hVV : SMALL_NUMBER < V.X * V.X) (hV : |V.X| ≤ 1 / 1000)
    (hlevel : FVector.DotProduct
        (LaunchParams.TargetLocation - LaunchParams.LaunchLocation).GetSafeNormal
        LaunchParams.GravityDirection = 0) :
    (SetupHPM Arc self (some Ctx) LaunchParams XVel YVel).m_ProjectileState.fLinearSpeed
        = |V.X|
      ∧ (SetupHPM Arc self (some Ctx) LaunchParams XVel YVel).m_ProjectileState.fTotalTime
        = 0 := by
  have hspeed := SetupHPM_off_axis_speed Arc self Ctx LaunchParams XVel YVel V hG hcross hgap
    hArc hVV
  obtain ⟨_, hP, _, _, _, _, _, hTT, _, _⟩ :=
    SetupHPM_fields Arc self Ctx LaunchParams XVel YVel
  generalize SetupHPM Arc self (some Ctx) LaunchParams XVel YVel = S at *
  refine ⟨hspeed, ?_⟩
  rw [hTT]
  exact GetTrajectoryDuration_level S (by rw [hspeed]; exact not_lt.mpr hV)
    (by rw [hP]; exact hlevel)

/-- A target on the X axis is level with a launch at the origin when gravity is along
-Z. -/
theorem Sample_level (a g arc : K) :
    FVector.DotProduct
        ((⟨FVector.ZeroVector, ⟨a, 0, 0⟩, FVector.DownVector, g, arc⟩
            : FProjectileParams K).TargetLocation
          - (⟨FVector.ZeroVector, ⟨a, 0, 0⟩, FVector.DownVector, g, arc⟩
            : FProjectileParams K).LaunchLocation).GetSafeNormal
        (⟨FVector.ZeroVector, ⟨a, 0, 0⟩, FVector.DownVector, g, arc⟩
          : FProjectileParams K).GravityDirection = 0 := by
  apply FVector.DotProduct_GetSafeNormal
  simp [FVector.DotProduct, FVector.ZeroVector, FVector.DownVector]

/-- The end point that `CalculateLaunchVelocity` hands to the arc solver for a flight along
the X axis with gravity along -Z is the target itself. -/
theorem Sample_request (Arc : ArcSolver K) (self : UHomingProjectileMotion K)
    (Ctx : UObject K) (XVel YVel : FVector K) (a g arc : K) (ha : 0 < a)
    (hge : SMALL_NUMBER ≤ a * a) :
    (FVector.ZeroVector : FVector K)
        + (SetupHPM Arc self (some Ctx)
            ⟨FVector.ZeroVector, ⟨a, 0, 0⟩, FVector.DownVector, g, arc⟩ XVel YVel
            ).GetAxesRotation.UnrotateVector (⟨a, 0, 0⟩ - FVector.ZeroVector)
      = ⟨a, 0, 0⟩ := by
  have hR := Sample_axes_rotation
    (SetupHPM Arc self (some Ctx) ⟨FVector.ZeroVector, ⟨a, 0, 0⟩, FVector.DownVector, g, arc⟩
      XVel YVel) a ha hge rfl rfl rfl
  rw [FRotator.UnrotateVector, hR]
  ext <;> simp [FMatrix.GetTransposed, FMatrix.TransformVector, FVector.ZeroVector]

/-- The tests on the launch parameters of a target `s` below the launch location on the
gravity axis: the target is farther than the tolerance, the cross-product test fails and
the target is lower along gravity. -/
theorem SampleVertical_tests (s g : K) (hs : 0 < s) (hl : SMALL_NUMBER < s * s) :
    SMALL_NUMBER
        < ((SampleVertical s g).m_Params.TargetLocation
          - (SampleVertical s g).m_Params.LaunchLocation).SizeSquared
      ∧ ¬ (FVector.CrossProduct
          ((SampleVertical s g).m_Params.TargetLocation
            - (SampleVertical s g).m_Params.LaunchLocation).GetSafeNormal
          (SampleVertical s g).m_Params.GravityDirection).SizeSquared > 1 / 1000
      ∧ 0 < FVector.DotProduct
          ((SampleVertical s g).m_Params.TargetLocation
            - (SampleVertical s g).m_Params.LaunchLocation)
          (SampleVertical s g).m_Params.GravityDirection := by
  have hD : (FVector.DownVector : FVector K).SizeSquared = 1 := by
    norm_num [FVector.SizeSquared, FVector.DownVector]
  have hd : (SampleVertical s g).m_Params.TargetLocation
      - (SampleVertical s g).m_Params.LaunchLocation = (FVector.DownVector : FVector K) * s := by
    simp only [SampleVertical]
    exact FVector.add_sub_cancel_left _ _
  have hG : (SampleVertical s g).m_Params.GravityDirection = FVector.DownVector := rfl
  rw [hd, hG, GetSafeNormal_unit_mul_pos _ s hD hs hl.le, CrossProduct_self_SizeSquared,
    FVector.SizeSquared_mul, hD, one_mul, FVector.DotProduct_mul_left,
    FVector.DotProduct_self, hD, one_mul]
  exact ⟨hl, by norm_num, hs⟩

/-- When the cross-product test of `CalculateLaunchVelocity` passes for a unit gravity
direction, the axes rotation is built from the launch parameters alone: two objects with
the same parameters have the same axes rotation, whatever their projectile states. -/
theorem GetAxesRotation_of_params (self other : UHomingProjectileMotion K)
    (hP : other.m_Params = self.m_Params)
    (hG : self.m_Params.GravityDirection.SizeSquared = 1)
    (hcross : (FVector.CrossProduct
        (self.m_Params.TargetLocation - self.m_Params.LaunchLocation).GetSafeNormal
        self.m_Params.GravityDirection).SizeSquared > 1 / 1000) :
    other.GetAxesRotation = self.GetAxesRotation := by
  have hbig : (FVector.VectorPlaneProject
      (self.m_Params.TargetLocation - self.m_Params.LaunchLocation).GetSafeNormal
      self.m_Params.GravityDirection).SizeSquared > 1 / 10000 := by
    rw [VectorPlaneProject_SizeSquared _ _ hG]
    exact lt_trans (by norm_num) hcross
  simp only [GetAxesRotation, hP, if_pos hbig]

end CallLemmas

/-! ## Lemmas on the remaining time as a `float` -/

section RemainingTimeLemmas

variable {K : Type} [LinearOrderedField K]

/-- While the subtractions are exact the remaining time after `k` calls is
`T - k * DeltaTime`, up to the first `k` at which that is not positive. -/
theorem UpdateHPM_fTimeLeft_calls_exact (Round : K → K) (DeltaTime T : K) (N : ℕ)
    (hpos : ∀ k : ℕ, k < N → 0 < T - k * DeltaTime)
    (hexact : ∀ k : ℕ, k < N →
      Round (T - ((k : K) + 1) * DeltaTime) = T - ((k : K) + 1) * DeltaTime)
    (k : ℕ) (hk : k ≤ N) :
    UpdateHPM_fTimeLeft_calls Round DeltaTime (some T) k = some (T - k * DeltaTime) := by
  induction k with
  | zero => simp [UpdateHPM_fTimeLeft_calls]
  | succ n ih =>
    have hlt : n < N := hk
    rw [UpdateHPM_fTimeLeft_calls, ih (Nat.le_of_lt hlt), UpdateHPM_fTimeLeft,
      if_neg (not_le.mpr (hpos n hlt))]
    have harg : T - (n : K) * DeltaTime - DeltaTime = T - ((n : K) + 1) * DeltaTime := by
      ring
    rw [harg, hexact n hlt]
    push_cast
    rfl

/-- Under any rounding, once the remaining time is a number that is not positive, every
later call leaves it as it is. -/
theorem UpdateHPM_fTimeLeft_calls_stay (Round : K → K) (DeltaTime : K) (x : Option K)
    (n m : ℕ) (t : K) (hnm : n ≤ m)
    (hn : UpdateHPM_fTimeLeft_calls Round DeltaTime x n = some t) (ht : t ≤ 0) :
    UpdateHPM_fTimeLeft_calls Round DeltaTime x m = some t := by
  induction m, hnm using Nat.le_induction with
  | base => exact hn
  | succ k _ ih => rw [UpdateHPM_fTimeLeft_calls, ih, UpdateHPM_fTimeLeft, if_pos ht]

/-- Under any rounding a NaN remaining time stays a NaN: no call is a no-op. -/
theorem UpdateHPM_fTimeLeft_calls_NaN (Round : K → K) (DeltaTime : K) (n : ℕ) :
    UpdateHPM_fTimeLeft_calls Round DeltaTime none n = none := by
  induction n with
  | zero => rfl
  | succ k ih => rw [UpdateHPM_fTimeLeft_calls, ih]; rfl

end RemainingTimeLemmas

/-! ## Theorems -/

section Claims

variable {K : Type} [LinearOrderedField K] [FloorRing K] [FMath K]

open UHomingProjectileMotion

/-! ### Arrival -/

/-- C1, as amended. For an object with a valid context whose frames last `dt > 0`, remaining
flight time `N * dt` with `N` at least 2, a unit gravity direction, a cached vertical
velocity along gravity and a target that stays where it is, whose plane offset from the
start is the zero vector or has squared length at least `N * N * SMALL_NUMBER` (so that
the normalisation keeps it at every call): if the caller moves the location by
`NetVelocity * dt` after each `UpdateHPM` call, then after the `N`-th call the remaining
time is zero and the location is the target. -/
theorem arrival (self : UHomingProjectileMotion K) (Start Target : FVector K)
    (TimeStamp : ℕ → K) (XVel YVel : ℕ → FVector K) (Ctx : UObject K) (World : UWorld K)
    (N : ℕ) (v : K)
    (h : self.WorldContextObj = some Ctx) (hw : Ctx.GetWorld = some World)
    (hdt : 0 < World.GetDeltaSeconds) (hN : 2 ≤ N)
    (hT : self.m_ProjectileState.fTimeLeft = N * World.GetDeltaSeconds)
    (hG : self.m_Params.GravityDirection.SizeSquared = 1)
    (hY : self.m_ProjectileState.YVel = self.m_Params.GravityDirection * v)
    (hgap : PlaneOffset self Start Target = FVector.ZeroVector
      ∨ SMALL_NUMBER * ((N : K) * N) ≤ (PlaneOffset self Start Target).SizeSquared) :
    (Integrate Target World.GetDeltaSeconds TimeStamp XVel YVel self Start N).2 = Target
      ∧ (Integrate Target World.GetDeltaSeconds TimeStamp XVel YVel self Start N
          ).1.m_ProjectileState.fTimeLeft = 0 := by
  obtain ⟨_, _, it, ig, w, _, ie⟩ :=
    Integrate_invariant self Start Target TimeStamp XVel YVel Ctx World N v h hw hdt hN hT hG
      hY hgap N le_rfl
  rw [sub_self] at it ig ie
  rw [zero_mul] at it
  refine ⟨?_, it⟩
  have hy : GravityOffset self
      (Integrate Target World.GetDeltaSeconds TimeStamp XVel YVel self Start N).2 Target
      = 0 := by
    simpa using ie
  rw [PlaneOffset_eq, hy] at ig
  have hX := congrArg FVector.X ig
  have hYc := congrArg FVector.Y ig
  have hZ := congrArg FVector.Z ig
  simp only [FVector.sub_X, FVector.sub_Y, FVector.sub_Z, FVector.mul_X, FVector.mul_Y,
    FVector.mul_Z, mul_zero, sub_zero, zero_div] at hX hYc hZ
  ext
  · linarith
  · linarith
  · linarith

/-- C1 fails as stated, in two ways.  With `N = 1` (remaining time 1, frames of 1, gravity
along -Z, no cached vertical velocity, start at the origin, target at `(4, 0, -1)`) the one
call returns the velocity `(4, 0, -2)` and the location ends at `(4, 0, -2)`, twice as far
along gravity as the target.  With `N = 2` (remaining time 2) and the target at
`(1 / 100000, 0, 0)`, closer in the plane than the tolerance of the normalisation, both
calls steer along the fallback direction `(-1, 0, 0)` and the location ends at
`(-2 / 100000, 0, 0)`. -/
theorem arrival_fails :
    ((0 : ℝ) < (SampleFlight (1 : ℝ) 1 1 0).m_ProjectileState.fTimeLeft
      ∧ (SampleFlight (1 : ℝ) 1 1 0).m_Params.GravityDirection.SizeSquared = 1
      ∧ (SampleFlight (1 : ℝ) 1 1 0).m_ProjectileState.YVel
        = (SampleFlight (1 : ℝ) 1 1 0).m_Params.GravityDirection * (0 : ℝ)
      ∧ (SampleFlight (1 : ℝ) 1 1 0).m_ProjectileState.fTimeLeft = ((1 : ℕ) : ℝ) * 1
      ∧ (Integrate ⟨4, 0, -1⟩ 1 (fun _ => 0) (fun _ => FVector.ZeroVector)
          (fun _ => FVector.ZeroVector) (SampleFlight (1 : ℝ) 1 1 0) ⟨0, 0, 0⟩ 1
          ).1.m_ProjectileState.fTimeLeft = 0
      ∧ (Integrate ⟨4, 0, -1⟩ 1 (fun _ => 0) (fun _ => FVector.ZeroVector)
          (fun _ => FVector.ZeroVector) (SampleFlight (1 : ℝ) 1 1 0) ⟨0, 0, 0⟩ 1).2
        = ⟨4, 0, -2⟩
      ∧ (Integrate ⟨4, 0, -1⟩ 1 (fun _ => 0) (fun _ => FVector.ZeroVector)
          (fun _ => FVector.ZeroVector) (SampleFlight (1 : ℝ) 1 1 0) ⟨0, 0, 0⟩ 1).2
        ≠ ⟨4, 0, -1⟩)
    ∧ ((0 : ℝ) < (SampleFlight (1 : ℝ) 2 2 0).m_ProjectileState.fTimeLeft
      ∧ (SampleFlight (1 : ℝ) 2 2 0).m_Params.GravityDirection.SizeSquared = 1
      ∧ (SampleFlight (1 : ℝ) 2 2 0).m_ProjectileState.YVel
        = (SampleFlight (1 : ℝ) 2 2 0).m_Params.GravityDirection * (0 : ℝ)
      ∧ (SampleFlight (1 : ℝ) 2 2 0).m_ProjectileState.fTimeLeft = ((2 : ℕ) : ℝ) * 1
      ∧ (Integrate ⟨1 / 100000, 0, 0⟩ 1 (fun _ => 0) (fun _ => FVector.ZeroVector)
          (fun _ => FVector.ZeroVector) (SampleFlight (1 : ℝ) 2 2 0) ⟨0, 0, 0⟩ 2
          ).1.m_ProjectileState.fTimeLeft = 0
      ∧ (Integrate ⟨1 / 100000, 0, 0⟩ 1 (fun _ => 0) (fun _ => FVector.ZeroVector)
          (fun _ => FVector.ZeroVector) (SampleFlight (1 : ℝ) 2 2 0) ⟨0, 0, 0⟩ 2).2
        = ⟨-2 / 100000, 0, 0⟩
      ∧ (Integrate ⟨1 / 100000, 0, 0⟩ 1 (fun _ => 0) (fun _ => FVector.ZeroVector)
          (fun _ => FVector.ZeroVector) (SampleFlight (1 : ℝ) 2 2 0) ⟨0, 0, 0⟩ 2).2
        ≠ ⟨1 / 100000, 0, 0⟩) := by
  have hGu : ∀ a b c d : ℝ, (SampleFlight a b c d).m_Params.GravityDirection.SizeSquared = 1 := by
    intro a b c d
    norm_num [SampleFlight, FVector.SizeSquared, FVector.DownVector]
  constructor
  · -- one call over the whole remaining time
    have ht : (0 : ℝ) < (SampleFlight (1 : ℝ) 1 1 0).m_ProjectileState.fTimeLeft := by
      norm_num [SampleFlight]
    obtain ⟨hoff, hgo⟩ := Sample_offsets (SampleFlight (1 : ℝ) 1 1 0) ⟨0, 0, 0⟩ ⟨4, 0, -1⟩
      rfl rfl
    have hgap : SMALL_NUMBER
        ≤ (PlaneOffset (SampleFlight (1 : ℝ) 1 1 0) ⟨0, 0, 0⟩ ⟨4, 0, -1⟩).SizeSquared := by
      rw [hoff]; norm_num [FVector.SizeSquared, SMALL_NUMBER]
    obtain ⟨sNet, _, sT, _, _⟩ := UpdateHPM_homing_step (SampleFlight (1 : ℝ) 1 1 0)
      ⟨0, 0, 0⟩ ⟨4, 0, -1⟩ 0 FVector.ZeroVector FVector.ZeroVector (SampleContext 1) ⟨1⟩ 0
      rfl rfl ht (hGu _ _ _ _) rfl (Or.inr hgap)
    rw [hoff, hgo] at sNet
    have hpos : (Integrate ⟨4, 0, -1⟩ 1 (fun _ => 0) (fun _ => FVector.ZeroVector)
        (fun _ => FVector.ZeroVector) (SampleFlight (1 : ℝ) 1 1 0) ⟨0, 0, 0⟩ 1).2
        = ⟨4, 0, -2⟩ := by
      show (⟨0, 0, 0⟩ : FVector ℝ) + (UpdateHPM (SampleFlight (1 : ℝ) 1 1 0) ⟨0, 0, 0⟩
        ⟨4, 0, -1⟩ 0 FVector.ZeroVector FVector.ZeroVector).1.NetVelocity * (1 : ℝ) = _
      rw [sNet]
      ext <;> norm_num [SampleFlight, FVector.DownVector]
    refine ⟨ht, hGu _ _ _ _, rfl, by norm_num [SampleFlight], ?_, hpos, ?_⟩
    · show (UpdateHPM (SampleFlight (1 : ℝ) 1 1 0) ⟨0, 0, 0⟩ ⟨4, 0, -1⟩ 0 FVector.ZeroVector
        FVector.ZeroVector).2.m_ProjectileState.fTimeLeft = 0
      rw [sT]; norm_num [SampleFlight]
    · rw [hpos]
      intro h
      have hz := congrArg FVector.Z h
      norm_num at hz
  · -- two calls, the plane offset below the tolerance
    have ht : (0 : ℝ) < (SampleFlight (1 : ℝ) 2 2 0).m_ProjectileState.fTimeLeft := by
      norm_num [SampleFlight]
    obtain ⟨aNet, aY, aT, aC, aP⟩ := Sample_fallback_step (SampleFlight (1 : ℝ) 2 2 0)
      ⟨0, 0, 0⟩ ⟨1 / 100000, 0, 0⟩ 0 FVector.ZeroVector FVector.ZeroVector (SampleContext 1)
      ⟨1⟩ 0 rfl rfl ht rfl rfl rfl (by norm_num [FVector.SizeSquared, SMALL_NUMBER])
    have hs1 : (⟨1 / 100000 - 0, 0 - 0, 0⟩ : FVector ℝ).Size = 1 / 100000 := by
      have h1 : (⟨1 / 100000 - 0, 0 - 0, 0⟩ : FVector ℝ) = ⟨1 / 100000, 0, 0⟩ := by
        ext <;> norm_num
      rw [h1, FVector.Size_along_X, abs_of_pos (by norm_num)]
    simp only at aNet aY
    rw [hs1] at aNet
    have aT1 : (UpdateHPM (SampleFlight (1 : ℝ) 2 2 0) ⟨0, 0, 0⟩ ⟨1 / 100000, 0, 0⟩ 0
        FVector.ZeroVector FVector.ZeroVector).2.m_ProjectileState.fTimeLeft = 1 := by
      rw [aT]; norm_num [SampleFlight]
    have hP1 : (⟨0, 0, 0⟩ : FVector ℝ)
        + (UpdateHPM (SampleFlight (1 : ℝ) 2 2 0) ⟨0, 0, 0⟩ ⟨1 / 100000, 0, 0⟩ 0
          FVector.ZeroVector FVector.ZeroVector).1.NetVelocity * (1 : ℝ)
        = ⟨-1 / 200000, 0, 0⟩ := by
      rw [aNet]
      ext <;> norm_num [SampleFlight, FVector.DownVector]
    have hI2 : Integrate ⟨1 / 100000, 0, 0⟩ 1 (fun _ => 0) (fun _ => FVector.ZeroVector)
        (fun _ => FVector.ZeroVector) (SampleFlight (1 : ℝ) 2 2 0) ⟨0, 0, 0⟩ 2
        = ((UpdateHPM (UpdateHPM (SampleFlight (1 : ℝ) 2 2 0) ⟨0, 0, 0⟩ ⟨1 / 100000, 0, 0⟩ 0
              FVector.ZeroVector FVector.ZeroVector).2 ⟨-1 / 200000, 0, 0⟩
              ⟨1 / 100000, 0, 0⟩ 0 FVector.ZeroVector FVector.ZeroVector).2,
            (⟨-1 / 200000, 0, 0⟩ : FVector ℝ)
              + (UpdateHPM (UpdateHPM (SampleFlight (1 : ℝ) 2 2 0) ⟨0, 0, 0⟩
                  ⟨1 / 100000, 0, 0⟩ 0 FVector.ZeroVector FVector.ZeroVector).2
                  ⟨-1 / 200000, 0, 0⟩ ⟨1 / 100000, 0, 0⟩ 0 FVector.ZeroVector
                  FVector.ZeroVector).1.NetVelocity * (1 : ℝ)) := by
      rw [← hP1]
      rfl
    obtain ⟨bNet, _, bT, _, _⟩ := Sample_fallback_step
      (UpdateHPM (SampleFlight (1 : ℝ) 2 2 0) ⟨0, 0, 0⟩ ⟨1 / 100000, 0, 0⟩ 0
        FVector.ZeroVector FVector.ZeroVector).2
      ⟨-1 / 200000, 0, 0⟩ ⟨1 / 100000, 0, 0⟩ 0 FVector.ZeroVector FVector.ZeroVector
      (SampleContext 1) ⟨1⟩ _ (by rw [aC]; rfl) rfl (by rw [aT1]; norm_num)
      (by rw [aP]; rfl) (by rw [aP]; rfl) aY
      (by norm_num [FVector.SizeSquared, SMALL_NUMBER])
    have hs2 : (⟨1 / 100000 - -1 / 200000, 0 - 0, 0⟩ : FVector ℝ).Size = 3 / 200000 := by
      have h1 : (⟨1 / 100000 - -1 / 200000, 0 - 0, 0⟩ : FVector ℝ) = ⟨3 / 200000, 0, 0⟩ := by
        ext <;> norm_num
      rw [h1, FVector.Size_along_X, abs_of_pos (by norm_num)]
    simp only at bNet
    rw [hs2, aT1] at bNet
    have hpos : (Integrate ⟨1 / 100000, 0, 0⟩ 1 (fun _ => 0) (fun _ => FVector.ZeroVector)
        (fun _ => FVector.ZeroVector) (SampleFlight (1 : ℝ) 2 2 0) ⟨0, 0, 0⟩ 2).2
        = ⟨-2 / 100000, 0, 0⟩ := by
      rw [hI2]
      simp only
      rw [bNet]
      ext <;> norm_num [SampleFlight, FVector.DownVector]
    refine ⟨ht, hGu _ _ _ _, rfl, by norm_num [SampleFlight], ?_, hpos, ?_⟩
    · rw [hI2]
      simp only
      rw [bT, aT1]
      norm_num
    · rw [hpos]
      intro h
      have hx := congrArg FVector.X h
      norm_num at hx

/-- The amended statement at `N = 2`: frames of 1, remaining time 2, start at the origin and
target at `(4, 0, -1)`; after the second call the location is the target. -/
theorem arrival_witness :
    ((SampleFlight (1 : ℝ) 2 2 0).WorldContextObj = some (SampleContext 1)
      ∧ (SampleContext (1 : ℝ)).GetWorld = some ⟨1⟩
      ∧ (0 : ℝ) < 1 ∧ 2 ≤ 2
      ∧ (SampleFlight (1 : ℝ) 2 2 0).m_ProjectileState.fTimeLeft = ((2 : ℕ) : ℝ) * 1
      ∧ (SampleFlight (1 : ℝ) 2 2 0).m_Params.GravityDirection.SizeSquared = 1
      ∧ (SampleFlight (1 : ℝ) 2 2 0).m_ProjectileState.YVel
        = (SampleFlight (1 : ℝ) 2 2 0).m_Params.GravityDirection * (0 : ℝ)
      ∧ SMALL_NUMBER * (((2 : ℕ) : ℝ) * (2 : ℕ))
        ≤ (PlaneOffset (SampleFlight (1 : ℝ) 2 2 0) ⟨0, 0, 0⟩ ⟨4, 0, -1⟩).SizeSquared)
      ∧ (Integrate ⟨4, 0, -1⟩ 1 (fun _ => 0) (fun _ => FVector.ZeroVector)
          (fun _ => FVector.ZeroVector) (SampleFlight (1 : ℝ) 2 2 0) ⟨0, 0, 0⟩ 2).2
        = ⟨4, 0, -1⟩
      ∧ (Integrate ⟨4, 0, -1⟩ 1 (fun _ => 0) (fun _ => FVector.ZeroVector)
          (fun _ => FVector.ZeroVector) (SampleFlight (1 : ℝ) 2 2 0) ⟨0, 0, 0⟩ 2
          ).1.m_ProjectileState.fTimeLeft = 0 := by
  have hT : (SampleFlight (1 : ℝ) 2 2 0).m_ProjectileState.fTimeLeft = ((2 : ℕ) : ℝ) * 1 := by
    norm_num [SampleFlight]
  have hG : (SampleFlight (1 : ℝ) 2 2 0).m_Params.GravityDirection.SizeSquared = 1 := by
    norm_num [SampleFlight, FVector.SizeSquared, FVector.DownVector]
  have hgap : SMALL_NUMBER * (((2 : ℕ) : ℝ) * (2 : ℕ))
      ≤ (PlaneOffset (SampleFlight (1 : ℝ) 2 2 0) ⟨0, 0, 0⟩ ⟨4, 0, -1⟩).SizeSquared := by
    rw [(Sample_offsets (SampleFlight (1 : ℝ) 2 2 0) ⟨0, 0, 0⟩ ⟨4, 0, -1⟩ rfl rfl).1]
    norm_num [FVector.SizeSquared, SMALL_NUMBER]
  exact ⟨⟨rfl, rfl, by norm_num, le_rfl, hT, hG, rfl, hgap⟩,
    arrival (SampleFlight (1 : ℝ) 2 2 0) ⟨0, 0, 0⟩ ⟨4, 0, -1⟩ (fun _ => 0)
      (fun _ => FVector.ZeroVector) (fun _ => FVector.ZeroVector) (SampleContext 1) ⟨1⟩ 2 0
      rfl rfl (by norm_num) le_rfl hT hG rfl (Or.inr hgap)⟩

/-! ### The no-op call -/

/-- C2. Tick no-op: when the world context is null, or its world is null, or the remaining
flight time is not positive, `UpdateHPM` returns the default-constructed `FProjectileState`
and leaves the object (stored state and parameters) as it was, whatever the location, the
target and the time stamp. -/
theorem UpdateHPM_noop (self : UHomingProjectileMotion K) (Cur Tgt : FVector K) (Ts : K)
    (XVel YVel : FVector K)
    (h : self.WorldContextObj = none
      ∨ (∃ Ctx, self.WorldContextObj = some Ctx ∧ Ctx.GetWorld = none)
      ∨ self.m_ProjectileState.fTimeLeft ≤ 0) :
    (UpdateHPM self Cur Tgt Ts XVel YVel).1 = FProjectileState.Default XVel YVel
      ∧ (UpdateHPM self Cur Tgt Ts XVel YVel).2 = self := by
  rcases h with h | ⟨Ctx, h, hw⟩ | h
  · rw [UpdateHPM_of_null self Cur Tgt Ts XVel YVel h]
    exact ⟨rfl, rfl⟩
  · rw [UpdateHPM_of_no_world self Cur Tgt Ts XVel YVel Ctx h hw]
    exact ⟨rfl, rfl⟩
  · rw [UpdateHPM_of_time_up self Cur Tgt Ts XVel YVel h]
    exact ⟨rfl, rfl⟩

/-- The no-op at an object whose remaining time is 0: the call returns the default state
with the storage contents it was given and leaves the object as it was. -/
theorem UpdateHPM_noop_witness :
    ((SampleFlight (1 : ℝ) 2 0 0).WorldContextObj = none
        ∨ (∃ Ctx, (SampleFlight (1 : ℝ) 2 0 0).WorldContextObj = some Ctx ∧ Ctx.GetWorld = none)
        ∨ (SampleFlight (1 : ℝ) 2 0 0).m_ProjectileState.fTimeLeft ≤ 0)
      ∧ (UpdateHPM (SampleFlight (1 : ℝ) 2 0 0) ⟨1, 0, 0⟩ ⟨4, 0, 0⟩ 0 ⟨7, 7, 7⟩ ⟨9, 9, 9⟩).1
          = FProjectileState.Default ⟨7, 7, 7⟩ ⟨9, 9, 9⟩
      ∧ (UpdateHPM (SampleFlight (1 : ℝ) 2 0 0) ⟨1, 0, 0⟩ ⟨4, 0, 0⟩ 0 ⟨7, 7, 7⟩ ⟨9, 9, 9⟩).2
          = SampleFlight (1 : ℝ) 2 0 0 :=
  ⟨Or.inr (Or.inr (le_refl (0 : ℝ))),
    UpdateHPM_noop (SampleFlight (1 : ℝ) 2 0 0) ⟨1, 0, 0⟩ ⟨4, 0, 0⟩ 0 ⟨7, 7, 7⟩ ⟨9, 9, 9⟩
      (Or.inr (Or.inr (le_refl (0 : ℝ))))⟩

/-! ### Termination -/

/-- C3, as amended. For an object with a valid context whose frames last `dt > 0` and whose
remaining time is its total flight time `T`: when every subtraction is exact, the remaining
time after `k` calls is `T - k * dt` for every `k` up to `ceil (T / dt)`, it is positive
before the call number `ceil (T / dt)` and not positive after it, and every later call is a
no-op that returns the default state and changes nothing. This holds for the object in
exact arithmetic, whose remaining time is the one `UpdateHPM_fTimeLeft_calls` computes
without rounding, and for `UpdateHPM_fTimeLeft_calls` under every rounding that leaves the
differences `T - k * dt`, `k ≤ ceil (T / dt)`, as they are. Under any rounding, once the
remaining time is a number that is not positive it stays as it is in every later call. -/
theorem tick_termination (Args : ℕ → FUpdateArgs K) (self : UHomingProjectileMotion K)
    (Ctx : UObject K) (World : UWorld K)
    (h : self.WorldContextObj = some Ctx) (hw : Ctx.GetWorld = some World)
    (hdt : 0 < World.GetDeltaSeconds)
    (hT : self.m_ProjectileState.fTimeLeft = self.m_ProjectileState.fTotalTime) :
    (∀ k, k ≤ Nat.ceil (self.m_ProjectileState.fTotalTime / World.GetDeltaSeconds) →
        (UpdateHPM_calls Args self k).m_ProjectileState.fTimeLeft
          = self.m_ProjectileState.fTotalTime - k * World.GetDeltaSeconds)
      ∧ (∀ k, k < Nat.ceil (self.m_ProjectileState.fTotalTime / World.GetDeltaSeconds) →
        0 < (UpdateHPM_calls Args self k).m_ProjectileState.fTimeLeft)
      ∧ (UpdateHPM_calls Args self
          (Nat.ceil (self.m_ProjectileState.fTotalTime / World.GetDeltaSeconds))
        ).m_ProjectileState.fTimeLeft ≤ 0
      ∧ (∀ k, Nat.ceil (self.m_ProjectileState.fTotalTime / World.GetDeltaSeconds) ≤ k →
        UpdateHPM_calls Args self (k + 1) = UpdateHPM_calls Args self k
          ∧ UpdateHPM_returned Args self k
            = FProjectileState.Default (Args k).XVel (Args k).YVel)
      ∧ (∀ k, UpdateHPM_fTimeLeft_calls id World.GetDeltaSeconds
            (some self.m_ProjectileState.fTotalTime) k
          = some (UpdateHPM_calls Args self k).m_ProjectileState.fTimeLeft)
      ∧ (∀ Round : K → K,
        (∀ k : ℕ,
          k < Nat.ceil (self.m_ProjectileState.fTotalTime / World.GetDeltaSeconds) →
          Round (self.m_ProjectileState.fTotalTime - ((k : K) + 1) * World.GetDeltaSeconds)
            = self.m_ProjectileState.fTotalTime - ((k : K) + 1) * World.GetDeltaSeconds) →
        (∀ k : ℕ,
          k ≤ Nat.ceil (self.m_ProjectileState.fTotalTime / World.GetDeltaSeconds) →
          UpdateHPM_fTimeLeft_calls Round World.GetDeltaSeconds
              (some self.m_ProjectileState.fTotalTime) k
            = some (self.m_ProjectileState.fTotalTime - k * World.GetDeltaSeconds))
          ∧ ∀ k : ℕ,
            Nat.ceil (self.m_ProjectileState.fTotalTime / World.GetDeltaSeconds) ≤ k →
            UpdateHPM_fTimeLeft_calls Round World.GetDeltaSeconds
                (some self.m_ProjectileState.fTotalTime) k
              = UpdateHPM_fTimeLeft_calls Round World.GetDeltaSeconds
                (some self.m_ProjectileState.fTotalTime)
                (Nat.ceil (self.m_ProjectileState.fTotalTime / World.GetDeltaSeconds)))
      ∧ (∀ (Round : K → K) (x : Option K) (n m : ℕ) (t : K), n ≤ m →
        UpdateHPM_fTimeLeft_calls Round World.GetDeltaSeconds x n = some t → t ≤ 0 →
        UpdateHPM_fTimeLeft_calls Round World.GetDeltaSeconds x m = some t) := by
  set T := self.m_ProjectileState.fTotalTime with hTdef
  set dt := World.GetDeltaSeconds with hdtdef
  set N := Nat.ceil (T / dt) with hN
  have hpos : ∀ k : ℕ, k < N → 0 < T - k * dt := by
    intro k hk
    have h1 : (k : K) < T / dt := Nat.lt_ceil.mp hk
    have h2 : (k : K) * dt < T := (lt_div_iff₀ hdt).mp h1
    linarith
  have hlast : T - (N : K) * dt ≤ 0 := by
    have h1 : T / dt ≤ (N : K) := Nat.le_ceil _
    have h2 : T ≤ (N : K) * dt := (div_le_iff₀ hdt).mp h1
    linarith
  have hval : ∀ k, k ≤ N →
      (UpdateHPM_calls Args self k).m_ProjectileState.fTimeLeft = T - k * dt := by
    intro k
    induction k with
    | zero => intro _; simp [UpdateHPM_calls, hT, hTdef]
    | succ n ih =>
      intro hn
      have hlt : n < N := hn
      have hprev := ih (Nat.le_of_lt hlt)
      have hp : 0 < (UpdateHPM_calls Args self n).m_ProjectileState.fTimeLeft := by
        rw [hprev]; exact hpos n hlt
      have hc : (UpdateHPM_calls Args self n).WorldContextObj = some Ctx := by
        rw [UpdateHPM_calls_context, h]
      rw [UpdateHPM_calls, UpdateHPM_effective _ _ _ _ _ _ Ctx World hc hw hp]
      simp only [hprev]
      push_cast
      ring
  have hend : (UpdateHPM_calls Args self N).m_ProjectileState.fTimeLeft ≤ 0 := by
    rw [hval N le_rfl]
    exact hlast
  have hstay : ∀ k, N ≤ k → UpdateHPM_calls Args self k = UpdateHPM_calls Args self N := by
    intro k hk
    induction k, hk using Nat.le_induction with
    | base => rfl
    | succ n _ ih =>
      rw [UpdateHPM_calls, UpdateHPM_of_time_up _ _ _ _ _ _ (by rw [ih]; exact hend)]
      exact ih
  refine ⟨hval, ?_, hend, ?_, ?_, ?_, ?_⟩
  · intro k hk
    rw [hval k (Nat.le_of_lt hk)]
    exact hpos k hk
  · intro k hk
    have hle : (UpdateHPM_calls Args self k).m_ProjectileState.fTimeLeft ≤ 0 := by
      rw [hstay k hk]; exact hend
    constructor
    · rw [UpdateHPM_calls, UpdateHPM_of_time_up _ _ _ _ _ _ hle]
    · rw [UpdateHPM_returned, UpdateHPM_of_time_up _ _ _ _ _ _ hle]
  · intro k
    have hlink := UpdateHPM_calls_fTimeLeft Args self Ctx World h hw k
    rw [hT] at hlink
    exact hlink
  · intro Round hexact
    have hex := UpdateHPM_fTimeLeft_calls_exact Round dt T N hpos hexact
    refine ⟨hex, ?_⟩
    intro k hk
    rw [UpdateHPM_fTimeLeft_calls_stay Round dt (some T) N k (T - (N : K) * dt) hk
      (hex N le_rfl) hlast, hex N le_rfl]
  · intro Round x n m t hnm hn ht
    exact UpdateHPM_fTimeLeft_calls_stay Round dt x n m t hnm hn ht

/-- C3 fails as stated. With the `float` rounding of the subtraction, total flight time 3
and the frame time `8947849 / 2^29`, the `float` nearest to `1/60`, the number
`ceil (T / dt)` is 180, but after 180 calls the remaining time is `587 / 2^28`, still
positive: the call number 181 is effective too and leaves `-8946675 / 2^29`. And a NaN
remaining time fails the test of the guard in every call: no call is ever a no-op. -/
theorem tick_termination_rounded :
    RoundToFloat 3 = 3
      ∧ RoundToFloat (8947849 / 536870912) = 8947849 / 536870912
      ∧ (0 : ℚ) < 8947849 / 536870912
      ∧ Nat.ceil ((3 : ℚ) / (8947849 / 536870912)) = 180
      ∧ UpdateHPM_fTimeLeft_calls RoundToFloat (8947849 / 536870912) (some 3) 180
        = some (587 / 268435456)
      ∧ (0 : ℚ) < 587 / 268435456
      ∧ UpdateHPM_fTimeLeft_calls RoundToFloat (8947849 / 536870912) (some 3) 181
        = some (-8946675 / 536870912)
      ∧ (-8946675 / 536870912 : ℚ) ≤ 0
      ∧ ∀ n : ℕ,
        UpdateHPM_fTimeLeft_calls RoundToFloat (8947849 / 536870912) none n = none :=
  ⟨by decide!, by decide!, by decide!, by decide!, by decide!, by decide!, by decide!,
    by decide!, fun n => UpdateHPM_fTimeLeft_calls_NaN _ _ n⟩

/-- Termination at total flight time 2 with frames of `1 / 2`, where every subtraction is
exact: four calls, the remaining time is `1 / 2` after the third and not positive after the
fourth, and the sixth call changes nothing. -/
theorem tick_termination_witness :
    ((SampleFlight (1 / 2 : ℝ) 2 2 0).WorldContextObj = some (SampleContext (1 / 2))
      ∧ (SampleContext (1 / 2 : ℝ)).GetWorld = some ⟨1 / 2⟩
      ∧ (0 : ℝ) < 1 / 2
      ∧ (SampleFlight (1 / 2 : ℝ) 2 2 0).m_ProjectileState.fTimeLeft
          = (SampleFlight (1 / 2 : ℝ) 2 2 0).m_ProjectileState.fTotalTime)
      ∧ Nat.ceil ((2 : ℝ) / (1 / 2)) = 4
      ∧ (UpdateHPM_calls (SampleArgs ⟨0, 0, 0⟩ ⟨4, 0, 0⟩) (SampleFlight (1 / 2 : ℝ) 2 2 0) 3
          ).m_ProjectileState.fTimeLeft = 1 / 2
      ∧ (UpdateHPM_calls (SampleArgs ⟨0, 0, 0⟩ ⟨4, 0, 0⟩) (SampleFlight (1 / 2 : ℝ) 2 2 0) 4
          ).m_ProjectileState.fTimeLeft ≤ 0
      ∧ UpdateHPM_calls (SampleArgs ⟨0, 0, 0⟩ ⟨4, 0, 0⟩) (SampleFlight (1 / 2 : ℝ) 2 2 0) 6
          = UpdateHPM_calls (SampleArgs ⟨0, 0, 0⟩ ⟨4, 0, 0⟩) (SampleFlight (1 / 2 : ℝ) 2 2 0) 5
      := by
  have hc : Nat.ceil ((2 : ℝ) / (1 / 2)) = 4 := by
    have : (2 : ℝ) / (1 / 2) = ((4 : ℕ) : ℝ) := by norm_num
    rw [this, Nat.ceil_natCast]
  have key := tick_termination (SampleArgs ⟨0, 0, 0⟩ ⟨4, 0, 0⟩)
    (SampleFlight (1 / 2 : ℝ) 2 2 0) (SampleContext (1 / 2)) ⟨1 / 2⟩ rfl rfl
    (by norm_num) rfl
  have hT : (SampleFlight (1 / 2 : ℝ) 2 2 0).m_ProjectileState.fTotalTime = 2 := rfl
  rw [hT] at key
  simp only [hc] at key
  obtain ⟨k1, _, k3, k4, _⟩ := key
  refine ⟨⟨rfl, rfl, by norm_num, rfl⟩, hc, ?_, k3, (k4 5 (by norm_num)).1⟩
  rw [k1 3 (by norm_num)]
  norm_num

/-! ### The linear direction -/

/-- C4. For a unit gravity direction, every launch location and every pair of points,
`GetLinearDirection` returns a vector of length 1 that is orthogonal to the gravity
direction: the safe normal of the difference of the two plane projections when its squared
length reaches the tolerance, and `GetPerpendicularVector (gravity, 0)` when that safe
normal is the zero vector. -/
theorem GetLinearDirection_unit_orthogonal (self : UHomingProjectileMotion K)
    (Cur Tgt : FVector K) (hG : self.m_Params.GravityDirection.SizeSquared = 1) :
    (self.GetLinearDirection Cur Tgt).Size = 1
      ∧ FVector.DotProduct (self.GetLinearDirection Cur Tgt) self.m_Params.GravityDirection = 0
      ∧ ((FVector.PointPlaneProject Tgt self.m_Params.LaunchLocation
              self.m_Params.GravityDirection
            - FVector.PointPlaneProject Cur self.m_Params.LaunchLocation
              self.m_Params.GravityDirection).GetSafeNormal ≠ FVector.ZeroVector →
          self.GetLinearDirection Cur Tgt
            = (FVector.PointPlaneProject Tgt self.m_Params.LaunchLocation
                self.m_Params.GravityDirection
              - FVector.PointPlaneProject Cur self.m_Params.LaunchLocation
                self.m_Params.GravityDirection).GetSafeNormal)
      ∧ ((FVector.PointPlaneProject Tgt self.m_Params.LaunchLocation
              self.m_Params.GravityDirection
            - FVector.PointPlaneProject Cur self.m_Params.LaunchLocation
              self.m_Params.GravityDirection).GetSafeNormal = FVector.ZeroVector →
          self.GetLinearDirection Cur Tgt
            = GetPerpendicularVector self.m_Params.GravityDirection 0) := by
  have hone : SMALL_NUMBER ≤ self.m_Params.GravityDirection.SizeSquared := by
    rw [hG]; unfold SMALL_NUMBER; norm_num
  obtain ⟨hbig, hsmall⟩ := GetLinearDirection_cases self Cur Tgt
  rcases lt_or_le (FVector.PointPlaneProject Tgt self.m_Params.LaunchLocation
      self.m_Params.GravityDirection - FVector.PointPlaneProject Cur
      self.m_Params.LaunchLocation self.m_Params.GravityDirection).SizeSquared
      SMALL_NUMBER with hlt | hge
  · have hz := FVector.GetSafeNormal_of_small _ hlt
    refine ⟨?_, ?_, fun hne => absurd hz hne, fun _ => hsmall hlt⟩
    · rw [hsmall hlt, FVector.Size_eq_Sqrt, (GetPerpendicularVector_cases _ _).1 hone, Sqrt_one]
    · rw [hsmall hlt]; exact GetPerpendicularVector_dot _ _
  · have hu := FVector.SizeSquared_GetSafeNormal _ hge
    refine ⟨?_, ?_, fun _ => hbig hge, fun hz => ?_⟩
    · rw [hbig hge, FVector.Size_eq_Sqrt, hu, Sqrt_one]
    · rw [hbig hge]
      exact FVector.DotProduct_GetSafeNormal _ _ (PointPlaneProject_sub_dot _ _ _ _ hG)
    · rw [hz, FVector.SizeSquared_ZeroVector] at hu
      exact absurd hu (by norm_num)

/-- The linear direction between two points that differ along gravity only, the fallback
branch: a unit vector orthogonal to gravity. -/
theorem GetLinearDirection_unit_orthogonal_witness :
    (SampleFlight (1 : ℝ) 2 2 0).m_Params.GravityDirection.SizeSquared = 1
      ∧ ((SampleFlight (1 : ℝ) 2 2 0).GetLinearDirection ⟨1, 1, 5⟩ ⟨1, 1, 0⟩).Size = 1
      ∧ FVector.DotProduct ((SampleFlight (1 : ℝ) 2 2 0).GetLinearDirection ⟨1, 1, 5⟩ ⟨1, 1, 0⟩)
          (SampleFlight (1 : ℝ) 2 2 0).m_Params.GravityDirection = 0 := by
  have hG : (SampleFlight (1 : ℝ) 2 2 0).m_Params.GravityDirection.SizeSquared = 1 := by
    norm_num [SampleFlight, FVector.SizeSquared, FVector.DownVector]
  have key := GetLinearDirection_unit_orthogonal (SampleFlight (1 : ℝ) 2 2 0) ⟨1, 1, 5⟩
    ⟨1, 1, 0⟩ hG
  exact ⟨hG, key.1, key.2.1⟩

/-! ### The perpendicular vector -/

/-- C5, as amended. For every direction `Dir` whose squared length is not below the
tolerance of the final normalisation (`SMALL_NUMBER`) and every `Alpha`,
`GetPerpendicularVector (Dir, Alpha)` has length 1 and zero dot product with `Dir`. -/
theorem GetPerpendicularVector_unit_orthogonal (Dir : FVector K) (Alpha : K)
    (h : SMALL_NUMBER ≤ Dir.SizeSquared) :
    (GetPerpendicularVector Dir Alpha).Size = 1
      ∧ FVector.DotProduct (GetPerpendicularVector Dir Alpha) Dir = 0 := by
  refine ⟨?_, GetPerpendicularVector_dot Dir Alpha⟩
  rw [FVector.Size_eq_Sqrt, (GetPerpendicularVector_cases Dir Alpha).1 h, Sqrt_one]

/-- C5 fails as stated: for the non-zero direction `(1 / 100000, 0, 0)` and `Alpha = 0`,
`GetPerpendicularVector` is the zero vector, of length 0. -/
theorem GetPerpendicularVector_of_short_direction :
    (⟨1 / 100000, 0, 0⟩ : FVector ℝ) ≠ FVector.ZeroVector
      ∧ (0 : ℝ) ≤ 0 ∧ (0 : ℝ) ≤ 1
      ∧ GetPerpendicularVector (⟨1 / 100000, 0, 0⟩ : FVector ℝ) 0 = FVector.ZeroVector
      ∧ (GetPerpendicularVector (⟨1 / 100000, 0, 0⟩ : FVector ℝ) 0).Size = 0 := by
  have h0 : GetPerpendicularVector (⟨1 / 100000, 0, 0⟩ : FVector ℝ) 0 = FVector.ZeroVector :=
    (GetPerpendicularVector_cases _ _).2 (by norm_num [FVector.SizeSquared, SMALL_NUMBER])
  refine ⟨?_, le_rfl, zero_le_one, h0, ?_⟩
  · intro h
    have h1 := congrArg FVector.X h
    norm_num [FVector.ZeroVector] at h1
  · rw [h0, FVector.Size_eq_Sqrt, FVector.SizeSquared_ZeroVector, Sqrt_zero]

/-- The amended statement at the direction `(0, 0, -1)` and `Alpha = 1 / 4`. -/
theorem GetPerpendicularVector_unit_orthogonal_witness :
    SMALL_NUMBER ≤ (⟨0, 0, -1⟩ : FVector ℝ).SizeSquared
      ∧ (GetPerpendicularVector (⟨0, 0, -1⟩ : FVector ℝ) (1 / 4)).Size = 1
      ∧ FVector.DotProduct (GetPerpendicularVector (⟨0, 0, -1⟩ : FVector ℝ) (1 / 4))
          ⟨0, 0, -1⟩ = 0 :=
  ⟨by norm_num [FVector.SizeSquared, SMALL_NUMBER],
    GetPerpendicularVector_unit_orthogonal ⟨0, 0, -1⟩ (1 / 4)
      (by norm_num [FVector.SizeSquared, SMALL_NUMBER])⟩

/-! ### The flight time -/

/-- C6, as amended. After `SetupHPM` with a non-null context, a unit gravity direction and a
gravity magnitude above 0, the stored total flight time is strictly positive in these
cases, all stated on the launch parameters and the arc solver. Off the gravity axis: the
cross-product test of `CalculateLaunchVelocity` passes and the plane offset from launch to
target has squared length above `SMALL_NUMBER`; then the axes rotation is the one of the
launch parameters, the target handed to the arc solver lies forward of the launch location
by the length of the plane offset, and for every answer of the arc solver to that request
whose forward component exceeds `0.001` in absolute value the launch velocity is the answer
rotated back, the linear speed is the absolute value of its forward component and the
flight time is the length of the plane offset divided by that speed. Below the launch
location: the cross-product test fails, the squared distance to the target is above
`SMALL_NUMBER` and the target is lower along gravity; then the launch velocity is zero,
the linear speed is 0 and the flight time is `sqrt (2 * A * D) / A`, which for a target
exactly on the gravity axis, `launch + s * G` with `s > 0` and `s * s > SMALL_NUMBER`, is
`sqrt (2 * s / g)`. -/
theorem flight_time_positive (Arc : ArcSolver K) (self : UHomingProjectileMotion K)
    (Ctx : UObject K) (LaunchParams : FProjectileParams K) (XVel YVel : FVector K)
    (hG : LaunchParams.GravityDirection.SizeSquared = 1) (hg : 0 < LaunchParams.fGravity) :
    ((FVector.CrossProduct
          (LaunchParams.TargetLocation - LaunchParams.LaunchLocation).GetSafeNormal
          LaunchParams.GravityDirection).SizeSquared > 1 / 1000 →
        SMALL_NUMBER
          < (FVector.PointPlaneProject LaunchParams.TargetLocation LaunchParams.LaunchLocation
                LaunchParams.GravityDirection
              - FVector.PointPlaneProject LaunchParams.LaunchLocation
                LaunchParams.LaunchLocation LaunchParams.GravityDirection).SizeSquared →
        (SetupHPM Arc self (some Ctx) LaunchParams XVel YVel).GetAxesRotation
            = (⟨some Ctx, LaunchParams, FProjectileState.Default XVel YVel⟩
                : UHomingProjectileMotion K).GetAxesRotation
          ∧ ((⟨some Ctx, LaunchParams, FProjectileState.Default XVel YVel⟩
                : UHomingProjectileMotion K).GetAxesRotation.UnrotateVector
              (LaunchParams.TargetLocation - LaunchParams.LaunchLocation)).X
            = (FVector.PointPlaneProject LaunchParams.TargetLocation
                  LaunchParams.LaunchLocation LaunchParams.GravityDirection
                - FVector.PointPlaneProject LaunchParams.LaunchLocation
                  LaunchParams.LaunchLocation LaunchParams.GravityDirection).Size
          ∧ ∀ V : FVector K,
            Arc (some Ctx) LaunchParams.LaunchLocation
                (LaunchParams.LaunchLocation
                  + (⟨some Ctx, LaunchParams, FProjectileState.Default XVel YVel⟩
                      : UHomingProjectileMotion K).GetAxesRotation.UnrotateVector
                    (LaunchParams.TargetLocation - LaunchParams.LaunchLocation))
                (-LaunchParams.fGravity) LaunchParams.ArcParameter = some V →
            1 / 1000 < |V.X| →
            (SetupHPM Arc self (some Ctx) LaunchParams XVel YVel
                ).m_ProjectileState.LaunchVelocity
              = (⟨some Ctx, LaunchParams, FProjectileState.Default XVel YVel⟩
                  : UHomingProjectileMotion K).GetAxesRotation.RotateVector V
            ∧ (SetupHPM Arc self (some Ctx) LaunchParams XVel YVel
                ).m_ProjectileState.fLinearSpeed = |V.X|
            ∧ (SetupHPM Arc self (some Ctx) LaunchParams XVel YVel
                ).m_ProjectileState.fTotalTime
              = (FVector.PointPlaneProject LaunchParams.TargetLocation
                    LaunchParams.LaunchLocation LaunchParams.GravityDirection
                  - FVector.PointPlaneProject LaunchParams.LaunchLocation
                    LaunchParams.LaunchLocation LaunchParams.GravityDirection).Size / |V.X|
            ∧ 0 < (SetupHPM Arc self (some Ctx) LaunchParams XVel YVel
                ).m_ProjectileState.fTotalTime)
      ∧ (SMALL_NUMBER
          < (LaunchParams.TargetLocation - LaunchParams.LaunchLocation).SizeSquared →
        ¬ (FVector.CrossProduct
            (LaunchParams.TargetLocation - LaunchParams.LaunchLocation).GetSafeNormal
            LaunchParams.GravityDirection).SizeSquared > 1 / 1000 →
        0 < FVector.DotProduct (LaunchParams.TargetLocation - LaunchParams.LaunchLocation)
            LaunchParams.GravityDirection →
        (SetupHPM Arc self (some Ctx) LaunchParams XVel YVel
            ).m_ProjectileState.LaunchVelocity = FVector.ZeroVector
          ∧ (SetupHPM Arc self (some Ctx) LaunchParams XVel YVel
              ).m_ProjectileState.fLinearSpeed = 0
          ∧ (SetupHPM Arc self (some Ctx) LaunchParams XVel YVel
              ).m_ProjectileState.fTotalTime
            = FMath.Sqrt (2
                  * (LaunchParams.fGravity
                    * FVector.DotProduct
                        (LaunchParams.TargetLocation
                          - LaunchParams.LaunchLocation).GetSafeNormal
                        LaunchParams.GravityDirection)
                  * FVector.DotProduct
                      (LaunchParams.TargetLocation - LaunchParams.LaunchLocation)
                      LaunchParams.GravityDirection)
              / (LaunchParams.fGravity
                * FVector.DotProduct
                    (LaunchParams.TargetLocation - LaunchParams.LaunchLocation).GetSafeNormal
                    LaunchParams.GravityDirection)
          ∧ 0 < (SetupHPM Arc self (some Ctx) LaunchParams XVel YVel
              ).m_ProjectileState.fTotalTime)
      ∧ (∀ s : K, 0 < s → SMALL_NUMBER < s * s →
        LaunchParams.TargetLocation
          = LaunchParams.LaunchLocation + LaunchParams.GravityDirection * s →
        (SetupHPM Arc self (some Ctx) LaunchParams XVel YVel
            ).m_ProjectileState.LaunchVelocity = FVector.ZeroVector
          ∧ (SetupHPM Arc self (some Ctx) LaunchParams XVel YVel
              ).m_ProjectileState.fLinearSpeed = 0
          ∧ (SetupHPM Arc self (some Ctx) LaunchParams XVel YVel
              ).m_ProjectileState.fTotalTime = FMath.Sqrt (2 * s / LaunchParams.fGravity)
          ∧ 0 < (SetupHPM Arc self (some Ctx) LaunchParams XVel YVel
              ).m_ProjectileState.fTotalTime) := by
  refine ⟨?_, ?_, ?_⟩
  · intro hcross hgap
    have hR : (SetupHPM Arc self (some Ctx) LaunchParams XVel YVel).GetAxesRotation
        = (⟨some Ctx, LaunchParams, FProjectileState.Default XVel YVel⟩
            : UHomingProjectileMotion K).GetAxesRotation :=
      GetAxesRotation_of_params
        (⟨some Ctx, LaunchParams, FProjectileState.Default XVel YVel⟩
          : UHomingProjectileMotion K)
        (SetupHPM Arc self (some Ctx) LaunchParams XVel YVel)
        (SetupHPM_fields Arc self Ctx LaunchParams XVel YVel).2.1 hG hcross
    have hX := SetupHPM_transformed_target Arc self Ctx LaunchParams XVel YVel hG hcross hgap
    rw [FVector.add_sub_cancel_left, hR] at hX
    refine ⟨hR, hX, ?_⟩
    intro V hV hVX
    rw [← hR] at hV ⊢
    exact SetupHPM_off_axis Arc self Ctx LaunchParams XVel YVel V hG hcross hgap hV hVX
  · intro hd hcross hdown
    exact SetupHPM_below_near_axis Arc self Ctx LaunchParams XVel YVel hG hg hd hcross hdown
  · intro s hs hl hT
    obtain ⟨hpos, -, hsp⟩ := SetupHPM_on_axis Arc self Ctx LaunchParams XVel YVel s hG hT
    obtain ⟨_, _, _, _, _, _, _, _, hTL, _⟩ :=
      SetupHPM_fields Arc self Ctx LaunchParams XVel YVel
    have hTime := SetupHPM_on_axis_time Arc self Ctx LaunchParams XVel YVel s hG hg hT hl
    rw [hTL, abs_of_pos hs] at hTime
    refine ⟨hpos hs, hsp (Or.inl hs), hTime, ?_⟩
    rw [hTime]
    exact Sqrt_pos _ (div_pos (mul_pos two_pos hs) hg)

/-- C6 fails as stated, at two inputs with a unit gravity direction `(0, 0, -1)`, a
positive gravity magnitude and a launch at the origin that differs from the target.  With
the target at `(1 / 100000, 0, 0)` and gravity magnitude 2, whatever the arc solver is, the
total flight time stored by `SetupHPM`, computed as `(0 - 0) / 0`, is not greater than 0.
With the target at `(1, 0, 0)` and gravity magnitude 1 the arc solver is asked for a
velocity from the origin to `(1, 0, 0)`; the answer `(1 / 2000, 0, 1000)` is the launch
velocity of a parabola that reaches the target at time 2000, the stored linear speed
`1 / 2000` is not above `0.001`, and the flight time, computed as `(V - U) / 0` with
`V = U`, is not greater than 0. -/
theorem flight_time_not_positive :
    ((FVector.ZeroVector : FVector ℝ) ≠ ⟨1 / 100000, 0, 0⟩
      ∧ (FVector.DownVector : FVector ℝ).SizeSquared = 1
      ∧ (0 : ℝ) < 2
      ∧ ∀ Arc : ArcSolver ℝ,
        ¬ 0 < (SetupHPM Arc (SampleFlight (1 : ℝ) 2 2 0) (some (SampleContext 1))
          ⟨FVector.ZeroVector, ⟨1 / 100000, 0, 0⟩, FVector.DownVector, 2, 1 / 2⟩
          FVector.ZeroVector FVector.ZeroVector).m_ProjectileState.fTotalTime)
      ∧ ((FVector.ZeroVector : FVector ℝ) ≠ ⟨1, 0, 0⟩
        ∧ (0 : ℝ) < 1
        ∧ (FVector.ZeroVector : FVector ℝ)
            + (SetupHPM (fun _ _ _ _ _ => some ⟨1 / 2000, 0, 1000⟩) (SampleFlight (1 : ℝ) 2 2 0)
                (some (SampleContext 1))
                ⟨FVector.ZeroVector, ⟨1, 0, 0⟩, FVector.DownVector, 1, 1 / 2⟩
                FVector.ZeroVector FVector.ZeroVector
                ).GetAxesRotation.UnrotateVector (⟨1, 0, 0⟩ - FVector.ZeroVector)
          = ⟨1, 0, 0⟩
        ∧ (⟨1 / 2000, 0, 1000⟩ : FVector ℝ) * (2000 : ℝ)
            + (FVector.DownVector : FVector ℝ) * ((1 : ℝ) * (2000 * 2000) / 2)
          = ⟨1, 0, 0⟩
        ∧ (SetupHPM (fun _ _ _ _ _ => some ⟨1 / 2000, 0, 1000⟩) (SampleFlight (1 : ℝ) 2 2 0)
            (some (SampleContext 1))
            ⟨FVector.ZeroVector, ⟨1, 0, 0⟩, FVector.DownVector, 1, 1 / 2⟩
            FVector.ZeroVector FVector.ZeroVector).m_ProjectileState.fLinearSpeed = 1 / 2000
        ∧ ¬ 0 < (SetupHPM (fun _ _ _ _ _ => some ⟨1 / 2000, 0, 1000⟩)
            (SampleFlight (1 : ℝ) 2 2 0) (some (SampleContext 1))
            ⟨FVector.ZeroVector, ⟨1, 0, 0⟩, FVector.DownVector, 1, 1 / 2⟩
            FVector.ZeroVector FVector.ZeroVector).m_ProjectileState.fTotalTime) := by
  have hD : (FVector.DownVector : FVector ℝ).SizeSquared = 1 := by
    norm_num [FVector.SizeSquared, FVector.DownVector]
  obtain ⟨t1, t2⟩ := Sample_launch_tests (1 : ℝ) 1 (1 / 2) (by norm_num)
    (by norm_num [SMALL_NUMBER])
  have key := SetupHPM_level_slow (fun _ _ _ _ _ => some ⟨1 / 2000, 0, 1000⟩)
    (SampleFlight (1 : ℝ) 2 2 0) (SampleContext 1)
    ⟨FVector.ZeroVector, ⟨1, 0, 0⟩, FVector.DownVector, 1, 1 / 2⟩
    FVector.ZeroVector FVector.ZeroVector ⟨1 / 2000, 0, 1000⟩ hD t1 t2 rfl
    (by norm_num [SMALL_NUMBER]) (by norm_num [abs_of_pos])
    (Sample_level (1 : ℝ) 1 (1 / 2))
  refine ⟨⟨?_, hD, by norm_num, ?_⟩, ?_, by norm_num, ?_, ?_, ?_, ?_⟩
  · intro h
    have hx := congrArg FVector.X h
    norm_num [FVector.ZeroVector] at hx
  · intro Arc
    exact SetupHPM_of_near Arc _ _ _ _ _
      (by norm_num [FVector.SizeSquared, SMALL_NUMBER, FVector.ZeroVector])
  · intro h
    have hx := congrArg FVector.X h
    norm_num [FVector.ZeroVector] at hx
  · exact Sample_request _ _ _ _ _ (1 : ℝ) 1 (1 / 2) (by norm_num)
      (by norm_num [SMALL_NUMBER])
  · ext <;> norm_num [FVector.DownVector]
  · rw [key.1]
    norm_num [abs_of_pos]
  · rw [key.2]
    exact lt_irrefl 0

/-- The amended statement at two inputs.  For a target at `(4, 0, 0)` with gravity along
-Z and an arc solver that always answers `(1, 0, 1)` the linear speed is 1 and the flight
time is positive.  A target 2 below the launch location with gravity magnitude 1 fails the
cross-product test and is lower along gravity: the linear speed is 0, the flight time is
positive and equal to `sqrt (2 * 2 / 1) = 2`. -/
theorem flight_time_positive_witness :
    ((FVector.DownVector : FVector ℝ).SizeSquared = 1 ∧ (0 : ℝ) < 2
      ∧ (SampleVertical (2 : ℝ) 1).m_Params.GravityDirection.SizeSquared = 1
      ∧ 0 < (SampleVertical (2 : ℝ) 1).m_Params.fGravity)
      ∧ (SetupHPM (fun _ _ _ _ _ => some ⟨1, 0, 1⟩) (SampleFlight (1 : ℝ) 2 2 0)
          (some (SampleContext 1)) ⟨FVector.ZeroVector, ⟨4, 0, 0⟩, FVector.DownVector, 2, 1 / 2⟩
          FVector.ZeroVector FVector.ZeroVector).m_ProjectileState.fLinearSpeed = 1
      ∧ 0 < (SetupHPM (fun _ _ _ _ _ => some ⟨1, 0, 1⟩) (SampleFlight (1 : ℝ) 2 2 0)
          (some (SampleContext 1)) ⟨FVector.ZeroVector, ⟨4, 0, 0⟩, FVector.DownVector, 2, 1 / 2⟩
          FVector.ZeroVector FVector.ZeroVector).m_ProjectileState.fTotalTime
      ∧ (SetupHPM (fun _ _ _ _ _ => none) (SampleFlight (1 : ℝ) 2 2 0) (some (SampleContext 1))
          (SampleVertical (2 : ℝ) 1).m_Params FVector.ZeroVector FVector.ZeroVector
          ).m_ProjectileState.fLinearSpeed = 0
      ∧ 0 < (SetupHPM (fun _ _ _ _ _ => none) (SampleFlight (1 : ℝ) 2 2 0)
          (some (SampleContext 1)) (SampleVertical (2 : ℝ) 1).m_Params FVector.ZeroVector
          FVector.ZeroVector).m_ProjectileState.fTotalTime
      ∧ (SetupHPM (fun _ _ _ _ _ => none) (SampleFlight (1 : ℝ) 2 2 0) (some (SampleContext 1))
          (SampleVertical (2 : ℝ) 1).m_Params FVector.ZeroVector FVector.ZeroVector
          ).m_ProjectileState.fTotalTime = 2 := by
  have hD : (FVector.DownVector : FVector ℝ).SizeSquared = 1 := by
    norm_num [FVector.SizeSquared, FVector.DownVector]
  have hG : (SampleVertical (2 : ℝ) 1).m_Params.GravityDirection.SizeSquared = 1 := by
    norm_num [SampleVertical, FVector.SizeSquared, FVector.DownVector]
  have hg : 0 < (SampleVertical (2 : ℝ) 1).m_Params.fGravity := by
    norm_num [SampleVertical]
  obtain ⟨t1, t2⟩ := Sample_launch_tests (4 : ℝ) 2 (1 / 2) (by norm_num)
    (by norm_num [SMALL_NUMBER])
  have key := flight_time_positive (fun _ _ _ _ _ => some ⟨1, 0, 1⟩)
    (SampleFlight (1 : ℝ) 2 2 0) (SampleContext 1)
    ⟨FVector.ZeroVector, ⟨4, 0, 0⟩, FVector.DownVector, 2, 1 / 2⟩
    FVector.ZeroVector FVector.ZeroVector hD (by norm_num)
  obtain ⟨-, hspeed, -, hpos⟩ := (key.1 t1 t2).2.2 ⟨1, 0, 1⟩ rfl (by norm_num)
  have htime := ((flight_time_positive (fun _ _ _ _ _ => none) (SampleFlight (1 : ℝ) 2 2 0)
    (SampleContext 1) (SampleVertical (2 : ℝ) 1).m_Params FVector.ZeroVector
    FVector.ZeroVector hG hg).2.2 2 (by norm_num) (by norm_num [SMALL_NUMBER]) rfl).2.2.1
  have h4 : (2 : ℝ) * 2 / (SampleVertical (2 : ℝ) 1).m_Params.fGravity = 2 * 2 := by
    norm_num [SampleVertical]
  rw [h4, Sqrt_mul_self_of_nonneg (2 : ℝ) (by norm_num)] at htime
  obtain ⟨b1, b2, b3⟩ := SampleVertical_tests (2 : ℝ) 1 (by norm_num)
    (by norm_num [SMALL_NUMBER])
  obtain ⟨-, hzero, -, hbpos⟩ := (flight_time_positive (fun _ _ _ _ _ => none)
    (SampleFlight (1 : ℝ) 2 2 0) (SampleContext 1) (SampleVertical (2 : ℝ) 1).m_Params
    FVector.ZeroVector FVector.ZeroVector hG hg).2.1 b1 b2 b3
  refine ⟨⟨hD, by norm_num, hG, hg⟩, ?_, hpos, hzero, hbpos, htime⟩
  rw [hspeed]
  norm_num

/-! ### The launch velocity on the gravity axis -/

/-- C7, as amended. With a unit gravity direction `G` and the target at `launch + s * G`,
`CalculateLaunchVelocity` gives, whatever the arc solver is, the zero vector when `s > 0`
(target below) and, when `s < 0` (target above) and the distance is not below the tolerance
of the normalisation (`s * s >= SMALL_NUMBER`), `-G * sqrt (2 * fGravity * |s|)`, whose
squared length is `2 * fGravity * |s|` for a gravity magnitude that is not negative. -/
theorem launch_velocity_on_gravity_axis (Arc : ArcSolver K)
    (self : UHomingProjectileMotion K) (s : K)
    (hG : self.m_Params.GravityDirection.SizeSquared = 1)
    (hT : self.m_Params.TargetLocation
      = self.m_Params.LaunchLocation + self.m_Params.GravityDirection * s) :
    (0 < s → self.CalculateLaunchVelocity Arc = FVector.ZeroVector)
      ∧ (s < 0 → SMALL_NUMBER ≤ s * s →
          self.CalculateLaunchVelocity Arc
              = -self.m_Params.GravityDirection
                * FMath.Sqrt (2 * self.m_Params.fGravity * |s|)
            ∧ (0 ≤ self.m_Params.fGravity →
              (self.CalculateLaunchVelocity Arc).SizeSquared
                = 2 * self.m_Params.fGravity * |s|)) := by
  obtain ⟨h1, _, h3⟩ := CalculateLaunchVelocity_on_axis Arc self s hG hT
  refine ⟨h1, fun hs hge => ⟨h3 hs hge, fun hg => ?_⟩⟩
  rw [h3 hs hge, FVector.SizeSquared_mul, FVector.SizeSquared_neg, hG, one_mul]
  exact FMath.Sqrt_mul_self _ (mul_nonneg (mul_nonneg (by norm_num) hg) (abs_nonneg s))

/-- C7 fails as stated: with the target `1 / 100000` above the launch location on the
gravity axis (`s = -1 / 100000`) and gravity magnitude 2, `CalculateLaunchVelocity` is the
zero vector, while `-G * sqrt (2 * fGravity * d)` is not. -/
theorem launch_velocity_above_within_tolerance :
    (SampleVertical (-1 / 100000 : ℝ) 2).m_Params.GravityDirection.SizeSquared = 1
      ∧ (SampleVertical (-1 / 100000 : ℝ) 2).m_Params.TargetLocation
        = (SampleVertical (-1 / 100000 : ℝ) 2).m_Params.LaunchLocation
          + (SampleVertical (-1 / 100000 : ℝ) 2).m_Params.GravityDirection * (-1 / 100000 : ℝ)
      ∧ (-1 / 100000 : ℝ) < 0
      ∧ (∀ Arc : ArcSolver ℝ,
          (SampleVertical (-1 / 100000 : ℝ) 2).CalculateLaunchVelocity Arc = FVector.ZeroVector)
      ∧ -(SampleVertical (-1 / 100000 : ℝ) 2).m_Params.GravityDirection
          * FMath.Sqrt (2 * (SampleVertical (-1 / 100000 : ℝ) 2).m_Params.fGravity
            * |(-1 / 100000 : ℝ)|) ≠ FVector.ZeroVector := by
  have hG : (SampleVertical (-1 / 100000 : ℝ) 2).m_Params.GravityDirection.SizeSquared = 1 := by
    norm_num [SampleVertical, FVector.SizeSquared, FVector.DownVector]
  refine ⟨hG, rfl, by norm_num, ?_, ?_⟩
  · intro Arc
    exact (CalculateLaunchVelocity_on_axis Arc (SampleVertical (-1 / 100000 : ℝ) 2)
      (-1 / 100000) hG rfl).2.1 (by norm_num [SMALL_NUMBER])
  · intro h
    have hz := congrArg FVector.Z h
    have hp : (0 : ℝ) < FMath.Sqrt (2 * (SampleVertical (-1 / 100000 : ℝ) 2).m_Params.fGravity
        * |(-1 / 100000 : ℝ)|) :=
      Sqrt_pos _ (by norm_num [SampleVertical])
    simp only [FVector.mul_Z, FVector.neg_Z, FVector.ZeroVector_Z] at hz
    have hd : (SampleVertical (-1 / 100000 : ℝ) 2).m_Params.GravityDirection.Z = -1 := rfl
    rw [hd] at hz
    linarith

/-- The amended statement at the target 2 above the launch location with gravity
magnitude 1: the launch velocity is `(0, 0, 2)`, of squared length 4. -/
theorem launch_velocity_on_gravity_axis_witness :
    ((SampleVertical (-2 : ℝ) 1).m_Params.GravityDirection.SizeSquared = 1
      ∧ (SampleVertical (-2 : ℝ) 1).m_Params.TargetLocation
        = (SampleVertical (-2 : ℝ) 1).m_Params.LaunchLocation
          + (SampleVertical (-2 : ℝ) 1).m_Params.GravityDirection * (-2 : ℝ)
      ∧ (-2 : ℝ) < 0 ∧ SMALL_NUMBER ≤ (-2 : ℝ) * (-2)
      ∧ (0 : ℝ) ≤ (SampleVertical (-2 : ℝ) 1).m_Params.fGravity)
      ∧ (SampleVertical (-2 : ℝ) 1).CalculateLaunchVelocity (fun _ _ _ _ _ => none)
        = ⟨0, 0, 2⟩
      ∧ ((SampleVertical (-2 : ℝ) 1).CalculateLaunchVelocity
          (fun _ _ _ _ _ => none)).SizeSquared = 4 := by
  have hG : (SampleVertical (-2 : ℝ) 1).m_Params.GravityDirection.SizeSquared = 1 := by
    norm_num [SampleVertical, FVector.SizeSquared, FVector.DownVector]
  have hl : SMALL_NUMBER ≤ (-2 : ℝ) * (-2) := by norm_num [SMALL_NUMBER]
  have hg : (0 : ℝ) ≤ (SampleVertical (-2 : ℝ) 1).m_Params.fGravity := by
    norm_num [SampleVertical]
  have key := (launch_velocity_on_gravity_axis (fun _ _ _ _ _ => none)
    (SampleVertical (-2 : ℝ) 1) (-2) hG rfl).2 (by norm_num) hl
  refine ⟨⟨hG, rfl, by norm_num, hl, hg⟩, ?_, ?_⟩
  · rw [key.1]
    have h4 : (2 : ℝ) * (SampleVertical (-2 : ℝ) 1).m_Params.fGravity * |(-2 : ℝ)|
        = 2 * 2 := by
      norm_num [SampleVertical]
    rw [h4, Sqrt_mul_self_of_nonneg (2 : ℝ) (by norm_num)]
    ext <;> norm_num [SampleVertical, FVector.DownVector]
  · rw [key.2 hg]
    norm_num [SampleVertical]

/-! ### The linear speed -/

/-- C8, as amended. In every effective `UpdateHPM` call (valid context, remaining time
greater than 0) the linear speed that is stored and returned is `GetHomingLinearSpeed`, the
length of the plane-projected offset to the target divided by the remaining time, and it is
never negative: a target behind the projectile turns the linear direction, not the sign of
the speed. -/
theorem linear_speed_nonneg (self : UHomingProjectileMotion K) (Cur Tgt : FVector K) (Ts : K)
    (XVel YVel : FVector K) (Ctx : UObject K) (World : UWorld K)
    (h : self.WorldContextObj = some Ctx) (hw : Ctx.GetWorld = some World)
    (ht : 0 < self.m_ProjectileState.fTimeLeft) :
    (UpdateHPM self Cur Tgt Ts XVel YVel).2.m_ProjectileState.fLinearSpeed
        = (FVector.PointPlaneProject Tgt self.m_Params.LaunchLocation
              self.m_Params.GravityDirection
            - FVector.PointPlaneProject Cur self.m_Params.LaunchLocation
              self.m_Params.GravityDirection).Size / self.m_ProjectileState.fTimeLeft
      ∧ (UpdateHPM self Cur Tgt Ts XVel YVel).1.fLinearSpeed
        = (UpdateHPM self Cur Tgt Ts XVel YVel).2.m_ProjectileState.fLinearSpeed
      ∧ 0 ≤ (UpdateHPM self Cur Tgt Ts XVel YVel).2.m_ProjectileState.fLinearSpeed := by
  rw [UpdateHPM_effective self Cur Tgt Ts XVel YVel Ctx World h hw ht]
  refine ⟨rfl, rfl, ?_⟩
  exact div_nonneg (FVector.Size_nonneg _) ht.le

/-- C8 fails as stated: no object with a valid context and remaining time greater than 0,
no location and no target make `UpdateHPM` store a linear speed below 0. -/
theorem no_negative_linear_speed :
    ¬ ∃ (self : UHomingProjectileMotion ℝ) (Cur Tgt : FVector ℝ) (Ts : ℝ)
        (XVel YVel : FVector ℝ) (Ctx : UObject ℝ) (World : UWorld ℝ),
        self.WorldContextObj = some Ctx ∧ Ctx.GetWorld = some World
          ∧ 0 < self.m_ProjectileState.fTimeLeft
          ∧ (UpdateHPM self Cur Tgt Ts XVel YVel).2.m_ProjectileState.fLinearSpeed < 0 := by
  rintro ⟨self, Cur, Tgt, Ts, XVel, YVel, Ctx, World, h, hw, ht, hneg⟩
  rw [UpdateHPM_effective self Cur Tgt Ts XVel YVel Ctx World h hw ht] at hneg
  exact absurd hneg (not_lt.mpr (div_nonneg (FVector.Size_nonneg _) ht.le))

/-- With the target one unit behind the projectile along the X axis and two time units
left, the stored linear speed is `1 / 2`, not its negative. -/
theorem linear_speed_nonneg_witness :
    ((SampleFlight (1 : ℝ) 2 2 0).WorldContextObj = some (SampleContext 1)
      ∧ (SampleContext (1 : ℝ)).GetWorld = some ⟨1⟩
      ∧ 0 < (SampleFlight (1 : ℝ) 2 2 0).m_ProjectileState.fTimeLeft)
      ∧ (UpdateHPM (SampleFlight (1 : ℝ) 2 2 0) ⟨1, 0, 0⟩ ⟨0, 0, 0⟩ 0 FVector.ZeroVector
          FVector.ZeroVector).2.m_ProjectileState.fLinearSpeed = 1 / 2
      ∧ 0 ≤ (UpdateHPM (SampleFlight (1 : ℝ) 2 2 0) ⟨1, 0, 0⟩ ⟨0, 0, 0⟩ 0 FVector.ZeroVector
          FVector.ZeroVector).2.m_ProjectileState.fLinearSpeed := by
  have ht : 0 < (SampleFlight (1 : ℝ) 2 2 0).m_ProjectileState.fTimeLeft := by
    norm_num [SampleFlight]
  have key := linear_speed_nonneg (SampleFlight (1 : ℝ) 2 2 0) ⟨1, 0, 0⟩ ⟨0, 0, 0⟩ 0
    FVector.ZeroVector FVector.ZeroVector (SampleContext 1) ⟨1⟩ rfl rfl ht
  refine ⟨⟨rfl, rfl, ht⟩, ?_, key.2.2⟩
  rw [key.1]
  have h2 : (FVector.PointPlaneProject (⟨0, 0, 0⟩ : FVector ℝ)
        (SampleFlight (1 : ℝ) 2 2 0).m_Params.LaunchLocation
        (SampleFlight (1 : ℝ) 2 2 0).m_Params.GravityDirection
      - FVector.PointPlaneProject (⟨1, 0, 0⟩ : FVector ℝ)
        (SampleFlight (1 : ℝ) 2 2 0).m_Params.LaunchLocation
        (SampleFlight (1 : ℝ) 2 2 0).m_Params.GravityDirection).Size
      = FMath.Sqrt ((1 : ℝ) * 1) := by
    simp only [FVector.Size]
    norm_num [FVector.PointPlaneProject, FVector.PointPlaneDist, FVector.DotProduct,
      SampleFlight, FVector.DownVector, FVector.ZeroVector]
  rw [h2, Sqrt_mul_self_of_nonneg (1 : ℝ) (by norm_num)]
  norm_num [SampleFlight]

/-! ### The stored gravity direction -/

/-- C9, as amended. `SetupHPM` with a non-null context stores the launch parameters as they
are given: the stored gravity direction, which the plane projections of `GetLinearDirection`
use, is the caller's and not a normalised copy of it, so it has length 1 exactly when the
caller's has. -/
theorem SetupHPM_stores_gravity_direction (Arc : ArcSolver K)
    (self : UHomingProjectileMotion K) (Ctx : UObject K) (LaunchParams : FProjectileParams K)
    (XVel YVel : FVector K) :
    (SetupHPM Arc self (some Ctx) LaunchParams XVel YVel).m_Params.GravityDirection
        = LaunchParams.GravityDirection
      ∧ ((SetupHPM Arc self (some Ctx) LaunchParams XVel YVel).m_Params.GravityDirection.Size = 1
        ↔ LaunchParams.GravityDirection.Size = 1)
      ∧ ∀ Cur Tgt : FVector K,
        PlaneOffset (SetupHPM Arc self (some Ctx) LaunchParams XVel YVel) Cur Tgt
          = FVector.PointPlaneProject Tgt LaunchParams.LaunchLocation
              LaunchParams.GravityDirection
            - FVector.PointPlaneProject Cur LaunchParams.LaunchLocation
              LaunchParams.GravityDirection := by
  have hP := (SetupHPM_fields Arc self Ctx LaunchParams XVel YVel).2.1
  refine ⟨by rw [hP], by rw [hP], fun Cur Tgt => ?_⟩
  rw [PlaneOffset, hP]

/-- C9 fails as stated: with the non-zero gravity direction `(0, 0, -2)` and a non-null
context, the direction stored by `SetupHPM` is `(0, 0, -2)`, of length 2. -/
theorem stored_gravity_direction_not_unit :
    (⟨0, 0, -2⟩ : FVector ℝ) ≠ FVector.ZeroVector
      ∧ (SetupHPM (fun _ _ _ _ _ => none) (SampleFlight (1 : ℝ) 2 2 0) (some (SampleContext 1))
          ⟨FVector.ZeroVector, ⟨4, 0, 0⟩, ⟨0, 0, -2⟩, 2, 1 / 2⟩ FVector.ZeroVector
          FVector.ZeroVector).m_Params.GravityDirection = ⟨0, 0, -2⟩
      ∧ (SetupHPM (fun _ _ _ _ _ => none) (SampleFlight (1 : ℝ) 2 2 0) (some (SampleContext 1))
          ⟨FVector.ZeroVector, ⟨4, 0, 0⟩, ⟨0, 0, -2⟩, 2, 1 / 2⟩ FVector.ZeroVector
          FVector.ZeroVector).m_Params.GravityDirection.Size = 2 := by
  refine ⟨?_, ?_, ?_⟩
  · intro h
    have h1 := congrArg FVector.Z h
    norm_num [FVector.ZeroVector] at h1
  · simp [SetupHPM]
  · have h1 : (SetupHPM (fun _ _ _ _ _ => none) (SampleFlight (1 : ℝ) 2 2 0)
        (some (SampleContext 1)) ⟨FVector.ZeroVector, ⟨4, 0, 0⟩, ⟨0, 0, -2⟩, 2, 1 / 2⟩
        FVector.ZeroVector FVector.ZeroVector).m_Params.GravityDirection = ⟨0, 0, -2⟩ := by
      simp [SetupHPM]
    rw [h1]
    have h2 : (⟨0, 0, -2⟩ : FVector ℝ).Size = FMath.Sqrt ((2 : ℝ) * 2) := by
      simp only [FVector.Size]
      norm_num
    rw [h2, Sqrt_mul_self_of_nonneg (2 : ℝ) (by norm_num)]

/-! ### The decomposition -/

/-- C10. Decomposition completeness: for a vector `V` whose squared length is above
`SMALL_NUMBER`, a unit linear direction `L` and a unit gravity direction `G` orthogonal to
it, `GetLinearComponent V + GetGravityComponent V` is `(V.L) L + (V.G) G`, and `V` minus
that sum is orthogonal to both `L` and `G`. -/
theorem decomposition_completeness (self : UHomingProjectileMotion K) (V : FVector K)
    (hV : V.SizeSquared > SMALL_NUMBER)
    (hL : self.m_ProjectileState.LinearDirection.SizeSquared = 1)
    (hG : self.m_Params.GravityDirection.SizeSquared = 1)
    (hLG : FVector.DotProduct self.m_ProjectileState.LinearDirection
      self.m_Params.GravityDirection = 0) :
    self.GetLinearComponent V + self.GetGravityComponent V
        = self.m_ProjectileState.LinearDirection
            * FVector.DotProduct V self.m_ProjectileState.LinearDirection
          + self.m_Params.GravityDirection
            * FVector.DotProduct V self.m_Params.GravityDirection
      ∧ FVector.DotProduct
          (V - (self.GetLinearComponent V + self.GetGravityComponent V))
          self.m_ProjectileState.LinearDirection = 0
      ∧ FVector.DotProduct
          (V - (self.GetLinearComponent V + self.GetGravityComponent V))
          self.m_Params.GravityDirection = 0 := by
  have hsum : self.GetLinearComponent V + self.GetGravityComponent V
      = self.m_ProjectileState.LinearDirection
          * FVector.DotProduct V self.m_ProjectileState.LinearDirection
        + self.m_Params.GravityDirection
          * FVector.DotProduct V self.m_Params.GravityDirection := by
    simp only [GetLinearComponent, GetGravityComponent, if_pos hV, FVector.ProjectOnTo,
      FVector.DotProduct_self, hL, hG, div_one]
  refine ⟨hsum, ?_, ?_⟩
  · rw [hsum]
    simp only [FVector.DotProduct, FVector.SizeSquared] at *
    simp only [FVector.sub_X, FVector.sub_Y, FVector.sub_Z, FVector.add_X, FVector.add_Y,
      FVector.add_Z, FVector.mul_X, FVector.mul_Y, FVector.mul_Z]
    linear_combination
      (-(V.X * self.m_ProjectileState.LinearDirection.X
          + V.Y * self.m_ProjectileState.LinearDirection.Y
          + V.Z * self.m_ProjectileState.LinearDirection.Z)) * hL
      - (V.X * self.m_Params.GravityDirection.X + V.Y * self.m_Params.GravityDirection.Y
          + V.Z * self.m_Params.GravityDirection.Z) * hLG
  · rw [hsum]
    simp only [FVector.DotProduct, FVector.SizeSquared] at *
    simp only [FVector.sub_X, FVector.sub_Y, FVector.sub_Z, FVector.add_X, FVector.add_Y,
      FVector.add_Z, FVector.mul_X, FVector.mul_Y, FVector.mul_Z]
    linear_combination
      (-(V.X * self.m_Params.GravityDirection.X + V.Y * self.m_Params.GravityDirection.Y
          + V.Z * self.m_Params.GravityDirection.Z)) * hG
      - (V.X * self.m_ProjectileState.LinearDirection.X
          + V.Y * self.m_ProjectileState.LinearDirection.Y
          + V.Z * self.m_ProjectileState.LinearDirection.Z) * hLG

/-- The decomposition of `(1, 2, 3)` along the linear direction `(1, 0, 0)` and the gravity
direction `(0, 0, -1)` is `(1, 0, 3)`. -/
theorem decomposition_completeness_witness :
    ((⟨1, 2, 3⟩ : FVector ℝ).SizeSquared > SMALL_NUMBER
      ∧ (SampleFlight (1 : ℝ) 2 2 0).m_ProjectileState.LinearDirection.SizeSquared = 1
      ∧ (SampleFlight (1 : ℝ) 2 2 0).m_Params.GravityDirection.SizeSquared = 1
      ∧ FVector.DotProduct (SampleFlight (1 : ℝ) 2 2 0).m_ProjectileState.LinearDirection
          (SampleFlight (1 : ℝ) 2 2 0).m_Params.GravityDirection = 0)
      ∧ (SampleFlight (1 : ℝ) 2 2 0).GetLinearComponent ⟨1, 2, 3⟩
          + (SampleFlight (1 : ℝ) 2 2 0).GetGravityComponent ⟨1, 2, 3⟩
        = (⟨1, 0, 3⟩ : FVector ℝ) := by
  have h1 : (⟨1, 2, 3⟩ : FVector ℝ).SizeSquared > SMALL_NUMBER := by
    norm_num [FVector.SizeSquared, SMALL_NUMBER]
  have h2 : (SampleFlight (1 : ℝ) 2 2 0).m_ProjectileState.LinearDirection.SizeSquared = 1 := by
    norm_num [FVector.SizeSquared, SampleFlight, FVector.ForwardVector]
  have h3 : (SampleFlight (1 : ℝ) 2 2 0).m_Params.GravityDirection.SizeSquared = 1 := by
    norm_num [FVector.SizeSquared, SampleFlight, FVector.DownVector]
  have h4 : FVector.DotProduct (SampleFlight (1 : ℝ) 2 2 0).m_ProjectileState.LinearDirection
      (SampleFlight (1 : ℝ) 2 2 0).m_Params.GravityDirection = 0 := by
    norm_num [FVector.DotProduct, SampleFlight, FVector.DownVector, FVector.ForwardVector]
  refine ⟨⟨h1, h2, h3, h4⟩, ?_⟩
  rw [(decomposition_completeness (SampleFlight (1 : ℝ) 2 2 0) ⟨1, 2, 3⟩ h1 h2 h3 h4).1]
  ext <;>
    norm_num [FVector.DotProduct, SampleFlight, FVector.DownVector, FVector.ForwardVector]

/-! ### Initialize with a null context -/

/-- C11. Initialize with a null context is a no-op: for every object and every launch
parameters, `SetupHPM (null, params)` returns the object as it was, so the stored context,
the stored parameters and the trajectory state are all unchanged. -/
theorem SetupHPM_null_context (Arc : ArcSolver K) (self : UHomingProjectileMotion K)
    (LaunchParams : FProjectileParams K) (XVel YVel : FVector K) :
    SetupHPM Arc self none LaunchParams XVel YVel = self
      ∧ (SetupHPM Arc self none LaunchParams XVel YVel).WorldContextObj = self.WorldContextObj
      ∧ (SetupHPM Arc self none LaunchParams XVel YVel).m_Params = self.m_Params
      ∧ (SetupHPM Arc self none LaunchParams XVel YVel).m_ProjectileState
        = self.m_ProjectileState :=
  ⟨rfl, rfl, rfl, rfl⟩

/-! ### The state returned by a no-op -/

/-- C12, as amended. The state returned by a no-op `UpdateHPM` (null context, context
without a world, or remaining time not above 0) is the default-constructed state: its
linear direction is `ForwardVector = (1, 0, 0)`, its launch velocity and net velocity are
the zero vector, and linear speed, total time and remaining time are 0. -/
theorem UpdateHPM_noop_returns_default (self : UHomingProjectileMotion K)
    (Cur Tgt : FVector K) (Ts : K) (XVel YVel : FVector K)
    (h : self.WorldContextObj = none
      ∨ (∃ Ctx, self.WorldContextObj = some Ctx ∧ Ctx.GetWorld = none)
      ∨ self.m_ProjectileState.fTimeLeft ≤ 0) :
    (UpdateHPM self Cur Tgt Ts XVel YVel).1.LinearDirection = ⟨1, 0, 0⟩
      ∧ (UpdateHPM self Cur Tgt Ts XVel YVel).1.LaunchVelocity = FVector.ZeroVector
      ∧ (UpdateHPM self Cur Tgt Ts XVel YVel).1.NetVelocity = FVector.ZeroVector
      ∧ (UpdateHPM self Cur Tgt Ts XVel YVel).1.fLinearSpeed = 0
      ∧ (UpdateHPM self Cur Tgt Ts XVel YVel).1.fTotalTime = 0
      ∧ (UpdateHPM self Cur Tgt Ts XVel YVel).1.fTimeLeft = 0 := by
  have hret : UpdateHPM self Cur Tgt Ts XVel YVel = (FProjectileState.Default XVel YVel, self) := by
    rcases h with h | ⟨Ctx, h, hw⟩ | h
    · exact UpdateHPM_of_null self Cur Tgt Ts XVel YVel h
    · exact UpdateHPM_of_no_world self Cur Tgt Ts XVel YVel Ctx h hw
    · exact UpdateHPM_of_time_up self Cur Tgt Ts XVel YVel h
  rw [hret]
  exact ⟨rfl, rfl, rfl, rfl, rfl, rfl⟩

/-- C12 fails as stated: a call on a freshly constructed object, before any `SetupHPM`, is
a no-op, and the linear direction of the state it returns is `(1, 0, 0)`, not the zero
vector. -/
theorem noop_linear_direction_not_zero :
    (SampleFresh : UHomingProjectileMotion ℝ).WorldContextObj = none
      ∧ (UpdateHPM (SampleFresh : UHomingProjectileMotion ℝ) ⟨0, 0, 0⟩ ⟨4, 0, 0⟩ 0
          FVector.ZeroVector FVector.ZeroVector).2 = SampleFresh
      ∧ (UpdateHPM (SampleFresh : UHomingProjectileMotion ℝ) ⟨0, 0, 0⟩ ⟨4, 0, 0⟩ 0
          FVector.ZeroVector FVector.ZeroVector).1.LinearDirection = ⟨1, 0, 0⟩
      ∧ (UpdateHPM (SampleFresh : UHomingProjectileMotion ℝ) ⟨0, 0, 0⟩ ⟨4, 0, 0⟩ 0
          FVector.ZeroVector FVector.ZeroVector).1.LinearDirection ≠ FVector.ZeroVector := by
  have hret := UpdateHPM_of_null (SampleFresh : UHomingProjectileMotion ℝ) ⟨0, 0, 0⟩
    ⟨4, 0, 0⟩ 0 FVector.ZeroVector FVector.ZeroVector rfl
  rw [hret]
  refine ⟨rfl, rfl, rfl, ?_⟩
  intro h
  have hx := congrArg FVector.X h
  simp [FProjectileState.Default, FVector.ForwardVector, FVector.ZeroVector] at hx

/-- The amended statement at an object whose flight is over (remaining time 0). -/
theorem UpdateHPM_noop_returns_default_witness :
    ((SampleFlight (1 : ℝ) 2 0 0).WorldContextObj = none
        ∨ (∃ Ctx, (SampleFlight (1 : ℝ) 2 0 0).WorldContextObj = some Ctx ∧ Ctx.GetWorld = none)
        ∨ (SampleFlight (1 : ℝ) 2 0 0).m_ProjectileState.fTimeLeft ≤ 0)
      ∧ (UpdateHPM (SampleFlight (1 : ℝ) 2 0 0) ⟨1, 0, 0⟩ ⟨4, 0, 0⟩ 0 ⟨7, 7, 7⟩ ⟨9, 9, 9⟩
          ).1.LinearDirection = ⟨1, 0, 0⟩
      ∧ (UpdateHPM (SampleFlight (1 : ℝ) 2 0 0) ⟨1, 0, 0⟩ ⟨4, 0, 0⟩ 0 ⟨7, 7, 7⟩ ⟨9, 9, 9⟩
          ).1.fTimeLeft = 0 := by
  have key := UpdateHPM_noop_returns_default (SampleFlight (1 : ℝ) 2 0 0) ⟨1, 0, 0⟩ ⟨4, 0, 0⟩ 0
    ⟨7, 7, 7⟩ ⟨9, 9, 9⟩ (Or.inr (Or.inr (le_refl (0 : ℝ))))
  exact ⟨Or.inr (Or.inr (le_refl (0 : ℝ))), key.1, key.2.2.2.2.2⟩

/-! ### Re-initialization -/

/-- C13. Re-initialization resets the trajectory: for every launch parameters, every
non-null context and any two prior objects (with any contents of the storage that
`FProjectileState ()` leaves uninitialised), `SetupHPM` produces the same object, hence
the same trajectory state, in both; in it the total flight time equals the remaining time
and the net velocity is the zero vector. -/
theorem SetupHPM_resets (Arc : ArcSolver K) (self other : UHomingProjectileMotion K)
    (Ctx : UObject K) (LaunchParams : FProjectileParams K) (XVel YVel XVel2 YVel2 : FVector K) :
    SetupHPM Arc self (some Ctx) LaunchParams XVel YVel
        = SetupHPM Arc other (some Ctx) LaunchParams XVel2 YVel2
      ∧ (SetupHPM Arc self (some Ctx) LaunchParams XVel YVel).m_ProjectileState
        = (SetupHPM Arc other (some Ctx) LaunchParams XVel2 YVel2).m_ProjectileState
      ∧ (SetupHPM Arc self (some Ctx) LaunchParams XVel YVel).m_ProjectileState.fTotalTime
        = (SetupHPM Arc self (some Ctx) LaunchParams XVel YVel).m_ProjectileState.fTimeLeft
      ∧ (SetupHPM Arc self (some Ctx) LaunchParams XVel YVel).m_ProjectileState.NetVelocity
        = FVector.ZeroVector :=
  ⟨rfl, rfl, rfl, rfl⟩

/-! ### The acceleration of a call -/

/-- C14. Acceleration re-derivation: in every effective `UpdateHPM` call (valid context,
remaining time `t > 0`) with a unit gravity direction `G`, the linear direction of the call
is orthogonal to `G`, the quantity `dX` computed from the point-plane projection equals
`G . (target - current)`, the acceleration `a = 2 * (dX - V * t) / (t * t)`, with `V` the
dot product of the old vertical velocity and `G`, satisfies
`V * t + (1 / 2) * a * (t * t) = dX`, and the new vertical velocity is the old one plus
`a * G * deltaTime`. -/
theorem acceleration_rederivation (self : UHomingProjectileMotion K) (Cur Tgt : FVector K)
    (Ts : K) (XVel YVel : FVector K) (Ctx : UObject K) (World : UWorld K)
    (h : self.WorldContextObj = some Ctx) (hw : Ctx.GetWorld = some World)
    (ht : 0 < self.m_ProjectileState.fTimeLeft)
    (hG : self.m_Params.GravityDirection.SizeSquared = 1) :
    FVector.DotProduct (UpdateHPM self Cur Tgt Ts XVel YVel).2.m_ProjectileState.LinearDirection
        self.m_Params.GravityDirection = 0
      ∧ FVector.DotProduct self.m_Params.GravityDirection
          (FVector.PointPlaneProject Tgt Cur
            (UpdateHPM self Cur Tgt Ts XVel YVel).2.m_ProjectileState.LinearDirection - Cur)
        = FVector.DotProduct self.m_Params.GravityDirection (Tgt - Cur)
      ∧ FVector.DotProduct self.m_ProjectileState.YVel self.m_Params.GravityDirection
            * self.m_ProjectileState.fTimeLeft
          + 1 / 2
            * ((2 * (FVector.DotProduct self.m_Params.GravityDirection (Tgt - Cur)
                - FVector.DotProduct self.m_ProjectileState.YVel self.m_Params.GravityDirection
                  * self.m_ProjectileState.fTimeLeft))
              / (self.m_ProjectileState.fTimeLeft * self.m_ProjectileState.fTimeLeft))
            * (self.m_ProjectileState.fTimeLeft * self.m_ProjectileState.fTimeLeft)
        = FVector.DotProduct self.m_Params.GravityDirection (Tgt - Cur)
      ∧ (UpdateHPM self Cur Tgt Ts XVel YVel).2.m_ProjectileState.YVel
        = self.m_ProjectileState.YVel
          + ((2 * (FVector.DotProduct self.m_Params.GravityDirection (Tgt - Cur)
                - FVector.DotProduct self.m_ProjectileState.YVel self.m_Params.GravityDirection
                  * self.m_ProjectileState.fTimeLeft))
              / (self.m_ProjectileState.fTimeLeft * self.m_ProjectileState.fTimeLeft))
            * self.m_Params.GravityDirection * World.GetDeltaSeconds := by
  have hL := GetLinearDirection_dot self Cur Tgt hG
  have hdX : FVector.DotProduct self.m_Params.GravityDirection
      (FVector.PointPlaneProject Tgt Cur (self.GetLinearDirection Cur Tgt) - Cur)
      = FVector.DotProduct self.m_Params.GravityDirection (Tgt - Cur) :=
    dX_eq_GravityOffset self Cur Tgt (self.GetLinearDirection Cur Tgt) hL
  have ht0 : self.m_ProjectileState.fTimeLeft ≠ 0 := ht.ne'
  rw [UpdateHPM_effective self Cur Tgt Ts XVel YVel Ctx World h hw ht]
  refine ⟨hL, hdX, ?_, ?_⟩
  · field_simp
  · simp only [hdX]

/-- One second into a flight of two seconds, with the projectile at `(1, 0, 0)`, the target
at `(4, 0, -3)` and no vertical velocity yet: `dX = 3`, the acceleration is `6` and the new
vertical velocity is `(0, 0, -6)`. -/
theorem acceleration_rederivation_witness :
    ((SampleFlight (1 : ℝ) 2 1 0).WorldContextObj = some (SampleContext 1)
      ∧ (SampleContext (1 : ℝ)).GetWorld = some ⟨1⟩
      ∧ 0 < (SampleFlight (1 : ℝ) 2 1 0).m_ProjectileState.fTimeLeft
      ∧ (SampleFlight (1 : ℝ) 2 1 0).m_Params.GravityDirection.SizeSquared = 1)
      ∧ FVector.DotProduct (SampleFlight (1 : ℝ) 2 1 0).m_Params.GravityDirection
          (FVector.PointPlaneProject ⟨4, 0, -3⟩ ⟨1, 0, 0⟩
            (UpdateHPM (SampleFlight (1 : ℝ) 2 1 0) ⟨1, 0, 0⟩ ⟨4, 0, -3⟩ 0 FVector.ZeroVector
              FVector.ZeroVector).2.m_ProjectileState.LinearDirection - ⟨1, 0, 0⟩) = 3
      ∧ (UpdateHPM (SampleFlight (1 : ℝ) 2 1 0) ⟨1, 0, 0⟩ ⟨4, 0, -3⟩ 0 FVector.ZeroVector
          FVector.ZeroVector).2.m_ProjectileState.YVel = ⟨0, 0, -6⟩ := by
  have ht : 0 < (SampleFlight (1 : ℝ) 2 1 0).m_ProjectileState.fTimeLeft := by
    norm_num [SampleFlight]
  have hG : (SampleFlight (1 : ℝ) 2 1 0).m_Params.GravityDirection.SizeSquared = 1 := by
    norm_num [SampleFlight, FVector.DownVector, FVector.SizeSquared]
  have key := acceleration_rederivation (SampleFlight (1 : ℝ) 2 1 0) ⟨1, 0, 0⟩ ⟨4, 0, -3⟩ 0
    FVector.ZeroVector FVector.ZeroVector (SampleContext 1) ⟨1⟩ rfl rfl ht hG
  refine ⟨⟨rfl, rfl, ht, hG⟩, ?_, ?_⟩
  · rw [key.2.1]
    norm_num [SampleFlight, FVector.DownVector, FVector.DotProduct]
  · rw [key.2.2.2]
    ext <;>
      norm_num [SampleFlight, FVector.DownVector, FVector.DotProduct, FVector.ZeroVector]

/-! ### The horizontal velocity of a call -/

/-- C15, as amended. In every effective `UpdateHPM` call (valid context, remaining time
`t > 0`) the stored horizontal velocity is `LinearDirection * fLinearSpeed` and the net
velocity is `XVel + YVel`. With `gap = P (target) - P (current)`, the offset between the
projections on the plane through the launch location with the gravity direction as normal:
when `gap` is the zero vector or its squared length is at least `SMALL_NUMBER`,
`XVel * t = gap`, and for a zero `gap` the horizontal velocity is the zero vector; when the
squared length of `gap` is below `SMALL_NUMBER`, the horizontal velocity is the fallback
direction `GetPerpendicularVector (G, 0)` times `|gap| / t`. -/
theorem horizontal_velocity_closes_gap (self : UHomingProjectileMotion K)
    (Cur Tgt : FVector K) (Ts : K) (XVel YVel : FVector K) (Ctx : UObject K) (World : UWorld K)
    (h : self.WorldContextObj = some Ctx) (hw : Ctx.GetWorld = some World)
    (ht : 0 < self.m_ProjectileState.fTimeLeft) :
    (UpdateHPM self Cur Tgt Ts XVel YVel).2.m_ProjectileState.XVel
        = (UpdateHPM self Cur Tgt Ts XVel YVel).2.m_ProjectileState.LinearDirection
          * (UpdateHPM self Cur Tgt Ts XVel YVel).2.m_ProjectileState.fLinearSpeed
      ∧ (UpdateHPM self Cur Tgt Ts XVel YVel).2.m_ProjectileState.NetVelocity
        = (UpdateHPM self Cur Tgt Ts XVel YVel).2.m_ProjectileState.XVel
          + (UpdateHPM self Cur Tgt Ts XVel YVel).2.m_ProjectileState.YVel
      ∧ (PlaneOffset self Cur Tgt = FVector.ZeroVector
          ∨ SMALL_NUMBER ≤ (PlaneOffset self Cur Tgt).SizeSquared →
        (UpdateHPM self Cur Tgt Ts XVel YVel).2.m_ProjectileState.XVel
            * self.m_ProjectileState.fTimeLeft
          = PlaneOffset self Cur Tgt)
      ∧ (PlaneOffset self Cur Tgt = FVector.ZeroVector →
        (UpdateHPM self Cur Tgt Ts XVel YVel).2.m_ProjectileState.XVel = FVector.ZeroVector)
      ∧ ((PlaneOffset self Cur Tgt).SizeSquared < SMALL_NUMBER →
        (UpdateHPM self Cur Tgt Ts XVel YVel).2.m_ProjectileState.XVel
          = GetPerpendicularVector self.m_Params.GravityDirection 0
            * ((PlaneOffset self Cur Tgt).Size / self.m_ProjectileState.fTimeLeft)) := by
  have ht0 : self.m_ProjectileState.fTimeLeft ≠ 0 := ht.ne'
  rw [UpdateHPM_effective self Cur Tgt Ts XVel YVel Ctx World h hw ht]
  refine ⟨rfl, rfl, ?_, ?_, ?_⟩
  · intro hgap
    simp only [XVel_closes_offset self Cur Tgt ht hgap, FVector.mul_mul]
    ext <;> simp <;> field_simp
  · intro h0
    simp only [XVel_closes_offset self Cur Tgt ht (Or.inl h0), h0, FVector.ZeroVector_mul]
  · intro hlt
    simp only [(GetLinearDirection_cases self Cur Tgt).2 hlt]
    rfl

/-- C15 fails as stated: two seconds before the end of a flight with gravity along -Z, with
the projectile at the origin and the target at `(1/100000, 0, 0)`, the call is effective,
the plane-projected gap is `(1/100000, 0, 0)` and the stored horizontal velocity times the
remaining time is `(-1/100000, 0, 0)`: it points away from the target. -/
theorem horizontal_velocity_within_tolerance :
    (SampleFlight (1 : ℝ) 2 2 0).WorldContextObj = some (SampleContext 1)
      ∧ (SampleContext (1 : ℝ)).GetWorld = some ⟨1⟩
      ∧ 0 < (SampleFlight (1 : ℝ) 2 2 0).m_ProjectileState.fTimeLeft
      ∧ (SampleFlight (1 : ℝ) 2 2 0).m_Params.GravityDirection.SizeSquared = 1
      ∧ PlaneOffset (SampleFlight (1 : ℝ) 2 2 0) ⟨0, 0, 0⟩ ⟨1 / 100000, 0, 0⟩
        = ⟨1 / 100000, 0, 0⟩
      ∧ (UpdateHPM (SampleFlight (1 : ℝ) 2 2 0) ⟨0, 0, 0⟩ ⟨1 / 100000, 0, 0⟩ 0
            FVector.ZeroVector FVector.ZeroVector).2.m_ProjectileState.XVel
          * (SampleFlight (1 : ℝ) 2 2 0).m_ProjectileState.fTimeLeft
        = ⟨-(1 / 100000), 0, 0⟩
      ∧ (UpdateHPM (SampleFlight (1 : ℝ) 2 2 0) ⟨0, 0, 0⟩ ⟨1 / 100000, 0, 0⟩ 0
            FVector.ZeroVector FVector.ZeroVector).2.m_ProjectileState.XVel
          * (SampleFlight (1 : ℝ) 2 2 0).m_ProjectileState.fTimeLeft
        ≠ PlaneOffset (SampleFlight (1 : ℝ) 2 2 0) ⟨0, 0, 0⟩ ⟨1 / 100000, 0, 0⟩ := by
  have ht : 0 < (SampleFlight (1 : ℝ) 2 2 0).m_ProjectileState.fTimeLeft := by
    norm_num [SampleFlight]
  have hG : (SampleFlight (1 : ℝ) 2 2 0).m_Params.GravityDirection.SizeSquared = 1 := by
    norm_num [SampleFlight, FVector.DownVector, FVector.SizeSquared]
  have hoff : PlaneOffset (SampleFlight (1 : ℝ) 2 2 0) ⟨0, 0, 0⟩ ⟨1 / 100000, 0, 0⟩
      = ⟨1 / 100000, 0, 0⟩ := by
    rw [(Sample_offsets (SampleFlight (1 : ℝ) 2 2 0) ⟨0, 0, 0⟩ ⟨1 / 100000, 0, 0⟩ rfl rfl).1]
    ext <;> norm_num
  have hX := Sample_fallback_XVel (SampleFlight (1 : ℝ) 2 2 0) ⟨0, 0, 0⟩ ⟨1 / 100000, 0, 0⟩ 0
    FVector.ZeroVector FVector.ZeroVector (SampleContext 1) ⟨1⟩ rfl rfl ht rfl rfl
    (by norm_num [FVector.SizeSquared, SMALL_NUMBER])
  have hsz : (⟨(1 / 100000 : ℝ) - 0, (0 : ℝ) - 0, 0⟩ : FVector ℝ).Size = 1 / 100000 := by
    have h1 : (⟨(1 / 100000 : ℝ) - 0, (0 : ℝ) - 0, 0⟩ : FVector ℝ) = ⟨1 / 100000, 0, 0⟩ := by
      ext <;> norm_num
    rw [h1, FVector.Size_along_X, abs_of_pos (by norm_num)]
  have hval : (UpdateHPM (SampleFlight (1 : ℝ) 2 2 0) ⟨0, 0, 0⟩ ⟨1 / 100000, 0, 0⟩ 0
        FVector.ZeroVector FVector.ZeroVector).2.m_ProjectileState.XVel
      * (SampleFlight (1 : ℝ) 2 2 0).m_ProjectileState.fTimeLeft
      = ⟨-(1 / 100000), 0, 0⟩ := by
    rw [hX]
    simp only [hsz]
    ext <;> norm_num [SampleFlight]
  refine ⟨rfl, rfl, ht, hG, hoff, hval, ?_⟩
  rw [hval, hoff]
  intro hc
  have hx := congrArg FVector.X hc
  norm_num at hx

/-- The amended statement three seconds from a target three units ahead: the stored
horizontal velocity is `(1, 0, 0)` and in the remaining three seconds it covers the gap
`(3, 0, 0)`. -/
theorem horizontal_velocity_closes_gap_witness :
    ((SampleFlight (1 : ℝ) 4 3 0).WorldContextObj = some (SampleContext 1)
      ∧ (SampleContext (1 : ℝ)).GetWorld = some ⟨1⟩
      ∧ 0 < (SampleFlight (1 : ℝ) 4 3 0).m_ProjectileState.fTimeLeft
      ∧ SMALL_NUMBER
        ≤ (PlaneOffset (SampleFlight (1 : ℝ) 4 3 0) ⟨1, 0, 0⟩ ⟨4, 0, 0⟩).SizeSquared)
      ∧ (UpdateHPM (SampleFlight (1 : ℝ) 4 3 0) ⟨1, 0, 0⟩ ⟨4, 0, 0⟩ 0
            FVector.ZeroVector FVector.ZeroVector).2.m_ProjectileState.XVel
          * (SampleFlight (1 : ℝ) 4 3 0).m_ProjectileState.fTimeLeft
        = ⟨3, 0, 0⟩ := by
  have ht : 0 < (SampleFlight (1 : ℝ) 4 3 0).m_ProjectileState.fTimeLeft := by
    norm_num [SampleFlight]
  have hoff : PlaneOffset (SampleFlight (1 : ℝ) 4 3 0) ⟨1, 0, 0⟩ ⟨4, 0, 0⟩ = ⟨3, 0, 0⟩ := by
    rw [(Sample_offsets (SampleFlight (1 : ℝ) 4 3 0) ⟨1, 0, 0⟩ ⟨4, 0, 0⟩ rfl rfl).1]
    ext <;> norm_num
  have hbig : SMALL_NUMBER
      ≤ (PlaneOffset (SampleFlight (1 : ℝ) 4 3 0) ⟨1, 0, 0⟩ ⟨4, 0, 0⟩).SizeSquared := by
    rw [hoff]
    norm_num [FVector.SizeSquared, SMALL_NUMBER]
  have key := horizontal_velocity_closes_gap (SampleFlight (1 : ℝ) 4 3 0) ⟨1, 0, 0⟩ ⟨4, 0, 0⟩ 0
    FVector.ZeroVector FVector.ZeroVector (SampleContext 1) ⟨1⟩ rfl rfl ht
  refine ⟨⟨rfl, rfl, ht, hbig⟩, ?_⟩
  rw [key.2.2.1 (Or.inr hbig), hoff]

/-! ### The vertical flight time -/

/-- C17. Tick frame: every effective `UpdateHPM` call (valid context, remaining time `t`
greater than 0) with delta-time `dt` sets the remaining time to `t - dt`, so that with
`dt ≥ 0` the remaining time does not increase; the stored linear speed and the
acceleration of the stored vertical velocity are computed with `t`, the remaining time
before the decrement; and the total flight time, the launch velocity, the launch
parameters and the context are unchanged. The returned state is the stored one. -/
theorem tick_frame (self : UHomingProjectileMotion K) (Cur Tgt : FVector K) (Ts : K)
    (XVel YVel : FVector K) (Ctx : UObject K) (World : UWorld K)
    (h : self.WorldContextObj = some Ctx) (hw : Ctx.GetWorld = some World)
    (ht : 0 < self.m_ProjectileState.fTimeLeft) :
    (UpdateHPM self Cur Tgt Ts XVel YVel).2.m_ProjectileState.fTimeLeft
        = self.m_ProjectileState.fTimeLeft - World.GetDeltaSeconds
      ∧ (0 ≤ World.GetDeltaSeconds →
          (UpdateHPM self Cur Tgt Ts XVel YVel).2.m_ProjectileState.fTimeLeft
            ≤ self.m_ProjectileState.fTimeLeft)
      ∧ (UpdateHPM self Cur Tgt Ts XVel YVel).2.m_ProjectileState.fLinearSpeed
        = (PlaneOffset self Cur Tgt).Size / self.m_ProjectileState.fTimeLeft
      ∧ (UpdateHPM self Cur Tgt Ts XVel YVel).2.m_ProjectileState.YVel
        = self.m_ProjectileState.YVel
          + ((2 * (FVector.DotProduct self.m_Params.GravityDirection
                  (FVector.PointPlaneProject Tgt Cur
                    (UpdateHPM self Cur Tgt Ts XVel YVel).2.m_ProjectileState.LinearDirection
                    - Cur)
                - FVector.DotProduct self.m_ProjectileState.YVel self.m_Params.GravityDirection
                  * self.m_ProjectileState.fTimeLeft))
              / (self.m_ProjectileState.fTimeLeft * self.m_ProjectileState.fTimeLeft))
            * self.m_Params.GravityDirection * World.GetDeltaSeconds
      ∧ (UpdateHPM self Cur Tgt Ts XVel YVel).2.m_ProjectileState.fTotalTime
        = self.m_ProjectileState.fTotalTime
      ∧ (UpdateHPM self Cur Tgt Ts XVel YVel).2.m_ProjectileState.LaunchVelocity
        = self.m_ProjectileState.LaunchVelocity
      ∧ (UpdateHPM self Cur Tgt Ts XVel YVel).2.m_Params = self.m_Params
      ∧ (UpdateHPM self Cur Tgt Ts XVel YVel).2.WorldContextObj = self.WorldContextObj
      ∧ (UpdateHPM self Cur Tgt Ts XVel YVel).1
        = (UpdateHPM self Cur Tgt Ts XVel YVel).2.m_ProjectileState := by
  rw [UpdateHPM_effective self Cur Tgt Ts XVel YVel Ctx World h hw ht]
  refine ⟨rfl, ?_, rfl, rfl, rfl, rfl, rfl, rfl, rfl⟩
  intro hdt
  exact sub_le_self _ hdt

/-- A call two seconds before the end of a flight of three seconds, with frames of half a
second: a second and a half remain, the total stays three seconds and the parameters stay
as they were. -/
theorem tick_frame_witness :
    ((SampleFlight (1 / 2 : ℝ) 3 2 0).WorldContextObj = some (SampleContext (1 / 2))
      ∧ (SampleContext (1 / 2 : ℝ)).GetWorld = some ⟨1 / 2⟩
      ∧ 0 < (SampleFlight (1 / 2 : ℝ) 3 2 0).m_ProjectileState.fTimeLeft)
      ∧ (UpdateHPM (SampleFlight (1 / 2 : ℝ) 3 2 0) ⟨1, 0, 0⟩ ⟨4, 0, 0⟩ 0 FVector.ZeroVector
          FVector.ZeroVector).2.m_ProjectileState.fTimeLeft = 3 / 2
      ∧ (UpdateHPM (SampleFlight (1 / 2 : ℝ) 3 2 0) ⟨1, 0, 0⟩ ⟨4, 0, 0⟩ 0 FVector.ZeroVector
          FVector.ZeroVector).2.m_ProjectileState.fTotalTime = 3
      ∧ (UpdateHPM (SampleFlight (1 / 2 : ℝ) 3 2 0) ⟨1, 0, 0⟩ ⟨4, 0, 0⟩ 0 FVector.ZeroVector
          FVector.ZeroVector).2.m_Params = (SampleFlight (1 / 2 : ℝ) 3 2 0).m_Params := by
  have ht : 0 < (SampleFlight (1 / 2 : ℝ) 3 2 0).m_ProjectileState.fTimeLeft := by
    norm_num [SampleFlight]
  have key := tick_frame (SampleFlight (1 / 2 : ℝ) 3 2 0) ⟨1, 0, 0⟩ ⟨4, 0, 0⟩ 0
    FVector.ZeroVector FVector.ZeroVector (SampleContext (1 / 2)) ⟨1 / 2⟩ rfl rfl ht
  refine ⟨⟨rfl, rfl, ht⟩, ?_, ?_, key.2.2.2.2.2.2.1⟩
  · rw [key.1]
    norm_num [SampleFlight]
  · rw [key.2.2.2.2.1]
    rfl

/-! ### The axes rotation -/

/-- C18 at a tilted gravity direction. With launch at the origin, target at
`d = (12/5, 3, -16/5)` and unit gravity direction `G = (3/5, 0, -4/5)` the cross-product
test passes (squared length `9/25`), the projection of `d` on the plane orthogonal to `G`
is `(0, 3, 0)` and `d . G = 4`. The rotation that `GetAxesRotation` returns maps canonical
forward `(1, 0, 0)` to the normalised projection `(0, 1, 0)`, but it maps canonical up
`(0, 0, 1)` to a vector other than `-G` and canonical right `(0, 1, 0)` to a vector other
than `Up x Fwd`, be it `(-4/5, 0, -3/5)` for the normalised `Fwd` or `(-12/25, 0, -9/25)`
for the row `Fwd = (0, 3/5, 0)` of the matrix; the offset handed to the arc solver has forward
component 3, a right component other than 0 and an up component other than `-(d . G)`.
`RotateVector` still undoes `UnrotateVector`, and the arc solver is asked for the target at
the launch location plus that offset. -/
theorem axes_rotation_tilted_gravity :
    (∀ Arc : ArcSolver ℝ,
        (SampleTilted : UHomingProjectileMotion ℝ).CalculateLaunchVelocity Arc
          = (SampleTilted : UHomingProjectileMotion ℝ).GetAxesRotation.RotateVector
              ((Arc (SampleTilted : UHomingProjectileMotion ℝ).WorldContextObj
                  FVector.ZeroVector
                  (FVector.ZeroVector
                    + (SampleTilted : UHomingProjectileMotion ℝ).GetAxesRotation.UnrotateVector
                        ⟨12 / 5, 3, -(16 / 5)⟩)
                  (-2) (1 / 2)).getD FVector.ZeroVector))
      ∧ (SampleTilted : UHomingProjectileMotion ℝ).m_Params.GravityDirection.SizeSquared = 1
      ∧ (SampleTilted : UHomingProjectileMotion ℝ).m_Params.TargetLocation
          - (SampleTilted : UHomingProjectileMotion ℝ).m_Params.LaunchLocation
        = ⟨12 / 5, 3, -(16 / 5)⟩
      ∧ (FVector.CrossProduct (⟨12 / 5, 3, -(16 / 5)⟩ : FVector ℝ).GetSafeNormal
          (SampleTilted : UHomingProjectileMotion ℝ).m_Params.GravityDirection).SizeSquared
        > 1 / 1000
      ∧ FVector.VectorPlaneProject (⟨12 / 5, 3, -(16 / 5)⟩ : FVector ℝ)
          (SampleTilted : UHomingProjectileMotion ℝ).m_Params.GravityDirection = ⟨0, 3, 0⟩
      ∧ FVector.DotProduct (⟨12 / 5, 3, -(16 / 5)⟩ : FVector ℝ)
          (SampleTilted : UHomingProjectileMotion ℝ).m_Params.GravityDirection = 4
      ∧ (SampleTilted : UHomingProjectileMotion ℝ).GetAxesRotation.RotateVector ⟨1, 0, 0⟩
        = ⟨0, 1, 0⟩
      ∧ (SampleTilted : UHomingProjectileMotion ℝ).GetAxesRotation.RotateVector ⟨0, 0, 1⟩
        ≠ -(SampleTilted : UHomingProjectileMotion ℝ).m_Params.GravityDirection
      ∧ (SampleTilted : UHomingProjectileMotion ℝ).GetAxesRotation.RotateVector ⟨0, 1, 0⟩
        ≠ FVector.CrossProduct
            (-(SampleTilted : UHomingProjectileMotion ℝ).m_Params.GravityDirection) ⟨0, 1, 0⟩
      ∧ (SampleTilted : UHomingProjectileMotion ℝ).GetAxesRotation.RotateVector ⟨0, 1, 0⟩
        ≠ FVector.CrossProduct
            (-(SampleTilted : UHomingProjectileMotion ℝ).m_Params.GravityDirection)
            ⟨0, 3 / 5, 0⟩
      ∧ ((SampleTilted : UHomingProjectileMotion ℝ).GetAxesRotation.UnrotateVector
          ⟨12 / 5, 3, -(16 / 5)⟩).X = 3
      ∧ ((SampleTilted : UHomingProjectileMotion ℝ).GetAxesRotation.UnrotateVector
          ⟨12 / 5, 3, -(16 / 5)⟩).Y ≠ 0
      ∧ ((SampleTilted : UHomingProjectileMotion ℝ).GetAxesRotation.UnrotateVector
          ⟨12 / 5, 3, -(16 / 5)⟩).Z
        ≠ -FVector.DotProduct (⟨12 / 5, 3, -(16 / 5)⟩ : FVector ℝ)
            (SampleTilted : UHomingProjectileMotion ℝ).m_Params.GravityDirection
      ∧ ∀ V : FVector ℝ,
        (SampleTilted : UHomingProjectileMotion ℝ).GetAxesRotation.RotateVector
          ((SampleTilted : UHomingProjectileMotion ℝ).GetAxesRotation.UnrotateVector V) = V := by
  refine ⟨fun Arc => SampleTilted_launch Arc, ?_⟩
  obtain ⟨Q, CR, SR, hc, hs, h1, hM⟩ := SampleTilted_rotation (K := ℝ)
  have hG : (SampleTilted : UHomingProjectileMotion ℝ).m_Params.GravityDirection
      = ⟨3 / 5, 0, -(4 / 5)⟩ := rfl
  have hss : (⟨12 / 5, 3, -(16 / 5)⟩ : FVector ℝ).SizeSquared = 5 * 5 := by
    norm_num [FVector.SizeSquared]
  have hn : (⟨12 / 5, 3, -(16 / 5)⟩ : FVector ℝ).GetSafeNormal
      = ⟨12 / 25, 3 / 5, -(16 / 25)⟩ := by
    rw [FVector.GetSafeNormal_of_large _ (by rw [hss]; norm_num [SMALL_NUMBER]),
      FVector.Size_eq_Sqrt, hss, Sqrt_mul_self_of_nonneg (5 : ℝ) (by norm_num)]
    ext <;> norm_num
  have hsplit : ¬ (SR = 3 / 5 ∧ CR = 4 / 5) := by
    rintro ⟨e1, e2⟩
    rw [e1] at hs
    rw [e2] at hc
    linarith
  have hQQ : Q * Q = 369 / 625 := by
    linear_combination (-(Q * Q)) * h1 + (Q * SR + 3 / 5) * hs + (Q * CR + 12 / 25) * hc
  simp only [FRotator.RotateVector, FRotator.UnrotateVector, hM, hG]
  refine ⟨by norm_num [FVector.SizeSquared], ?_, ?_, ?_, ?_, ?_, ?_, ?_, ?_, ?_, ?_, ?_, ?_⟩
  · ext <;> simp [SampleTilted, FVector.ZeroVector]
  · rw [hn]
    norm_num [FVector.CrossProduct, FVector.SizeSquared]
  · ext <;> norm_num [FVector.VectorPlaneProject, FVector.ProjectOnToNormal,
      FVector.DotProduct]
  · norm_num [FVector.DotProduct]
  · ext <;> simp [FMatrix.TransformVector]
  · intro hz
    have hx := congrArg FVector.X hz
    have hz' := congrArg FVector.Z hz
    simp [FMatrix.TransformVector] at hx hz'
    exact hsplit ⟨by linarith, by linarith⟩
  · intro hz
    have hx := congrArg FVector.X hz
    have hz' := congrArg FVector.Z hz
    simp [FMatrix.TransformVector, FVector.CrossProduct] at hx hz'
    exact hsplit ⟨by linarith, by linarith⟩
  · intro hz
    have hx := congrArg FVector.X hz
    have hz' := congrArg FVector.Z hz
    simp [FMatrix.TransformVector, FVector.CrossProduct] at hx hz'
    have e1 : CR = 12 / 25 := by linarith
    have e2 : SR = 9 / 25 := by linarith
    rw [e1, e2] at h1
    norm_num at h1
  · norm_num [FMatrix.TransformVector, FMatrix.GetTransposed]
  · intro hy
    simp [FMatrix.TransformVector, FMatrix.GetTransposed] at hy
    have hy2 : Q * (12 / 5 * -CR + -(16 / 5) * -SR) = 96 / 125 := by
      linear_combination (-(12 / 5 : ℝ)) * hc + (16 / 5) * hs
    have hy3 : (12 / 5 * -CR + -(16 / 5) * -SR : ℝ) = 0 := by linarith
    rw [hy3, mul_zero] at hy2
    norm_num at hy2
  · intro hz
    simp [FMatrix.TransformVector, FMatrix.GetTransposed, FVector.DotProduct] at hz
    have hz2 : Q * (12 / 5 * SR + 16 / 5 * CR) = 372 / 125 := by
      linear_combination (12 / 5 : ℝ) * hs + (16 / 5) * hc
    have hz3 : (12 / 5 * SR + 16 / 5 * CR : ℝ) = 4 := by linarith
    rw [hz3] at hz2
    have hQ : Q = 93 / 125 := by linarith
    rw [hQ] at hQQ
    norm_num at hQQ
  · intro V
    ext
    · simp only [FMatrix.TransformVector, FMatrix.GetTransposed]
      linear_combination (V.X) * h1
    · simp only [FMatrix.TransformVector, FMatrix.GetTransposed]
      ring
    · simp only [FMatrix.TransformVector, FMatrix.GetTransposed]
      linear_combination (V.Z) * h1

/-! ### Arrival in the plane -/

/-- C19, as amended. For every object with a valid context, remaining time `T = N * dt`
(`N` a positive integer, `dt > 0`), unit gravity direction, cached vertical velocity along
gravity and a stationary target whose plane-projected gap from the start position is the
zero vector or has squared length at least `N * N * SMALL_NUMBER`: if the caller moves the
position by `NetVelocity * dt` after each `UpdateHPM` call, then after `k ≤ N` calls the
plane-projected gap `P (target) - P (position)` is `(1 - k / N)` times the initial gap,
after the `N`-th call it is the zero vector, and the projection of the position on the
plane through the launch location orthogonal to gravity equals that of the target. -/
theorem plane_arrival (self : UHomingProjectileMotion K) (Start Target : FVector K)
    (TimeStamp : ℕ → K) (XVel YVel : ℕ → FVector K) (Ctx : UObject K) (World : UWorld K)
    (N : ℕ) (v : K)
    (h : self.WorldContextObj = some Ctx) (hw : Ctx.GetWorld = some World)
    (hdt : 0 < World.GetDeltaSeconds) (hN : 1 ≤ N)
    (hT : self.m_ProjectileState.fTimeLeft = N * World.GetDeltaSeconds)
    (hG : self.m_Params.GravityDirection.SizeSquared = 1)
    (hY : self.m_ProjectileState.YVel = self.m_Params.GravityDirection * v)
    (hgap : PlaneOffset self Start Target = FVector.ZeroVector
      ∨ SMALL_NUMBER * ((N : K) * N) ≤ (PlaneOffset self Start Target).SizeSquared) :
    (∀ k : ℕ, k ≤ N →
        PlaneOffset self
            (Integrate Target World.GetDeltaSeconds TimeStamp XVel YVel self Start k).2 Target
          = PlaneOffset self Start Target * (1 - (k : K) / (N : K)))
      ∧ PlaneOffset self
          (Integrate Target World.GetDeltaSeconds TimeStamp XVel YVel self Start N).2 Target
        = FVector.ZeroVector
      ∧ FVector.PointPlaneProject
          (Integrate Target World.GetDeltaSeconds TimeStamp XVel YVel self Start N).2
          self.m_Params.LaunchLocation self.m_Params.GravityDirection
        = FVector.PointPlaneProject Target self.m_Params.LaunchLocation
          self.m_Params.GravityDirection := by
  have hN0 : (N : K) ≠ 0 := by
    have : (0 : K) < N := by exact_mod_cast (by omega : 0 < N)
    exact this.ne'
  have hzero : PlaneOffset self
      (Integrate Target World.GetDeltaSeconds TimeStamp XVel YVel self Start N).2 Target
      = FVector.ZeroVector := by
    rw [(Integrate_plane_invariant self Start Target TimeStamp XVel YVel Ctx World N v h hw hdt
      hN hT hG hY hgap N le_rfl).2.2.2.1, sub_self, zero_div]
    ext <;> simp
  refine ⟨?_, hzero, PointPlaneProject_eq_of_PlaneOffset self _ _ hzero⟩
  intro k hk
  rw [(Integrate_plane_invariant self Start Target TimeStamp XVel YVel Ctx World N v h hw hdt
    hN hT hG hY hgap k hk).2.2.2.1]
  congr 1
  field_simp

/-- C19 fails as stated: with one frame of one second left (`N = 1`), gravity along -Z, the
projectile at the origin and the target at `(1/100000, 0, 0)`, the call steers along the
fallback direction: the position becomes `(-1/100000, 0, 0)`, the plane-projected gap
`(2/100000, 0, 0)` instead of zero, and the projections of position and target differ. -/
theorem plane_arrival_fails :
    (SampleFlight (1 : ℝ) 1 1 0).WorldContextObj = some (SampleContext 1)
      ∧ (SampleContext (1 : ℝ)).GetWorld = some ⟨1⟩
      ∧ (SampleFlight (1 : ℝ) 1 1 0).m_ProjectileState.fTimeLeft = ((1 : ℕ) : ℝ) * 1
      ∧ (SampleFlight (1 : ℝ) 1 1 0).m_Params.GravityDirection.SizeSquared = 1
      ∧ (SampleFlight (1 : ℝ) 1 1 0).m_ProjectileState.YVel
        = (SampleFlight (1 : ℝ) 1 1 0).m_Params.GravityDirection * (0 : ℝ)
      ∧ (Integrate ⟨1 / 100000, 0, 0⟩ 1 (fun _ => 0) (fun _ => FVector.ZeroVector)
          (fun _ => FVector.ZeroVector) (SampleFlight (1 : ℝ) 1 1 0) ⟨0, 0, 0⟩ 1).2
        = ⟨-(1 / 100000), 0, 0⟩
      ∧ PlaneOffset (SampleFlight (1 : ℝ) 1 1 0)
          (Integrate ⟨1 / 100000, 0, 0⟩ 1 (fun _ => 0) (fun _ => FVector.ZeroVector)
            (fun _ => FVector.ZeroVector) (SampleFlight (1 : ℝ) 1 1 0) ⟨0, 0, 0⟩ 1).2
          ⟨1 / 100000, 0, 0⟩
        = ⟨2 / 100000, 0, 0⟩
      ∧ FVector.PointPlaneProject
          (Integrate ⟨1 / 100000, 0, 0⟩ 1 (fun _ => 0) (fun _ => FVector.ZeroVector)
            (fun _ => FVector.ZeroVector) (SampleFlight (1 : ℝ) 1 1 0) ⟨0, 0, 0⟩ 1).2
          (SampleFlight (1 : ℝ) 1 1 0).m_Params.LaunchLocation
          (SampleFlight (1 : ℝ) 1 1 0).m_Params.GravityDirection
        ≠ FVector.PointPlaneProject ⟨1 / 100000, 0, 0⟩
          (SampleFlight (1 : ℝ) 1 1 0).m_Params.LaunchLocation
          (SampleFlight (1 : ℝ) 1 1 0).m_Params.GravityDirection := by
  have ht : (0 : ℝ) < (SampleFlight (1 : ℝ) 1 1 0).m_ProjectileState.fTimeLeft := by
    norm_num [SampleFlight]
  obtain ⟨aNet, -, -, -, -⟩ := Sample_fallback_step (SampleFlight (1 : ℝ) 1 1 0)
    ⟨0, 0, 0⟩ ⟨1 / 100000, 0, 0⟩ 0 FVector.ZeroVector FVector.ZeroVector (SampleContext 1)
    ⟨1⟩ 0 rfl rfl ht rfl rfl rfl (by norm_num [FVector.SizeSquared, SMALL_NUMBER])
  have hs1 : (⟨1 / 100000 - 0, 0 - 0, 0⟩ : FVector ℝ).Size = 1 / 100000 := by
    have h1 : (⟨1 / 100000 - 0, 0 - 0, 0⟩ : FVector ℝ) = ⟨1 / 100000, 0, 0⟩ := by
      ext <;> norm_num
    rw [h1, FVector.Size_along_X, abs_of_pos (by norm_num)]
  simp only at aNet
  rw [hs1] at aNet
  have hpos : (Integrate ⟨1 / 100000, 0, 0⟩ 1 (fun _ => 0) (fun _ => FVector.ZeroVector)
      (fun _ => FVector.ZeroVector) (SampleFlight (1 : ℝ) 1 1 0) ⟨0, 0, 0⟩ 1).2
      = ⟨-(1 / 100000), 0, 0⟩ := by
    show (⟨0, 0, 0⟩ : FVector ℝ) + (UpdateHPM (SampleFlight (1 : ℝ) 1 1 0) ⟨0, 0, 0⟩
      ⟨1 / 100000, 0, 0⟩ 0 FVector.ZeroVector FVector.ZeroVector).1.NetVelocity * (1 : ℝ) = _
    rw [aNet]
    ext <;> norm_num [SampleFlight, FVector.DownVector]
  have hoff : PlaneOffset (SampleFlight (1 : ℝ) 1 1 0) ⟨-(1 / 100000), 0, 0⟩
      ⟨1 / 100000, 0, 0⟩ = ⟨2 / 100000, 0, 0⟩ := by
    rw [(Sample_offsets (SampleFlight (1 : ℝ) 1 1 0) ⟨-(1 / 100000), 0, 0⟩
      ⟨1 / 100000, 0, 0⟩ rfl rfl).1]
    ext <;> norm_num
  refine ⟨rfl, rfl, by norm_num [SampleFlight],
    by norm_num [SampleFlight, FVector.SizeSquared, FVector.DownVector], rfl, hpos, ?_, ?_⟩
  · rw [hpos, hoff]
  · rw [hpos]
    intro hc
    have hx := congrArg FVector.X hc
    norm_num [FVector.PointPlaneProject, FVector.PointPlaneDist, FVector.DotProduct,
      SampleFlight, FVector.DownVector, FVector.ZeroVector] at hx

/-- The amended statement at `N = 1`: one frame of one second left, start at the origin and
target at `(4, 0, -1)`; after the call the plane-projected gap is the zero vector. -/
theorem plane_arrival_witness :
    ((SampleFlight (1 : ℝ) 1 1 0).WorldContextObj = some (SampleContext 1)
      ∧ (SampleContext (1 : ℝ)).GetWorld = some ⟨1⟩
      ∧ (0 : ℝ) < 1 ∧ 1 ≤ 1
      ∧ (SampleFlight (1 : ℝ) 1 1 0).m_ProjectileState.fTimeLeft = ((1 : ℕ) : ℝ) * 1
      ∧ (SampleFlight (1 : ℝ) 1 1 0).m_Params.GravityDirection.SizeSquared = 1
      ∧ (SampleFlight (1 : ℝ) 1 1 0).m_ProjectileState.YVel
        = (SampleFlight (1 : ℝ) 1 1 0).m_Params.GravityDirection * (0 : ℝ)
      ∧ SMALL_NUMBER * (((1 : ℕ) : ℝ) * (1 : ℕ))
        ≤ (PlaneOffset (SampleFlight (1 : ℝ) 1 1 0) ⟨0, 0, 0⟩ ⟨4, 0, -1⟩).SizeSquared)
      ∧ PlaneOffset (SampleFlight (1 : ℝ) 1 1 0)
          (Integrate ⟨4, 0, -1⟩ 1 (fun _ => 0) (fun _ => FVector.ZeroVector)
            (fun _ => FVector.ZeroVector) (SampleFlight (1 : ℝ) 1 1 0) ⟨0, 0, 0⟩ 1).2
          ⟨4, 0, -1⟩
        = FVector.ZeroVector := by
  have hT : (SampleFlight (1 : ℝ) 1 1 0).m_ProjectileState.fTimeLeft = ((1 : ℕ) : ℝ) * 1 := by
    norm_num [SampleFlight]
  have hG : (SampleFlight (1 : ℝ) 1 1 0).m_Params.GravityDirection.SizeSquared = 1 := by
    norm_num [SampleFlight, FVector.SizeSquared, FVector.DownVector]
  have hgap : SMALL_NUMBER * (((1 : ℕ) : ℝ) * (1 : ℕ))
      ≤ (PlaneOffset (SampleFlight (1 : ℝ) 1 1 0) ⟨0, 0, 0⟩ ⟨4, 0, -1⟩).SizeSquared := by
    rw [(Sample_offsets (SampleFlight (1 : ℝ) 1 1 0) ⟨0, 0, 0⟩ ⟨4, 0, -1⟩ rfl rfl).1]
    norm_num [FVector.SizeSquared, SMALL_NUMBER]
  exact ⟨⟨rfl, rfl, by norm_num, le_rfl, hT, hG, rfl, hgap⟩,
    (plane_arrival (SampleFlight (1 : ℝ) 1 1 0) ⟨0, 0, 0⟩ ⟨4, 0, -1⟩ (fun _ => 0)
      (fun _ => FVector.ZeroVector) (fun _ => FVector.ZeroVector) (SampleContext 1) ⟨1⟩ 1 0
      rfl rfl (by norm_num) le_rfl hT hG rfl (Or.inr hgap)).2.1⟩

/-! ### The axes of the cached velocities -/

/-- C20, as amended. After a `SetupHPM` with a non-null context and a unit gravity
direction `G`, and after any number of `UpdateHPM` calls that follow it, the cached
vertical velocity `YVel` is a multiple of `G`, the cached horizontal velocity `XVel` is a
multiple of the current linear direction, and the linear direction and `XVel` are
orthogonal to `G`. After each effective call (context with a world, remaining time above 0)
the net velocity is `XVel + YVel`, its projection on `G` is `YVel` and its projection on
the linear direction is `XVel`; `GetGravityComponent` and `GetLinearComponent` return
these two when the squared length of the net velocity exceeds `SMALL_NUMBER`, and the zero
vector otherwise. Right after `SetupHPM` the net velocity is the zero vector. -/
theorem velocity_axis_invariant (Arc : ArcSolver K) (self : UHomingProjectileMotion K)
    (Ctx : UObject K) (LaunchParams : FProjectileParams K) (XVel YVel : FVector K)
    (Args : ℕ → FUpdateArgs K) (n : ℕ)
    (hG : LaunchParams.GravityDirection.SizeSquared = 1) :
    (∃ w : K,
        (SetupHPM_then_calls Arc self Ctx LaunchParams XVel YVel Args n).m_ProjectileState.YVel
          = LaunchParams.GravityDirection * w)
      ∧ (∃ c : K,
        (SetupHPM_then_calls Arc self Ctx LaunchParams XVel YVel Args n).m_ProjectileState.XVel
          = (SetupHPM_then_calls Arc self Ctx LaunchParams XVel YVel Args n
              ).m_ProjectileState.LinearDirection * c)
      ∧ FVector.DotProduct
          (SetupHPM_then_calls Arc self Ctx LaunchParams XVel YVel Args n
            ).m_ProjectileState.LinearDirection LaunchParams.GravityDirection = 0
      ∧ FVector.DotProduct
          (SetupHPM_then_calls Arc self Ctx LaunchParams XVel YVel Args n
            ).m_ProjectileState.XVel LaunchParams.GravityDirection = 0
      ∧ (SetupHPM_then_calls Arc self Ctx LaunchParams XVel YVel Args 0
          ).m_ProjectileState.NetVelocity = FVector.ZeroVector
      ∧ ((∃ World : UWorld K, Ctx.GetWorld = some World)
          ∧ 0 < (SetupHPM_then_calls Arc self Ctx LaunchParams XVel YVel Args n
              ).m_ProjectileState.fTimeLeft →
        (SetupHPM_then_calls Arc self Ctx LaunchParams XVel YVel Args (n + 1)
            ).m_ProjectileState.NetVelocity
          = (SetupHPM_then_calls Arc self Ctx LaunchParams XVel YVel Args (n + 1)
              ).m_ProjectileState.XVel
            + (SetupHPM_then_calls Arc self Ctx LaunchParams XVel YVel Args (n + 1)
              ).m_ProjectileState.YVel
        ∧ (SetupHPM_then_calls Arc self Ctx LaunchParams XVel YVel Args (n + 1)
            ).m_ProjectileState.NetVelocity.ProjectOnTo LaunchParams.GravityDirection
          = (SetupHPM_then_calls Arc self Ctx LaunchParams XVel YVel Args (n + 1)
              ).m_ProjectileState.YVel
        ∧ (SetupHPM_then_calls Arc self Ctx LaunchParams XVel YVel Args (n + 1)
            ).m_ProjectileState.NetVelocity.ProjectOnTo
            (SetupHPM_then_calls Arc self Ctx LaunchParams XVel YVel Args (n + 1)
              ).m_ProjectileState.LinearDirection
          = (SetupHPM_then_calls Arc self Ctx LaunchParams XVel YVel Args (n + 1)
              ).m_ProjectileState.XVel
        ∧ (SMALL_NUMBER
            < (SetupHPM_then_calls Arc self Ctx LaunchParams XVel YVel Args (n + 1)
                ).m_ProjectileState.NetVelocity.SizeSquared →
          (SetupHPM_then_calls Arc self Ctx LaunchParams XVel YVel Args (n + 1)
              ).GetGravityComponent
              (SetupHPM_then_calls Arc self Ctx LaunchParams XVel YVel Args (n + 1)
                ).m_ProjectileState.NetVelocity
            = (SetupHPM_then_calls Arc self Ctx LaunchParams XVel YVel Args (n + 1)
                ).m_ProjectileState.YVel
          ∧ (SetupHPM_then_calls Arc self Ctx LaunchParams XVel YVel Args (n + 1)
              ).GetLinearComponent
              (SetupHPM_then_calls Arc self Ctx LaunchParams XVel YVel Args (n + 1)
                ).m_ProjectileState.NetVelocity
            = (SetupHPM_then_calls Arc self Ctx LaunchParams XVel YVel Args (n + 1)
                ).m_ProjectileState.XVel)
        ∧ ((SetupHPM_then_calls Arc self Ctx LaunchParams XVel YVel Args (n + 1)
              ).m_ProjectileState.NetVelocity.SizeSquared ≤ SMALL_NUMBER →
          (SetupHPM_then_calls Arc self Ctx LaunchParams XVel YVel Args (n + 1)
              ).GetGravityComponent
              (SetupHPM_then_calls Arc self Ctx LaunchParams XVel YVel Args (n + 1)
                ).m_ProjectileState.NetVelocity
            = FVector.ZeroVector
          ∧ (SetupHPM_then_calls Arc self Ctx LaunchParams XVel YVel Args (n + 1)
              ).GetLinearComponent
              (SetupHPM_then_calls Arc self Ctx LaunchParams XVel YVel Args (n + 1)
                ).m_ProjectileState.NetVelocity
            = FVector.ZeroVector)) := by
  obtain ⟨hC, hP, _, _, _, _, _, _, _, hNet⟩ :=
    SetupHPM_fields Arc self Ctx LaunchParams XVel YVel
  have hG0 : (SetupHPM Arc self (some Ctx) LaunchParams XVel YVel
      ).m_Params.GravityDirection.SizeSquared = 1 := by rw [hP]; exact hG
  obtain ⟨aY, aX, aL⟩ := SetupHPM_axes Arc self Ctx LaunchParams XVel YVel hG
  have hPn : ∀ m : ℕ,
      (SetupHPM_then_calls Arc self Ctx LaunchParams XVel YVel Args m).m_Params
        = LaunchParams := by
    intro m
    rw [SetupHPM_then_calls, UpdateHPM_calls_params, hP]
  have hCn : (SetupHPM_then_calls Arc self Ctx LaunchParams XVel YVel Args n).WorldContextObj
      = some Ctx := by
    rw [SetupHPM_then_calls, UpdateHPM_calls_context, hC]
  obtain ⟨iY, iX, iL⟩ := UpdateHPM_calls_axes Args
    (SetupHPM Arc self (some Ctx) LaunchParams XVel YVel) hG0 aY aX aL n
  have iY' : ∃ w : K,
      (SetupHPM_then_calls Arc self Ctx LaunchParams XVel YVel Args n).m_ProjectileState.YVel
        = (SetupHPM_then_calls Arc self Ctx LaunchParams XVel YVel Args n
            ).m_Params.GravityDirection * w := iY
  have iL' : FVector.DotProduct
      (SetupHPM_then_calls Arc self Ctx LaunchParams XVel YVel Args n
        ).m_ProjectileState.LinearDirection LaunchParams.GravityDirection = 0 := by
    have h1 : FVector.DotProduct
        (SetupHPM_then_calls Arc self Ctx LaunchParams XVel YVel Args n
          ).m_ProjectileState.LinearDirection
        (SetupHPM_then_calls Arc self Ctx LaunchParams XVel YVel Args n
          ).m_Params.GravityDirection = 0 := iL
    rwa [hPn n] at h1
  have iY2 : ∃ w : K,
      (SetupHPM_then_calls Arc self Ctx LaunchParams XVel YVel Args n).m_ProjectileState.YVel
        = LaunchParams.GravityDirection * w := by
    obtain ⟨w, hw⟩ := iY'
    exact ⟨w, by rw [hw, hPn n]⟩
  refine ⟨iY2, iX, iL', ?_, hNet, ?_⟩
  · obtain ⟨c, hc⟩ := iX
    have hc' : (SetupHPM_then_calls Arc self Ctx LaunchParams XVel YVel Args n
        ).m_ProjectileState.XVel
        = (SetupHPM_then_calls Arc self Ctx LaunchParams XVel YVel Args n
          ).m_ProjectileState.LinearDirection * c := hc
    rw [hc', FVector.DotProduct_mul_left, iL', zero_mul]
  · rintro ⟨⟨World, hw⟩, ht⟩
    have key := UpdateHPM_net_components
      (SetupHPM_then_calls Arc self Ctx LaunchParams XVel YVel Args n)
      (Args n).CurrentLocation (Args n).CurrentTargetLocation (Args n).TimeStamp (Args n).XVel
      (Args n).YVel Ctx World hCn hw ht (by rw [hPn n]; exact hG) iY'
    have hstep : (UpdateHPM (SetupHPM_then_calls Arc self Ctx LaunchParams XVel YVel Args n)
        (Args n).CurrentLocation (Args n).CurrentTargetLocation (Args n).TimeStamp
        (Args n).XVel (Args n).YVel).2
        = SetupHPM_then_calls Arc self Ctx LaunchParams XVel YVel Args (n + 1) := rfl
    rw [hstep, hPn (n + 1)] at key
    exact key
/-- C20 fails as stated, in two ways. Right after a `SetupHPM` whose target is 2 above the
launch location (unit gravity direction `(0, 0, -1)`, gravity magnitude 1) the cached
vertical velocity is `(0, 0, 2)` while the net velocity is the zero vector, and so is its
gravity component. And after a `SetupHPM` whose target is 2 below the launch location, one
effective call with the projectile at the origin and the target `1/100000` below it stores
the vertical velocity `(0, 0, -1/200000)`, also the net velocity, whose squared length is
below `SMALL_NUMBER`: `GetGravityComponent` of the net velocity is the zero vector. -/
theorem net_velocity_components_fail :
    ((SampleVertical (-2 : ℝ) 1).m_Params.GravityDirection.SizeSquared = 1
      ∧ (SetupHPM (fun _ _ _ _ _ => none) (SampleVertical (-2 : ℝ) 1)
          (some (SampleContext 1)) (SampleVertical (-2 : ℝ) 1).m_Params FVector.ZeroVector
          FVector.ZeroVector).m_ProjectileState.YVel = ⟨0, 0, 2⟩
      ∧ (SetupHPM (fun _ _ _ _ _ => none) (SampleVertical (-2 : ℝ) 1)
          (some (SampleContext 1)) (SampleVertical (-2 : ℝ) 1).m_Params FVector.ZeroVector
          FVector.ZeroVector).m_ProjectileState.NetVelocity = FVector.ZeroVector
      ∧ (SetupHPM (fun _ _ _ _ _ => none) (SampleVertical (-2 : ℝ) 1)
          (some (SampleContext 1)) (SampleVertical (-2 : ℝ) 1).m_Params FVector.ZeroVector
          FVector.ZeroVector).GetGravityComponent
          (SetupHPM (fun _ _ _ _ _ => none) (SampleVertical (-2 : ℝ) 1)
            (some (SampleContext 1)) (SampleVertical (-2 : ℝ) 1).m_Params FVector.ZeroVector
            FVector.ZeroVector).m_ProjectileState.NetVelocity
        ≠ (SetupHPM (fun _ _ _ _ _ => none) (SampleVertical (-2 : ℝ) 1)
            (some (SampleContext 1)) (SampleVertical (-2 : ℝ) 1).m_Params FVector.ZeroVector
            FVector.ZeroVector).m_ProjectileState.YVel)
    ∧ ((SampleVertical (2 : ℝ) 1).m_Params.GravityDirection.SizeSquared = 1
      ∧ (SampleContext (1 : ℝ)).GetWorld = some ⟨1⟩
      ∧ 0 < (SetupHPM (fun _ _ _ _ _ => none) (SampleVertical (2 : ℝ) 1)
          (some (SampleContext 1)) (SampleVertical (2 : ℝ) 1).m_Params FVector.ZeroVector
          FVector.ZeroVector).m_ProjectileState.fTimeLeft
      ∧ (UpdateHPM (SetupHPM (fun _ _ _ _ _ => none) (SampleVertical (2 : ℝ) 1)
            (some (SampleContext 1)) (SampleVertical (2 : ℝ) 1).m_Params FVector.ZeroVector
            FVector.ZeroVector) ⟨0, 0, 0⟩ ⟨0, 0, -(1 / 100000)⟩ 0 FVector.ZeroVector
          FVector.ZeroVector).2.m_ProjectileState.YVel = ⟨0, 0, -(1 / 200000)⟩
      ∧ (UpdateHPM (SetupHPM (fun _ _ _ _ _ => none) (SampleVertical (2 : ℝ) 1)
            (some (SampleContext 1)) (SampleVertical (2 : ℝ) 1).m_Params FVector.ZeroVector
            FVector.ZeroVector) ⟨0, 0, 0⟩ ⟨0, 0, -(1 / 100000)⟩ 0 FVector.ZeroVector
          FVector.ZeroVector).2.m_ProjectileState.NetVelocity = ⟨0, 0, -(1 / 200000)⟩
      ∧ (UpdateHPM (SetupHPM (fun _ _ _ _ _ => none) (SampleVertical (2 : ℝ) 1)
            (some (SampleContext 1)) (SampleVertical (2 : ℝ) 1).m_Params FVector.ZeroVector
            FVector.ZeroVector) ⟨0, 0, 0⟩ ⟨0, 0, -(1 / 100000)⟩ 0 FVector.ZeroVector
          FVector.ZeroVector).2.GetGravityComponent
          (UpdateHPM (SetupHPM (fun _ _ _ _ _ => none) (SampleVertical (2 : ℝ) 1)
              (some (SampleContext 1)) (SampleVertical (2 : ℝ) 1).m_Params FVector.ZeroVector
              FVector.ZeroVector) ⟨0, 0, 0⟩ ⟨0, 0, -(1 / 100000)⟩ 0 FVector.ZeroVector
            FVector.ZeroVector).2.m_ProjectileState.NetVelocity
        = FVector.ZeroVector) := by
  have hne : ∀ a : ℝ, a ≠ 0 → (⟨0, 0, a⟩ : FVector ℝ) ≠ FVector.ZeroVector := by
    intro a ha hc
    exact ha (congrArg FVector.Z hc)
  constructor
  · have hG : (SampleVertical (-2 : ℝ) 1).m_Params.GravityDirection.SizeSquared = 1 := by
      norm_num [SampleVertical, FVector.SizeSquared, FVector.DownVector]
    have h4 : (2 : ℝ) * (SampleVertical (-2 : ℝ) 1).m_Params.fGravity * |(-2 : ℝ)|
        = 2 * 2 := by
      norm_num [SampleVertical]
    obtain ⟨aY, aN, aG⟩ := SetupHPM_above (fun _ _ _ _ _ => none) (SampleVertical (-2 : ℝ) 1)
      (SampleContext 1) (SampleVertical (-2 : ℝ) 1).m_Params FVector.ZeroVector
      FVector.ZeroVector (-2) hG rfl (by norm_num) (by norm_num [SMALL_NUMBER])
      (by rw [h4]; norm_num [SMALL_NUMBER])
    rw [h4, Sqrt_mul_self_of_nonneg (2 : ℝ) (by norm_num)] at aY
    have aY2 : (SetupHPM (fun _ _ _ _ _ => none) (SampleVertical (-2 : ℝ) 1)
        (some (SampleContext 1)) (SampleVertical (-2 : ℝ) 1).m_Params FVector.ZeroVector
        FVector.ZeroVector).m_ProjectileState.YVel = ⟨0, 0, 2⟩ := by
      rw [aY]
      ext <;> norm_num [SampleVertical, FVector.DownVector]
    refine ⟨hG, aY2, aN, ?_⟩
    rw [aG, aY2]
    exact (hne 2 (by norm_num)).symm
  · have hG : (SampleVertical (2 : ℝ) 1).m_Params.GravityDirection.SizeSquared = 1 := by
      norm_num [SampleVertical, FVector.SizeSquared, FVector.DownVector]
    obtain ⟨hC, hP, -⟩ := SetupHPM_fields (fun _ _ _ _ _ => none) (SampleVertical (2 : ℝ) 1)
      (SampleContext 1) (SampleVertical (2 : ℝ) 1).m_Params FVector.ZeroVector
      FVector.ZeroVector
    have hTL := SetupHPM_on_axis_time (fun _ _ _ _ _ => none) (SampleVertical (2 : ℝ) 1)
      (SampleContext 1) (SampleVertical (2 : ℝ) 1).m_Params FVector.ZeroVector
      FVector.ZeroVector 2 hG (by norm_num [SampleVertical]) rfl (by norm_num [SMALL_NUMBER])
    have h4 : 2 * |(2 : ℝ)| / (SampleVertical (2 : ℝ) 1).m_Params.fGravity = 2 * 2 := by
      norm_num [SampleVertical]
    rw [h4, Sqrt_mul_self_of_nonneg (2 : ℝ) (by norm_num)] at hTL
    have hYV := SetupHPM_below (fun _ _ _ _ _ => none) (SampleVertical (2 : ℝ) 1)
      (SampleContext 1) (SampleVertical (2 : ℝ) 1).m_Params FVector.ZeroVector
      FVector.ZeroVector 2 hG rfl (by norm_num)
    generalize SetupHPM (fun _ _ _ _ _ => none) (SampleVertical (2 : ℝ) 1)
      (some (SampleContext 1)) (SampleVertical (2 : ℝ) 1).m_Params FVector.ZeroVector
      FVector.ZeroVector = S at hC hP hTL hYV ⊢
    have ht : 0 < S.m_ProjectileState.fTimeLeft := by rw [hTL]; norm_num
    have hGS : S.m_Params.GravityDirection.SizeSquared = 1 := by rw [hP]; exact hG
    have hLS : S.m_Params.LaunchLocation = FVector.ZeroVector := by rw [hP]; rfl
    have hDS : S.m_Params.GravityDirection = FVector.DownVector := by rw [hP]; rfl
    obtain ⟨hoff, hgo⟩ := Sample_offsets S ⟨0, 0, 0⟩ ⟨0, 0, -(1 / 100000)⟩ hLS hDS
    have hoff0 : PlaneOffset S ⟨0, 0, 0⟩ ⟨0, 0, -(1 / 100000)⟩ = FVector.ZeroVector := by
      rw [hoff]
      ext <;> norm_num [FVector.ZeroVector]
    obtain ⟨sNet, sY, -, -, -⟩ := UpdateHPM_homing_step S ⟨0, 0, 0⟩ ⟨0, 0, -(1 / 100000)⟩ 0
      FVector.ZeroVector FVector.ZeroVector (SampleContext 1) ⟨1⟩ 0 hC rfl ht hGS hYV
      (Or.inl hoff0)
    obtain ⟨nSum, -, -, -, nSmall⟩ := UpdateHPM_net_components S ⟨0, 0, 0⟩
      ⟨0, 0, -(1 / 100000)⟩ 0 FVector.ZeroVector FVector.ZeroVector (SampleContext 1) ⟨1⟩
      hC rfl ht hGS ⟨0, hYV⟩
    have hN2 : (UpdateHPM S ⟨0, 0, 0⟩ ⟨0, 0, -(1 / 100000)⟩ 0 FVector.ZeroVector
        FVector.ZeroVector).2.m_ProjectileState.NetVelocity
        = (UpdateHPM S ⟨0, 0, 0⟩ ⟨0, 0, -(1 / 100000)⟩ 0 FVector.ZeroVector
          FVector.ZeroVector).1.NetVelocity := by
      rw [UpdateHPM_effective S _ _ _ _ _ (SampleContext 1) ⟨1⟩ hC rfl ht]
    have yVal : (UpdateHPM S ⟨0, 0, 0⟩ ⟨0, 0, -(1 / 100000)⟩ 0 FVector.ZeroVector
        FVector.ZeroVector).2.m_ProjectileState.YVel = ⟨0, 0, -(1 / 200000)⟩ := by
      rw [sY, hgo, hTL, hDS]
      ext <;> norm_num [FVector.DownVector]
    have nVal : (UpdateHPM S ⟨0, 0, 0⟩ ⟨0, 0, -(1 / 100000)⟩ 0 FVector.ZeroVector
        FVector.ZeroVector).2.m_ProjectileState.NetVelocity = ⟨0, 0, -(1 / 200000)⟩ := by
      rw [hN2, sNet, hoff0, hgo, hTL, hDS]
      ext <;> norm_num [FVector.DownVector, FVector.ZeroVector]
    refine ⟨hG, rfl, ht, yVal, nVal, ?_⟩
    exact (nSmall (by rw [nVal]; norm_num [FVector.SizeSquared, SMALL_NUMBER])).1

/-- The amended statement for a target 2 above the launch location and a call with the
projectile at the origin: after the call the linear direction is orthogonal to gravity. -/
theorem velocity_axis_invariant_witness :
    (SampleVertical (-2 : ℝ) 1).m_Params.GravityDirection.SizeSquared = 1
      ∧ FVector.DotProduct
          (SetupHPM_then_calls (fun _ _ _ _ _ => none) (SampleVertical (-2 : ℝ) 1)
            (SampleContext 1) (SampleVertical (-2 : ℝ) 1).m_Params FVector.ZeroVector
            FVector.ZeroVector (SampleArgs ⟨0, 0, 0⟩ ⟨0, 0, 2⟩) 1
            ).m_ProjectileState.LinearDirection
          (SampleVertical (-2 : ℝ) 1).m_Params.GravityDirection = 0
      ∧ (SetupHPM_then_calls (fun _ _ _ _ _ => none) (SampleVertical (-2 : ℝ) 1)
            (SampleContext 1) (SampleVertical (-2 : ℝ) 1).m_Params FVector.ZeroVector
            FVector.ZeroVector (SampleArgs ⟨0, 0, 0⟩ ⟨0, 0, 2⟩) 0
            ).m_ProjectileState.NetVelocity = FVector.ZeroVector := by
  have hG : (SampleVertical (-2 : ℝ) 1).m_Params.GravityDirection.SizeSquared = 1 := by
    norm_num [SampleVertical, FVector.SizeSquared, FVector.DownVector]
  have key := velocity_axis_invariant (fun _ _ _ _ _ => none) (SampleVertical (-2 : ℝ) 1)
    (SampleContext 1) (SampleVertical (-2 : ℝ) 1).m_Params FVector.ZeroVector
    FVector.ZeroVector (SampleArgs ⟨0, 0, 0⟩ ⟨0, 0, 2⟩) 1 hG
  exact ⟨hG, key.2.2.1, key.2.2.2.2.1⟩

end Claims

end HPM
